import Mathlib

/-! # GOG plugin event bridge: shallow embedding and verified properties

The development embeds the C++ sources of the plugin
(`LuaEventDispatcher.cpp`, `DispatchEventTask.cpp`, `RuntimeContext.cpp`,
`PluginConfigLuaSettings.cpp`, `GogLuaInterface.cpp`) as Lean functions over an
explicit state and proves properties of them.

Conventions of the embedding.

* A `lua_State*` is an `Option lua_State`; `none` is the null pointer.
* A `const char*` is an `Option String`; `none` is the null pointer.
* The Lua C API is external to the repository.  It is modelled as a stack
  machine after the Lua 5.1 reference manual: every thread has a value stack,
  tables live in a heap, the registry and the globals are tables.  Calling an
  API function on a null state is undefined behaviour in C and is reported as
  `Fault.nullState`.
* Lua code that runs inside `CoronaLuaDoCall` is the environment.  Its
  behaviour is supplied as a list of `CallReaction`s, consumed one per call.
-/

namespace Gog

/-! ## Lua values and the Lua world -/

/-- Identity of a Lua thread (a main state or a coroutine). -/
abbrev lua_State := Nat

/-- Pseudo-index of the registry (`lua.h`). -/
def LUA_REGISTRYINDEX : Int := -10000

/-- Pseudo-index of the table of globals (`lua.h`). -/
def LUA_GLOBALSINDEX : Int := -10002

/-- Reference id that denotes no reference (`lauxlib.h`). -/
def LUA_NOREF : Int := -2

/-- Reference id returned by `luaL_ref` for a nil value (`lauxlib.h`). -/
def LUA_REFNIL : Int := -1

/-- Values of the Lua stack machine.  Tables and userdata are references into
the heap; `cfunction` is a C closure named after its handler and carrying one
light-userdata upvalue. -/
inductive LuaValue where
  | nil
  | boolean (b : Bool)
  | number (n : Int)
  | string (s : String)
  | table (ref : Nat)
  | function (ref : Nat)
  | cfunction (name : String) (upvalue : Nat)
  | lightuserdata (p : Nat)
  | userdata (ref : Nat)
  deriving DecidableEq, Repr, Inhabited

/-- Heap object behind a table or a full userdata: its fields and its
metatable.  Field access is modelled on the effective fields of the object (a
field reached through an `__index` chain counts as a field of the object). -/
structure LuaObject where
  fields : List (LuaValue × LuaValue)
  metatable : Option Nat
  deriving DecidableEq, Repr, Inhabited

/-- Result of running a Lua function under `lua_pcall`. -/
inductive CallOutcome where
  | returned (results : List LuaValue)
  | raised (message : LuaValue)
  deriving DecidableEq, Repr, Inhabited

/-- Behaviour of the environment during one protected call: what the callee
returns, how it changes the heap (tables, globals, registry), and which native
`OnAuthResponse(success)` callbacks are delivered to the running context while
the callee runs. -/
structure CallReaction where
  outcome : CallOutcome
  heapEffect : List LuaObject → List LuaObject
  authResponses : List Bool

/-- Reaction used once the scripted reactions are exhausted: the callee returns
nothing, changes nothing and triggers no native callback. -/
def CallReaction.quiet : CallReaction :=
  { outcome := CallOutcome.returned [], heapEffect := fun h => h, authResponses := [] }

/-- Class `LuaEventDispatcher` (`LuaEventDispatcher.h`): the Lua state the
dispatcher object was created in and its registry reference id. -/
structure LuaEventDispatcher where
  fLuaStatePointer : Option lua_State
  fLuaRegistryReferenceId : Int
  deriving DecidableEq, Repr, Inhabited

/-- Class `DispatchAuthResponseEventTask`, the only class derived from
`BaseDispatchEventTask` (`DispatchEventTask.h`): the shared dispatcher pointer
of the base class (`none` when unset) and the captured flag. -/
structure DispatchAuthResponseEventTask where
  fLuaEventDispatcherPointer : Option LuaEventDispatcher
  fSuccess : Bool
  deriving DecidableEq, Repr, Inhabited

/-- Calls into the GOG Galaxy SDK (`GalaxyApi.h`, external) made by the plugin. -/
inductive SdkCall where
  | Init (clientId clientSecret : String)
  | Shutdown
  | ProcessData
  | SignInGalaxy
  | RequestUserStatsAndAchievements
  | SetAchievement (name : String)
  | StoreStatsAndAchievements
  | GetEncryptedAppTicket
  | RequestEncryptedAppTicket
  deriving DecidableEq, Repr, Inhabited

/-- Notifications the SDK sends to a registered `IAuthListener`. -/
inductive AuthNotification where
  | success
  | failure
  | lost
  deriving DecidableEq, Repr, Inhabited

/-- The Galaxy SDK as the plugin sees it: the history of calls made into it,
the session state it reports, the error `GetError` reports after a call, whether
the plugin's auth listener is registered, and the notifications waiting for the
next `ProcessData`. -/
structure GalaxySdk where
  calls : List SdkCall
  signedIn : Bool
  loggedOn : Bool
  errorAfter : SdkCall → Option (String × String)
  authListener : Bool
  authNotifications : List AuthNotification
  encryptedAppTicket : String

/-- The environment of the Lua machine and the histories kept for the proofs.
`script` is the list of reactions of the Lua code called next.
`executed` is a history variable: the tasks on which `Execute` was called, in
call order.  `raised` holds the `OnAuthResponse(success)` callbacks that native
code has raised for the running context and that are appended to its queue at
the next delivery point (the SDK pump, or the return of the call into Lua during
which they were raised).  The sources contain no caller of `OnAuthResponse`, so
its callers are part of the environment.  `runtimeListeners` are the
subscriptions to runtime events, as pairs of event name and subscriber address.
`diagnostics` are the messages given to `CoronaLuaWarning` and
`CoronaLuaError`.  `luaCalls` is a history variable: the Lua functions invoked
through `CoronaLuaDoCall`, each with the arguments it received, in call order. -/
structure Environment where
  script : List CallReaction
  raised : List Bool
  executed : List DispatchAuthResponseEventTask
  sdk : GalaxySdk
  runtimeListeners : List (String × Nat)
  diagnostics : List String
  luaCalls : List (LuaValue × List LuaValue)

/-- The Lua machine (stacks per thread, the tables of globals and the registry
of each thread, the heap of tables, the main state of each thread) together
with its environment. -/
structure World where
  stack : lua_State → List LuaValue
  globals : lua_State → Nat
  registry : lua_State → Nat
  heap : List LuaObject
  coronaThread : lua_State → Option lua_State
  env : Environment

/-- Ways a run of the model can stop without a result: a Lua API function was
called on a null state (undefined behaviour in C), a loop did not finish within
the fuel it was given, `delete` was applied to an address that holds no live
object, or a member function was called through a pointer to no live object
(both undefined behaviour in C++). -/
inductive Fault where
  | nullState
  | outOfFuel
  | invalidDelete
  | danglingPointer
  deriving DecidableEq, Repr, Inhabited

/-! ## Lua C API primitives (external, after the Lua 5.1 manual) -/

/-- Replace the stack of thread `L`. -/
def World.setStack (w : World) (L : lua_State) (st : List LuaValue) : World :=
  { w with stack := fun l => if l = L then st else w.stack l }

/-- Heap object behind reference `ref` (an empty object when dangling). -/
def World.object (w : World) (ref : Nat) : LuaObject :=
  w.heap.getD ref { fields := [], metatable := none }

/-- Raw read of field `k` of object `ref`. -/
def World.rawget (w : World) (ref : Nat) (k : LuaValue) : LuaValue :=
  ((w.object ref).fields.lookup k).getD LuaValue.nil

/-- Raw write of field `k` of object `ref`; writing nil erases the field. -/
def World.rawset (w : World) (ref : Nat) (k v : LuaValue) : World :=
  let o := w.object ref
  let rest := o.fields.filter (fun kv => !decide (kv.1 = k))
  let fields := if v = LuaValue.nil then rest else (k, v) :: rest
  { w with heap := w.heap.set ref { o with fields := fields } }

/-- Allocate a fresh heap object and return its reference. -/
def World.alloc (w : World) (o : LuaObject) : World × Nat :=
  ({ w with heap := w.heap ++ [o] }, w.heap.length)

/-- Function `lua_gettop`. -/
def lua_gettop (w : World) (L : lua_State) : Int :=
  ((w.stack L).length : Int)

/-- Value at an acceptable index or pseudo-index (`index2adr` of `lapi.c`);
the upvalue pseudo-indices are not resolved here. -/
def valueAt (w : World) (L : lua_State) (idx : Int) : LuaValue :=
  if 0 < idx then (w.stack L).getD (idx.toNat - 1) LuaValue.nil
  else if LUA_REGISTRYINDEX < idx then
    if idx = 0 then LuaValue.nil
    else if -idx ≤ ((w.stack L).length : Int) then
      (w.stack L).getD (((w.stack L).length : Int) + idx).toNat LuaValue.nil
    else LuaValue.nil
  else if idx = LUA_REGISTRYINDEX then LuaValue.table (w.registry L)
  else if idx = LUA_GLOBALSINDEX then LuaValue.table (w.globals L)
  else LuaValue.nil

/-- Push one value on the stack of `L`. -/
def push (w : World) (L : lua_State) (v : LuaValue) : World :=
  w.setStack L (w.stack L ++ [v])

/-- Function `lua_settop`: a non-negative index resizes the stack (filling with
nil), a negative one is relative to the top. -/
def lua_settop (w : World) (L : lua_State) (idx : Int) : World :=
  let st := w.stack L
  let n : Nat := if 0 ≤ idx then idx.toNat else ((st.length : Int) + idx + 1).toNat
  w.setStack L (st.take n ++ List.replicate (n - st.length) LuaValue.nil)

/-- Macro `lua_pop(L, n)`, defined as `lua_settop(L, -(n)-1)`. -/
def lua_pop (w : World) (L : lua_State) (n : Nat) : World :=
  lua_settop w L (-(n : Int) - 1)

/-- Function `lua_pushvalue`. -/
def lua_pushvalue (w : World) (L : lua_State) (idx : Int) : World :=
  push w L (valueAt w L idx)

/-- Function `lua_pushboolean`: any non-zero integer is true. -/
def lua_pushboolean (w : World) (L : lua_State) (b : Int) : World :=
  push w L (LuaValue.boolean (decide (b ≠ 0)))

/-- Function `lua_pushstring`. -/
def lua_pushstring (w : World) (L : lua_State) (s : String) : World :=
  push w L (LuaValue.string s)

/-- Function `lua_pushnil`. -/
def lua_pushnil (w : World) (L : lua_State) : World :=
  push w L LuaValue.nil

/-- Function `lua_pushlightuserdata`. -/
def lua_pushlightuserdata (w : World) (L : lua_State) (p : Nat) : World :=
  push w L (LuaValue.lightuserdata p)

/-- Macro `lua_istable`. -/
def lua_istable (w : World) (L : lua_State) (idx : Int) : Bool :=
  match valueAt w L idx with
  | LuaValue.table _ => true
  | _ => false

/-- Macro `lua_isfunction`. -/
def lua_isfunction (w : World) (L : lua_State) (idx : Int) : Bool :=
  match valueAt w L idx with
  | LuaValue.function _ => true
  | LuaValue.cfunction _ _ => true
  | _ => false

/-- Macro `lua_isnil`. -/
def lua_isnil (w : World) (L : lua_State) (idx : Int) : Bool :=
  decide (valueAt w L idx = LuaValue.nil)

/-- Test `lua_type(L, idx) == LUA_TSTRING`. -/
def lua_isstringtype (w : World) (L : lua_State) (idx : Int) : Bool :=
  match valueAt w L idx with
  | LuaValue.string _ => true
  | _ => false

/-- The C string a `const char*` to the bytes of a Lua string denotes: the
bytes up to the first zero byte.  A Lua string may hold zero bytes; `strcmp`,
`eventName[0]`, an assignment to `std::string` and every function that takes a
`const char*` see the string up to the first of them. -/
def cString (s : String) : String :=
  String.mk (s.data.takeWhile (fun c => !decide (c = Char.ofNat 0)))

/-- Function `lua_tostring`, as the sources use its result, a `const char*`:
the C string of the string at the index, null for a value that is neither a
string nor a number (numbers are not converted in this model since every use in
the sources is guarded by a string type test). -/
def lua_tostring (w : World) (L : lua_State) (idx : Int) : Option String :=
  match valueAt w L idx with
  | LuaValue.string s => some (cString s)
  | _ => none

/-- Field `k` of the value `t`: a raw read for tables and userdata, nil for any
other value. -/
def fieldOf (w : World) (t : LuaValue) (k : LuaValue) : LuaValue :=
  match t with
  | LuaValue.table ref => w.rawget ref k
  | LuaValue.userdata ref => w.rawget ref k
  | _ => LuaValue.nil

/-- Function `lua_getfield`: pushes `t[k]` for the value `t` at the index. -/
def lua_getfield (w : World) (L : lua_State) (idx : Int) (k : String) : World :=
  push w L (fieldOf w (valueAt w L idx) (LuaValue.string k))

/-- Macro `lua_getglobal(L, s)`, defined as `lua_getfield(L, LUA_GLOBALSINDEX, s)`. -/
def lua_getglobal (w : World) (L : lua_State) (k : String) : World :=
  lua_getfield w L LUA_GLOBALSINDEX k

/-- Function `lua_rawgeti`: pushes `t[n]` for the table `t` at the index. -/
def lua_rawgeti (w : World) (L : lua_State) (idx : Int) (n : Int) : World :=
  push w L (fieldOf w (valueAt w L idx) (LuaValue.number n))

/-- Function `lua_setfield`: performs `t[k] = v` for the value `v` on top of the
stack and the value `t` at the index, then pops `v`. -/
def lua_setfield (w : World) (L : lua_State) (idx : Int) (k : String) : World :=
  let t := valueAt w L idx
  let v := valueAt w L (-1)
  let w1 := lua_pop w L 1
  match t with
  | LuaValue.table ref => w1.rawset ref (LuaValue.string k) v
  | LuaValue.userdata ref => w1.rawset ref (LuaValue.string k) v
  | _ => w1

/-- Macro `lua_setglobal(L, s)`, defined as `lua_setfield(L, LUA_GLOBALSINDEX, s)`. -/
def lua_setglobal (w : World) (L : lua_State) (k : String) : World :=
  lua_setfield w L LUA_GLOBALSINDEX k

/-- Position (counted from 0) of a stack index that is not a pseudo-index. -/
def slotOf (w : World) (L : lua_State) (idx : Int) : Nat :=
  if 0 < idx then idx.toNat - 1 else (((w.stack L).length : Int) + idx).toNat

/-- Function `lua_insert`: moves the top element into the given position,
shifting up the elements above it. -/
def lua_insert (w : World) (L : lua_State) (idx : Int) : World :=
  let st := w.stack L
  let p := slotOf w L idx
  match st.getLast? with
  | none => w
  | some top => w.setStack L (st.dropLast.take p ++ top :: st.dropLast.drop p)

/-- Function `lua_remove`: removes the element at the given position, shifting
down the elements above it. -/
def lua_remove (w : World) (L : lua_State) (idx : Int) : World :=
  w.setStack L ((w.stack L).eraseIdx (slotOf w L idx))

/-- Function `lua_createtable` with no preallocation (`lua_newtable`). -/
def lua_createtable (w : World) (L : lua_State) : World :=
  let r := w.alloc { fields := [], metatable := none }
  push r.1 L (LuaValue.table r.2)

/-- Integer keys in use in a list of fields. -/
def usedRefs (fields : List (LuaValue × LuaValue)) : List Int :=
  fields.filterMap (fun kv => match kv.1 with
    | LuaValue.number n => some n
    | _ => none)

/-- Function `luaL_ref` on the table at `idx`: pops the top value, stores it
under an unused positive integer key and returns that key; a nil value is
popped and `LUA_REFNIL` returned. -/
def luaL_ref (w : World) (L : lua_State) (idx : Int) : World × Int :=
  let t := valueAt w L idx
  let v := valueAt w L (-1)
  let w1 := lua_pop w L 1
  if v = LuaValue.nil then (w1, LUA_REFNIL)
  else
    match t with
    | LuaValue.table ref =>
      let key : Int := ((usedRefs (w1.object ref).fields).foldl max 0) + 1
      (w1.rawset ref (LuaValue.number key) v, key)
    | _ => (w1, LUA_REFNIL)

/-- Function `luaL_unref` on the table at `idx`: releases a reference;
negative ids are ignored. -/
def luaL_unref (w : World) (L : lua_State) (idx : Int) (ref : Int) : World :=
  if ref < 0 then w
  else
    match valueAt w L idx with
    | LuaValue.table t => w.rawset t (LuaValue.number ref) LuaValue.nil
    | _ => w

/-- Function `lua_setmetatable`: pops a table (or nil) from the stack and makes
it the metatable of the table or userdata at the index. -/
def lua_setmetatable (w : World) (L : lua_State) (idx : Int) : World :=
  let target := valueAt w L idx
  let mt : Option Nat := match valueAt w L (-1) with
    | LuaValue.table ref => some ref
    | _ => none
  let w1 := lua_pop w L 1
  let setOn (ref : Nat) : World :=
    { w1 with heap := w1.heap.set ref { w1.object ref with metatable := mt } }
  match target with
  | LuaValue.table ref => setOn ref
  | LuaValue.userdata ref => setOn ref
  | _ => w1

/-- Function `lua_touserdata`: the address held by a light userdata at the
index (0 is the null pointer), null for any value that is not a userdata.  The
upvalue pseudo-index of the running C closure is resolved by the caller, which
passes the upvalue itself. -/
def lua_touserdata (v : LuaValue) : Option Nat :=
  match v with
  | LuaValue.lightuserdata p => if p = 0 then none else some p
  | _ => none

/-- Function `luaL_openlib(L, NULL, l, 1)`: with one upvalue on top of the stack
and the library table below it, stores under each name of `l` a C closure that
carries a copy of the upvalue, then pops the upvalue. -/
def luaL_openlib (w : World) (L : lua_State) (names : List String) : World :=
  let upvalue : Nat := match valueAt w L (-1) with
    | LuaValue.lightuserdata p => p
    | _ => 0
  let w1 :=
    match valueAt w L (-2) with
    | LuaValue.table ref =>
      names.foldl
        (fun acc name => acc.rawset ref (LuaValue.string name) (LuaValue.cfunction name upvalue))
        w
    | _ => w
  lua_pop w1 L 1

/-- Function `luaL_newmetatable`: pushes the registry entry of that name when it
exists and returns 0; otherwise creates a table, stores it in the registry under
the name, pushes it and returns 1. -/
def luaL_newmetatable (w : World) (L : lua_State) (tname : String) : World × Int :=
  match w.rawget (w.registry L) (LuaValue.string tname) with
  | LuaValue.nil =>
    let r := w.alloc { fields := [], metatable := none }
    (push (r.1.rawset (w.registry L) (LuaValue.string tname) (LuaValue.table r.2)) L
      (LuaValue.table r.2), 1)
  | v => (push w L v, 0)

/-! ## Corona C API (external) -/

/-- Function `CoronaLuaPushUserdata(L, ud, metatableName)`: pushes a new full
userdata whose metatable is the registry entry of that name. -/
def CoronaLuaPushUserdata (w : World) (L : lua_State) (metatableName : String) : World :=
  let mt : Option Nat := match w.rawget (w.registry L) (LuaValue.string metatableName) with
    | LuaValue.table ref => some ref
    | _ => none
  let r := w.alloc { fields := [], metatable := mt }
  push r.1 L (LuaValue.userdata r.2)

/-- Function `CoronaLuaWarning`: reports a formatted warning; the message is
kept in the diagnostics. -/
def CoronaLuaWarning (w : World) (message : String) : World :=
  { w with env := { w.env with diagnostics := w.env.diagnostics ++ [message] } }

/-- Function `CoronaLuaError`: reports a formatted error to the runtime and
returns to its caller (every use in the sources is followed by a `return`); the
message is kept in the diagnostics, marked as an error. -/
def CoronaLuaError (w : World) (message : String) : World :=
  { w with env := { w.env with diagnostics := w.env.diagnostics ++ ["ERROR: " ++ message] } }

/-- Function `CoronaLuaGetCoronaThread`: the main Lua state of the runtime the
given state belongs to (null when unknown). -/
def CoronaLuaGetCoronaThread (w : World) (L : lua_State) : Option lua_State :=
  w.coronaThread L

/-- Function `CoronaLuaNewEvent`: pushes a new table whose field `name` is the
event name. -/
def CoronaLuaNewEvent (w : World) (L : lua_State) (eventName : String) : World :=
  let r := w.alloc
    { fields := [(LuaValue.string "name", LuaValue.string eventName)], metatable := none }
  push r.1 L (LuaValue.table r.2)

/-- Function `CoronaLuaIsListener`: the value at the index is a function, or a
table whose field named after the event is a function. -/
def CoronaLuaIsListener (w : World) (L : lua_State) (idx : Int) (eventName : String) : Bool :=
  match valueAt w L idx with
  | LuaValue.function _ => true
  | LuaValue.cfunction _ _ => true
  | LuaValue.table ref =>
    (match w.rawget ref (LuaValue.string eventName) with
     | LuaValue.function _ => true
     | LuaValue.cfunction _ _ => true
     | _ => false)
  | _ => false

/-- Results of a call adjusted to `nresults` values (`lua_call` contract). -/
def adjustResults (results : List LuaValue) (nresults : Nat) : List LuaValue :=
  (results ++ List.replicate nresults LuaValue.nil).take nresults

/-- Function `CoronaLuaDoCall(L, narg, nresults)` with the stack contract of
`lua_pcall`: the function and its `narg` arguments are popped; on success
`nresults` results are pushed and 0 is returned, on error one error message is
pushed and a non-zero status is returned.  A callee that is a function consumes
the next scripted reaction of the environment and is entered in the history of
calls with its arguments; a value that is not a function cannot be called and
yields the error outcome at once. -/
def CoronaLuaDoCall (w : World) (L : lua_State) (narg nresults : Nat) : World × Int :=
  let st := w.stack L
  let base := st.length - (narg + 1)
  let callee := st.getD base LuaValue.nil
  let below := st.take base
  let callable : Bool := match callee with
    | LuaValue.function _ => true
    | LuaValue.cfunction _ _ => true
    | _ => false
  if callable then
    let r := w.env.script.headD CallReaction.quiet
    let w1 : World :=
      { w with heap := r.heapEffect w.heap,
               env := { w.env with script := w.env.script.tail,
                                   raised := w.env.raised ++ r.authResponses,
                                   luaCalls := w.env.luaCalls ++ [(callee, st.drop (base + 1))] } }
    match r.outcome with
    | CallOutcome.returned results =>
      (w1.setStack L (below ++ adjustResults results nresults), 0)
    | CallOutcome.raised message => (w1.setStack L (below ++ [message]), 2)
  else
    (w.setStack L (below ++ [LuaValue.string "attempt to call a non-function value"]), 2)

/-! ## LuaEventDispatcher.cpp -/

/-- The block "if the given Lua state belongs to a coroutine, then use the main
Lua state instead", written out in the constructors of `LuaEventDispatcher` and
`RuntimeContext` and in `RuntimeContext::GetInstanceBy`: the Corona thread of
the state when there is one and it differs, the state itself otherwise. -/
def resolveMainState (w : World) (given : lua_State) : lua_State :=
  match CoronaLuaGetCoronaThread w given with
  | some mainLuaStatePointer =>
    if mainLuaStatePointer ≠ given then mainLuaStatePointer else given
  | none => given

/-- Constructor `LuaEventDispatcher::LuaEventDispatcher(lua_State*)`: resolves
the main state, calls `system.newEventDispatcher()` and stores the resulting
table in the registry; the reference id stays `LUA_NOREF` when no dispatcher
object was obtained. -/
def LuaEventDispatcher.create (w : World) (luaStatePointer : Option lua_State) :
    World × LuaEventDispatcher :=
  match luaStatePointer with
  | none => (w, { fLuaStatePointer := none, fLuaRegistryReferenceId := LUA_NOREF })
  | some given =>
    let L : lua_State := resolveMainState w given
    let luaStackCount := lua_gettop w L
    let w1 := lua_getglobal w L "system"
    let r : World × Int :=
      if lua_istable w1 L (-1) then
        let w2 := lua_getfield w1 L (-1) "newEventDispatcher"
        if lua_isfunction w2 L (-1) then
          let w3 := (CoronaLuaDoCall w2 L 0 1).1
          if lua_istable w3 L (-1) then luaL_ref w3 L LUA_REGISTRYINDEX
          else (w3, LUA_NOREF)
        else (w2, LUA_NOREF)
      else (w1, LUA_NOREF)
    (lua_settop r.1 L luaStackCount,
      { fLuaStatePointer := some L, fLuaRegistryReferenceId := r.2 })

/-- Destructor `LuaEventDispatcher::~LuaEventDispatcher`: releases the registry
reference. -/
def LuaEventDispatcher.destroy (d : LuaEventDispatcher) (w : World) : World :=
  match d.fLuaStatePointer with
  | some L =>
    if d.fLuaRegistryReferenceId ≠ LUA_NOREF then
      luaL_unref w L LUA_REGISTRYINDEX d.fLuaRegistryReferenceId
    else w
  | none => w

/-- Method `LuaEventDispatcher::GetLuaState`. -/
def LuaEventDispatcher.GetLuaState (d : LuaEventDispatcher) : Option lua_State :=
  d.fLuaStatePointer

/-- Conversion of a relative stack index to an absolute one, as written in
`AddEventListener`, `RemoveEventListener` and `DispatchEventWithResult`. -/
def toAbsoluteIndex (w : World) (L : lua_State) (idx : Int) : Int :=
  if idx < 0 ∧ idx > LUA_REGISTRYINDEX then idx + (lua_gettop w L + 1) else idx

/-- Common body of `AddEventListener` and `RemoveEventListener`, which differ
only in the name of the Lua method they call (`addEventListener` or
`removeEventListener`). -/
def LuaEventDispatcher.callListenerMethod (d : LuaEventDispatcher) (method : String)
    (w : World) (luaStatePointer : Option lua_State) (eventName : Option String)
    (luaListenerStackIndex : Int) : Bool × World :=
  match luaStatePointer, eventName with
  | some L, some name =>
    if luaListenerStackIndex = 0 then (false, w)
    else if LUA_NOREF = d.fLuaRegistryReferenceId then (false, w)
    else if ¬ CoronaLuaIsListener w L luaListenerStackIndex name then (false, w)
    else
      let index := toAbsoluteIndex w L luaListenerStackIndex
      let w1 := lua_rawgeti w L LUA_REGISTRYINDEX d.fLuaRegistryReferenceId
      if ¬ lua_istable w1 L (-1) then (false, lua_pop w1 L 1)
      else
        let w2 := lua_getfield w1 L (-1) method
        if ¬ lua_isfunction w2 L (-1) then (false, lua_pop w2 L 2)
        else
          let w3 := lua_insert w2 L (-2)
          let w4 := lua_pushstring w3 L name
          let w5 := lua_pushvalue w4 L index
          (true, (CoronaLuaDoCall w5 L 3 0).1)
  | _, _ => (false, w)

/-- Method `LuaEventDispatcher::AddEventListener`. -/
def LuaEventDispatcher.AddEventListener (d : LuaEventDispatcher) (w : World)
    (luaStatePointer : Option lua_State) (eventName : Option String)
    (luaListenerStackIndex : Int) : Bool × World :=
  d.callListenerMethod "addEventListener" w luaStatePointer eventName luaListenerStackIndex

/-- Method `LuaEventDispatcher::RemoveEventListener`. -/
def LuaEventDispatcher.RemoveEventListener (d : LuaEventDispatcher) (w : World)
    (luaStatePointer : Option lua_State) (eventName : Option String)
    (luaListenerStackIndex : Int) : Bool × World :=
  d.callListenerMethod "removeEventListener" w luaStatePointer eventName luaListenerStackIndex

/-- Method `LuaEventDispatcher::DispatchEventWithResult(lua_State*, int)`.
The registry read, the method lookup and the call use `fLuaStatePointer`; the
index conversion and `lua_pushvalue` use the `luaStatePointer` argument, which
the method never tests against null. -/
def LuaEventDispatcher.DispatchEventWithResultIndex (d : LuaEventDispatcher) (w : World)
    (luaStatePointer : Option lua_State) (luaEventTableStackIndex : Int) :
    Except Fault (Bool × World) :=
  match d.fLuaStatePointer with
  | none => Except.ok (false, w)
  | some fL =>
    if luaEventTableStackIndex = 0 then Except.ok (false, w)
    else if LUA_NOREF = d.fLuaRegistryReferenceId then Except.ok (false, w)
    else
      let converted : Except Fault Int :=
        if luaEventTableStackIndex < 0 ∧ luaEventTableStackIndex > LUA_REGISTRYINDEX then
          match luaStatePointer with
          | none => Except.error Fault.nullState
          | some L => Except.ok (luaEventTableStackIndex + (lua_gettop w L + 1))
        else Except.ok luaEventTableStackIndex
      match converted with
      | Except.error e => Except.error e
      | Except.ok index =>
        let w1 := lua_rawgeti w fL LUA_REGISTRYINDEX d.fLuaRegistryReferenceId
        if ¬ lua_istable w1 fL (-1) then Except.ok (false, lua_pop w1 fL 1)
        else
          let w2 := lua_getfield w1 fL (-1) "dispatchEvent"
          if ¬ lua_isfunction w2 fL (-1) then Except.ok (false, lua_pop w2 fL 2)
          else
            let w3 := lua_insert w2 fL (-2)
            match luaStatePointer with
            | none => Except.error Fault.nullState
            | some L =>
              let w4 := lua_pushvalue w3 L index
              Except.ok (true, (CoronaLuaDoCall w4 fL 2 1).1)

/-- Method `LuaEventDispatcher::DispatchEventWithResult(lua_State*, const char*)`.
The guard tests `fLuaStatePointer`, the Lua calls that follow use the
`luaStatePointer` argument. -/
def LuaEventDispatcher.DispatchEventWithResultName (d : LuaEventDispatcher) (w : World)
    (luaStatePointer : Option lua_State) (eventName : Option String) :
    Except Fault (Bool × World) :=
  match d.fLuaStatePointer, eventName with
  | some _, some name =>
    match luaStatePointer with
    | none => Except.error Fault.nullState
    | some L =>
      let w1 := CoronaLuaNewEvent w L name
      let eventTableIndex := lua_gettop w1 L
      match d.DispatchEventWithResultIndex w1 (some L) eventTableIndex with
      | Except.error e => Except.error e
      | Except.ok (wasDispatched, w2) =>
        Except.ok (wasDispatched, lua_remove w2 L eventTableIndex)
  | _, _ => Except.ok (false, w)

/-- Pop of the dispatch result in the two `DispatchEventWithoutResult`
overloads: `lua_pop(luaStatePointer, 1)` when the event was dispatched. -/
def popDispatchResult (luaStatePointer : Option lua_State)
    (r : Except Fault (Bool × World)) : Except Fault (Bool × World) :=
  match r with
  | Except.error e => Except.error e
  | Except.ok (wasDispatched, w1) =>
    if wasDispatched then
      match luaStatePointer with
      | none => Except.error Fault.nullState
      | some L => Except.ok (wasDispatched, lua_pop w1 L 1)
    else Except.ok (wasDispatched, w1)

/-- Method `LuaEventDispatcher::DispatchEventWithoutResult(lua_State*, const char*)`. -/
def LuaEventDispatcher.DispatchEventWithoutResultName (d : LuaEventDispatcher) (w : World)
    (luaStatePointer : Option lua_State) (eventName : Option String) :
    Except Fault (Bool × World) :=
  popDispatchResult luaStatePointer (d.DispatchEventWithResultName w luaStatePointer eventName)

/-- Method `LuaEventDispatcher::DispatchEventWithoutResult(lua_State*, int)`. -/
def LuaEventDispatcher.DispatchEventWithoutResultIndex (d : LuaEventDispatcher) (w : World)
    (luaStatePointer : Option lua_State) (luaEventTableStackIndex : Int) :
    Except Fault (Bool × World) :=
  popDispatchResult luaStatePointer
    (d.DispatchEventWithResultIndex w luaStatePointer luaEventTableStackIndex)

/-! ## DispatchEventTask.cpp -/

/-- Constant `DispatchAuthResponseEventTask::kLuaEventName`. -/
def kLuaEventName : String := "authResponse"

/-- Constructor `DispatchAuthResponseEventTask::DispatchAuthResponseEventTask`:
no dispatcher bound, `fSuccess(false)`. -/
def DispatchAuthResponseEventTask.create : DispatchAuthResponseEventTask :=
  { fLuaEventDispatcherPointer := none, fSuccess := false }

/-- Method `BaseDispatchEventTask::SetLuaEventDispatcher`. -/
def DispatchAuthResponseEventTask.SetLuaEventDispatcher (t : DispatchAuthResponseEventTask)
    (dispatcherPointer : Option LuaEventDispatcher) : DispatchAuthResponseEventTask :=
  { t with fLuaEventDispatcherPointer := dispatcherPointer }

/-- Method `BaseDispatchEventTask::GetLuaEventDispatcher`. -/
def DispatchAuthResponseEventTask.GetLuaEventDispatcher (t : DispatchAuthResponseEventTask) :
    Option LuaEventDispatcher :=
  t.fLuaEventDispatcherPointer

/-- Method `DispatchAuthResponseEventTask::AcquireEventDataFrom`. -/
def DispatchAuthResponseEventTask.AcquireEventDataFrom (t : DispatchAuthResponseEventTask)
    (success : Bool) : DispatchAuthResponseEventTask :=
  { t with fSuccess := success }

/-- Method `DispatchAuthResponseEventTask::GetLuaEventName`. -/
def DispatchAuthResponseEventTask.GetLuaEventName (_t : DispatchAuthResponseEventTask) :
    String :=
  kLuaEventName

/-- Method `DispatchAuthResponseEventTask::PushLuaEventTableTo`: pushes a new
event table named `authResponse` and stores `fSuccess ? 1 : 0` as a boolean in
its field `isError`. -/
def DispatchAuthResponseEventTask.PushLuaEventTableTo (t : DispatchAuthResponseEventTask)
    (w : World) (luaStatePointer : Option lua_State) : Bool × World :=
  match luaStatePointer with
  | none => (false, w)
  | some L =>
    let w1 := CoronaLuaNewEvent w L kLuaEventName
    let w2 := lua_pushboolean w1 L (if t.fSuccess then 1 else 0)
    let w3 := lua_setfield w2 L (-2) "isError"
    (true, w3)

/-- Append a task to the history of `Execute` calls. -/
def World.recordExecute (w : World) (t : DispatchAuthResponseEventTask) : World :=
  { w with env := { w.env with executed := w.env.executed ++ [t] } }

/-- Body of `BaseDispatchEventTask::Execute` after the call has been recorded. -/
def DispatchAuthResponseEventTask.executeBody (t : DispatchAuthResponseEventTask)
    (w : World) : Except Fault (Bool × World) :=
  match t.fLuaEventDispatcherPointer with
  | none => Except.ok (false, w)
  | some dispatcher =>
    match dispatcher.GetLuaState with
    | none => Except.ok (false, w)
    | some L =>
      match t.PushLuaEventTableTo w (some L) with
      | (false, w1) => Except.ok (false, w1)
      | (true, w1) =>
        match dispatcher.DispatchEventWithoutResultIndex w1 (some L) (-1) with
        | Except.error e => Except.error e
        | Except.ok (wasDispatched, w2) => Except.ok (wasDispatched, lua_pop w2 L 1)

/-- Method `BaseDispatchEventTask::Execute`.  The call is recorded in the
history variable `executed` before the body runs. -/
def DispatchAuthResponseEventTask.Execute (t : DispatchAuthResponseEventTask)
    (w : World) : Except Fault (Bool × World) :=
  t.executeBody (w.recordExecute t)

/-! ## Galaxy SDK (external) -/

/-- Record a call into the SDK. -/
def GalaxySdk.record (sdk : GalaxySdk) (c : SdkCall) : GalaxySdk :=
  { sdk with calls := sdk.calls ++ [c] }

/-- Function `galaxy::api::GetError`: the error of the most recent SDK call, or
null. -/
def galaxy.api.GetError (w : World) : Option (String × String) :=
  match w.env.sdk.calls.getLast? with
  | some c => w.env.sdk.errorAfter c
  | none => none

/-- Class `GOGAuthListener` (`GogLuaInterface.cpp`): `OnAuthSuccess` requests the
user statistics, `OnAuthFailure` and `OnAuthLost` have empty bodies. -/
def GOGAuthListener.notify (sdk : GalaxySdk) (n : AuthNotification) : GalaxySdk :=
  match n with
  | AuthNotification.success => sdk.record SdkCall.RequestUserStatsAndAchievements
  | AuthNotification.failure => sdk
  | AuthNotification.lost => sdk

/-- Function `galaxy::api::ProcessData`: the SDK pump.  It hands the waiting
auth notifications to the registered auth listener. -/
def galaxy.api.ProcessData (w : World) : World :=
  let sdk1 : GalaxySdk :=
    { w.env.sdk.record SdkCall.ProcessData with authNotifications := [] }
  let sdk2 : GalaxySdk :=
    if w.env.sdk.authListener then
      w.env.sdk.authNotifications.foldl GOGAuthListener.notify sdk1
    else sdk1
  { w with env := { w.env with sdk := sdk2 } }

/-! ## RuntimeContext.cpp -/

/-- Modelled from the spec: class `LuaMethodCallback` (`LuaMethodCallback.h` is
not among the sources).  The spec describes it as the per-context subscription
to the frame-tick notification under a fixed event name; it is identified by
the address of the context that owns it. -/
structure LuaMethodCallback where
  owner : Nat
  luaStatePointer : Option lua_State
  deriving DecidableEq, Repr, Inhabited

/-- Modelled from the spec: `LuaMethodCallback::AddToRuntimeEventListeners`
subscribes the callback to the named runtime event. -/
def LuaMethodCallback.AddToRuntimeEventListeners (cb : LuaMethodCallback)
    (eventName : String) (w : World) : World :=
  { w with env := { w.env with
      runtimeListeners := w.env.runtimeListeners ++ [(eventName, cb.owner)] } }

/-- Modelled from the spec: `LuaMethodCallback::RemoveFromRuntimeEventListeners`
removes the subscription of the callback to the named runtime event. -/
def LuaMethodCallback.RemoveFromRuntimeEventListeners (cb : LuaMethodCallback)
    (eventName : String) (w : World) : World :=
  { w with env := { w.env with runtimeListeners :=
      w.env.runtimeListeners.filter (fun s => !decide (s = (eventName, cb.owner))) } }

/-- Class `RuntimeContext` (`RuntimeContext.h`): the shared dispatcher pointer,
the enterFrame callback and the queue of shared task pointers (`none` is a null
pointer). -/
structure RuntimeContext where
  fLuaEventDispatcherPointer : Option LuaEventDispatcher
  fLuaEnterFrameCallback : LuaMethodCallback
  fDispatchEventTaskQueue : List (Option DispatchAuthResponseEventTask)
  deriving DecidableEq, Repr, Inhabited

/-- Method `RuntimeContext::GetMainLuaState`. -/
def RuntimeContext.GetMainLuaState (ctx : RuntimeContext) : Option lua_State :=
  match ctx.fLuaEventDispatcherPointer with
  | some d => d.GetLuaState
  | none => none

/-- Method `RuntimeContext::GetLuaEventDispatcher`. -/
def RuntimeContext.GetLuaEventDispatcher (ctx : RuntimeContext) : Option LuaEventDispatcher :=
  ctx.fLuaEventDispatcherPointer

/-- Method `RuntimeContext::OnHandleGlobalGogEvent<bool, DispatchAuthResponseEventTask>`:
a null data pointer is ignored; otherwise a new task is bound to this context's
dispatcher, takes the data and is pushed to the back of the queue. -/
def RuntimeContext.OnHandleGlobalGogEvent (ctx : RuntimeContext)
    (eventDataPointer : Option Bool) : RuntimeContext :=
  match eventDataPointer with
  | none => ctx
  | some eventData =>
    let taskPointer :=
      (DispatchAuthResponseEventTask.create.SetLuaEventDispatcher
        ctx.fLuaEventDispatcherPointer).AcquireEventDataFrom eventData
    { ctx with fDispatchEventTaskQueue := ctx.fDispatchEventTaskQueue ++ [some taskPointer] }

/-- Method `RuntimeContext::OnAuthResponse`. -/
def RuntimeContext.OnAuthResponse (ctx : RuntimeContext) (success : Bool) : RuntimeContext :=
  ctx.OnHandleGlobalGogEvent (some success)

/-- The world once the raised callbacks have been handed over. -/
def World.clearRaised (w : World) : World :=
  { w with env := { w.env with raised := [] } }

/-- Delivery point of native callbacks: every raised `OnAuthResponse(success)`
is called on the context, in the order raised. -/
def RuntimeContext.deliverRaised (ctx : RuntimeContext) (w : World) : RuntimeContext × World :=
  (w.env.raised.foldl RuntimeContext.OnAuthResponse ctx, w.clearRaised)

/-- The `while` loop of `RuntimeContext::OnCoronaEnterFrame`: while the queue is
not empty, take the front pointer, pop it, and call `Execute` on it unless it is
null.  Callbacks raised while `Execute` ran are in the queue when it returns.
Each iteration uses one unit of `fuel`. -/
def RuntimeContext.drain : Nat → RuntimeContext → World → Except Fault (RuntimeContext × World)
  | fuel, ctx, w =>
    match ctx.fDispatchEventTaskQueue with
    | [] => Except.ok (ctx, w)
    | dispatchEventTaskPointer :: rest =>
      match fuel with
      | 0 => Except.error Fault.outOfFuel
      | fuel + 1 =>
        let ctx1 : RuntimeContext := { ctx with fDispatchEventTaskQueue := rest }
        match dispatchEventTaskPointer with
        | none => RuntimeContext.drain fuel ctx1 w
        | some task =>
          match task.Execute w with
          | Except.error e => Except.error e
          | Except.ok (_, w1) =>
            RuntimeContext.drain fuel (ctx1.deliverRaised w1).1 (ctx1.deliverRaised w1).2

/-- Method `RuntimeContext::OnCoronaEnterFrame`: returns 0 at once for a null
state; otherwise runs the SDK pump and drains the queue. -/
def RuntimeContext.OnCoronaEnterFrame (fuel : Nat) (ctx : RuntimeContext)
    (luaStatePointer : Option lua_State) (w : World) :
    Except Fault (Int × RuntimeContext × World) :=
  match luaStatePointer with
  | none => Except.ok (0, ctx, w)
  | some _ =>
    let w1 := galaxy.api.ProcessData w
    match RuntimeContext.drain fuel (ctx.deliverRaised w1).1 (ctx.deliverRaised w1).2 with
    | Except.error e => Except.error e
    | Except.ok (ctx2, w2) => Except.ok (0, ctx2, w2)

/-! ## PluginConfigLuaSettings.cpp -/

/-- Class `PluginConfigLuaSettings`. -/
structure PluginConfigLuaSettings where
  fStringClientId : String
  fStringClientSecret : String
  deriving DecidableEq, Repr, Inhabited

/-- Constructor `PluginConfigLuaSettings::PluginConfigLuaSettings`: both strings
are empty. -/
def PluginConfigLuaSettings.create : PluginConfigLuaSettings :=
  { fStringClientId := "", fStringClientSecret := "" }

/-- Method `PluginConfigLuaSettings::GetStringClientId`. -/
def PluginConfigLuaSettings.GetStringClientId (c : PluginConfigLuaSettings) : String :=
  c.fStringClientId

/-- Method `PluginConfigLuaSettings::GetStringClientSecret`. -/
def PluginConfigLuaSettings.GetStringClientSecret (c : PluginConfigLuaSettings) : String :=
  c.fStringClientSecret

/-- First block of `LoadFrom`: looks up `package.loaded.config` and reports
whether it is not nil; the stack is left as found. -/
def PluginConfigLuaSettings.probeConfigLoaded (w : World) (L : lua_State) : Bool × World :=
  let w1 := lua_getglobal w L "package"
  let r1 : Bool × World :=
    if lua_istable w1 L (-1) then
      let w2 := lua_getfield w1 L (-1) "loaded"
      let r2 : Bool × World :=
        if lua_istable w2 L (-1) then
          let w3 := lua_getfield w2 L (-1) "config"
          (!lua_isnil w3 L (-1), lua_pop w3 L 1)
        else (false, w2)
      (r2.1, lua_pop r2.2 L 1)
    else (false, w1)
  (r1.1, lua_pop r1.2 L 1)

/-- Block of `LoadFrom` that calls `require("config")` and pops its result. -/
def PluginConfigLuaSettings.requireConfig (w : World) (L : lua_State) : World :=
  let w1 := lua_getglobal w L "require"
  if lua_isfunction w1 L (-1) then
    let w2 := lua_pushstring w1 L "config"
    let w3 := (CoronaLuaDoCall w2 L 1 1).1
    lua_pop w3 L 1
  else lua_pop w1 L 1

/-- Reading of one string setting in `LoadFrom`: the field of the table on top
of the stack is fetched, kept when it is a string, and popped. -/
def PluginConfigLuaSettings.readString (w : World) (L : lua_State) (field : String)
    (current : String) : String × World :=
  let w1 := lua_getfield w L (-1) field
  let value : String :=
    if lua_isstringtype w1 L (-1) then
      match lua_tostring w1 L (-1) with
      | some stringValue => stringValue
      | none => current
    else current
  (value, lua_pop w1 L 1)

/-- Block of `LoadFrom` that reads `application.gog.clientId` and
`application.gog.clientSecret`. -/
def PluginConfigLuaSettings.readSettings (c : PluginConfigLuaSettings) (w : World)
    (L : lua_State) : Bool × PluginConfigLuaSettings × World :=
  let w1 := lua_getglobal w L "application"
  let r1 : Bool × PluginConfigLuaSettings × World :=
    if lua_istable w1 L (-1) then
      let w2 := lua_getfield w1 L (-1) "gog"
      let r2 : Bool × PluginConfigLuaSettings × World :=
        if lua_istable w2 L (-1) then
          let id := PluginConfigLuaSettings.readString w2 L "clientId" c.fStringClientId
          let secret :=
            PluginConfigLuaSettings.readString id.2 L "clientSecret" c.fStringClientSecret
          (true, { fStringClientId := id.1, fStringClientSecret := secret.1 }, secret.2)
        else (false, c, w2)
      (r2.1, r2.2.1, lua_pop r2.2.2 L 1)
    else (false, c, w1)
  (r1.1, r1.2.1, lua_pop r1.2.2 L 1)

/-- Block of `LoadFrom` that sets `package.loaded.config` to nil. -/
def PluginConfigLuaSettings.unloadConfig (w : World) (L : lua_State) : World :=
  let w1 := lua_getglobal w L "package"
  let w4 :=
    if lua_istable w1 L (-1) then
      let w2 := lua_getfield w1 L (-1) "loaded"
      let w3 :=
        if lua_istable w2 L (-1) then lua_setfield (lua_pushnil w2 L) L (-2) "config"
        else w2
      lua_pop w3 L 1
    else w1
  lua_pop w4 L 1

/-- Method `PluginConfigLuaSettings::LoadFrom`. -/
def PluginConfigLuaSettings.LoadFrom (c : PluginConfigLuaSettings) (w : World)
    (luaStatePointer : Option lua_State) : Bool × PluginConfigLuaSettings × World :=
  match luaStatePointer with
  | none => (false, c, w)
  | some L =>
    let probe := PluginConfigLuaSettings.probeConfigLoaded w L
    let wasConfigLuaAlreadyLoaded := probe.1
    let w1 := lua_getglobal probe.2 L "application"
    let w2 := PluginConfigLuaSettings.requireConfig w1 L
    let read := c.readSettings w2 L
    let w3 :=
      if !wasConfigLuaAlreadyLoaded then PluginConfigLuaSettings.unloadConfig read.2.2 L
      else read.2.2
    let w4 := lua_setglobal w3 L "application"
    (read.1, read.2.1, w4)

/-! ## Process-wide state of the plugin -/

/-- The process: the world, the static `sRuntimeContextCollection`
(`RuntimeContext.cpp`; the list holds the elements of the unordered set, each
once), the static `sMainThreadId` (`GogLuaInterface.cpp`; `none` is the
default-constructed id, which is the id of no thread), and the live
`RuntimeContext` objects by address. -/
structure Process where
  world : World
  sRuntimeContextCollection : List Nat
  sMainThreadId : Option Nat
  objects : List (Nat × RuntimeContext)

/-- The process before any plugin instance was loaded. -/
def Process.initial (w : World) : Process :=
  { world := w, sRuntimeContextCollection := [], sMainThreadId := none, objects := [] }

/-- Addresses of the live `RuntimeContext` objects. -/
def Process.liveAddresses (p : Process) : List Nat :=
  p.objects.map Prod.fst

/-- Address returned by `operator new`: one that is neither null nor the
address of a live object (the proofs use no other property of it). -/
def Process.freshAddress (p : Process) : Nat :=
  p.liveAddresses.foldl max 0 + 1

/-- Method `RuntimeContext::GetInstanceCount`: the size of the collection.  The
cast of the size to `int` is taken as exact, which it is below 2^31 contexts. -/
def RuntimeContext.GetInstanceCount (p : Process) : Int :=
  (p.sRuntimeContextCollection.length : Int)

/-- Constructor `RuntimeContext::RuntimeContext(lua_State*)` run on the object
at address `this`.  `none` is the thrown `std::exception`; the object then
never becomes live. -/
def RuntimeContext.construct (p : Process) (this : Nat) (luaStatePointer : Option lua_State) :
    Option Process :=
  let fLuaEnterFrameCallback : LuaMethodCallback :=
    { owner := this, luaStatePointer := luaStatePointer }
  match luaStatePointer with
  | none => none
  | some given =>
    let L : lua_State := resolveMainState p.world given
    let made := LuaEventDispatcher.create p.world (some L)
    let w2 := fLuaEnterFrameCallback.AddToRuntimeEventListeners "enterFrame" made.1
    let object : RuntimeContext :=
      { fLuaEventDispatcherPointer := some made.2,
        fLuaEnterFrameCallback := fLuaEnterFrameCallback,
        fDispatchEventTaskQueue := [] }
    some { p with
      world := w2,
      sRuntimeContextCollection :=
        if this ∈ p.sRuntimeContextCollection then p.sRuntimeContextCollection
        else p.sRuntimeContextCollection ++ [this],
      objects := p.objects ++ [(this, object)] }

/-- Expression `new RuntimeContext(luaStatePointer)`: storage is obtained and
the constructor runs on it.  When the constructor throws, the storage is
released and the exception leaves the expression (`none`); the throw is the
first statement of the constructor body, so the process is then as it was. -/
def RuntimeContext.new (p : Process) (luaStatePointer : Option lua_State) :
    Option Nat × Process :=
  match RuntimeContext.construct p p.freshAddress luaStatePointer with
  | some p1 => (some p.freshAddress, p1)
  | none => (none, p)

/-- Method `RuntimeContext::GetInstanceBy`: null for a null state; otherwise the
first context met by the range-based `for` over `sRuntimeContextCollection`
whose main state is the main state of the given one, null when there is none.
`iteration` lists the elements of the collection in the order in which the loop
visits them: the collection is a `std::unordered_set`, which leaves that order
unspecified, so the order is an input here. -/
def RuntimeContext.GetInstanceBy (p : Process) (iteration : List Nat)
    (luaStatePointer : Option lua_State) : Option Nat :=
  match luaStatePointer with
  | none => none
  | some given =>
    let L : lua_State := resolveMainState p.world given
    iteration.find? (fun runtimePointer =>
      decide (runtimePointer ≠ 0) &&
        match p.objects.lookup runtimePointer with
        | some object => decide (object.GetMainLuaState = some L)
        | none => false)

/-- Call `contextPointer->OnAuthResponse(success)` made by native code on the
context at that address.  A call through a pointer to no live object is
undefined behaviour. -/
def Process.OnAuthResponse (p : Process) (contextPointer : Nat) (success : Bool) :
    Except Fault Process :=
  match p.objects.lookup contextPointer with
  | none => Except.error Fault.danglingPointer
  | some object =>
    Except.ok { p with objects := p.objects.map (fun o =>
      if o.1 = contextPointer then (o.1, object.OnAuthResponse success) else o) }

/-- Expression `delete contextPointer`: runs `RuntimeContext::~RuntimeContext`
(unsubscribe from enterFrame, erase from the collection), destroys the members
(the queued tasks are dropped, the dispatcher releases its registry reference)
and frees the object.  Deleting an address that is not a live object is
undefined behaviour. -/
def RuntimeContext.delete (p : Process) (this : Nat) : Except Fault Process :=
  match p.objects.lookup this with
  | none => Except.error Fault.invalidDelete
  | some object =>
    let w1 := object.fLuaEnterFrameCallback.RemoveFromRuntimeEventListeners "enterFrame" p.world
    let w2 :=
      match object.fLuaEventDispatcherPointer with
      | some d => d.destroy w1
      | none => w1
    Except.ok { p with
      world := w2,
      sRuntimeContextCollection := p.sRuntimeContextCollection.filter (fun a => !decide (a = this)),
      objects := p.objects.filter (fun o => !decide (o.1 = this)) }

/-! ## GogLuaInterface.cpp -/

/-- Function `galaxy::api::Init`. -/
def galaxy.api.Init (w : World) (clientId clientSecret : String) : World :=
  { w with env := { w.env with sdk := w.env.sdk.record (SdkCall.Init clientId clientSecret) } }

/-- Function `galaxy::api::Shutdown`. -/
def galaxy.api.Shutdown (w : World) : World :=
  { w with env := { w.env with sdk := w.env.sdk.record SdkCall.Shutdown } }

/-- Call `galaxy::api::User()->SignInGalaxy(false, &g_GOGAuthListener)`: the
plugin's auth listener is registered with the SDK. -/
def galaxy.api.SignInGalaxy (w : World) : World :=
  { w with env := { w.env with
      sdk := { w.env.sdk.record SdkCall.SignInGalaxy with authListener := true } } }

/-- The check `GetError()` followed by `CoronaLuaWarning` that follows the SDK
calls of `luaopen_plugin_gog` and of `OnSetAchievementUnlocked`. -/
def warnOnGalaxyError (w : World) : World :=
  match galaxy.api.GetError w with
  | some e => CoronaLuaWarning w ("[GOG ERROR] " ++ e.1 ++ ": " ++ e.2)
  | none => w

/-- Function `OnFinalizing`, the `__gc` handler.  `upvalue` is upvalue 1 of the
running closure.  The state argument is used without a null test. -/
def OnFinalizing (p : Process) (luaStatePointer : Option lua_State) (upvalue : LuaValue) :
    Except Fault (Int × Process) :=
  match luaStatePointer with
  | none => Except.error Fault.nullState
  | some _ =>
    let deleted : Except Fault Process :=
      match lua_touserdata upvalue with
      | some contextPointer => RuntimeContext.delete p contextPointer
      | none => Except.ok p
    match deleted with
    | Except.error e => Except.error e
    | Except.ok p1 =>
      if RuntimeContext.GetInstanceCount p1 ≤ 0 then
        Except.ok (0, { p1 with world := galaxy.api.Shutdown p1.world })
      else Except.ok (0, p1)

/-- The three blocks of `luaopen_plugin_gog` that build the plugin table on the
stack of `L`: the table of API functions, the finalizer userdata stored in the
registry and in field `__gc`, and the metatable with `__index` and
`__newindex`.  Every closure carries the context pointer as its upvalue. -/
def pushPluginTable (w : World) (L : lua_State) (contextPointer : Nat) : World :=
  let w1 := lua_createtable w L
  let w2 := lua_pushlightuserdata w1 L contextPointer
  let w3 := luaL_openlib w2 L
    ["getEncryptedAppTicket", "requestEncryptedAppTicket", "setAchievementUnlocked",
     "addEventListener", "removeEventListener"]
  let w4 := (luaL_newmetatable w3 L "plugin.gog.__gc").1
  let w5 := lua_pushlightuserdata w4 L contextPointer
  let w6 := luaL_openlib w5 L ["__gc"]
  let w7 := lua_pop w6 L 1
  let w8 := CoronaLuaPushUserdata w7 L "plugin.gog.__gc"
  let r := luaL_ref w8 L LUA_REGISTRYINDEX
  let w9 := lua_rawgeti r.1 L LUA_REGISTRYINDEX r.2
  let w10 := lua_setfield w9 L (-2) "__gc"
  let w11 := (luaL_newmetatable w10 L "plugin.gog").1
  let w12 := lua_pushlightuserdata w11 L contextPointer
  let w13 := luaL_openlib w12 L ["__index", "__newindex"]
  lua_setmetatable w13 L (-2)

/-- How a call of `luaopen_plugin_gog` ends: it returns a number of results, it
raises a Lua error through `luaL_error`, or the C++ exception of the constructor
escapes. -/
inductive LoadResult where
  | returned (results : Int)
  | luaError (message : String)
  | exception
  deriving DecidableEq, Repr, Inhabited

/-- Function `luaopen_plugin_gog`, called on thread `thisThread`
(`std::this_thread::get_id()`).  `luaL_error` does not return, so the call ends
there with the Lua error.  The test `if (!contextPointer)` after `new` has no
counterpart: `new` does not return null. -/
def luaopen_plugin_gog (p : Process) (thisThread : Nat) (luaStatePointer : Option lua_State) :
    LoadResult × Process :=
  match luaStatePointer with
  | none => (LoadResult.returned 0, p)
  | some L =>
    let checked : Option Process :=
      if RuntimeContext.GetInstanceCount p > 0 then
        if some thisThread ≠ p.sMainThreadId then none else some p
      else some { p with sMainThreadId := some thisThread }
    match checked with
    | none =>
      (LoadResult.luaError "Cannot load another instance of 'plugin.gog' from another thread.", p)
    | some p1 =>
      let contextPointer := p1.freshAddress
      match RuntimeContext.construct p1 contextPointer (some L) with
      | none => (LoadResult.exception, p1)
      | some p2 =>
        let w1 := pushPluginTable p2.world L contextPointer
        let loaded := PluginConfigLuaSettings.create.LoadFrom w1 (some L)
        let configLuaSettings := loaded.2.1
        let w2 := loaded.2.2
        let w3 :=
          if RuntimeContext.GetInstanceCount p2 = 1 then
            warnOnGalaxyError
              (galaxy.api.Init w2 configLuaSettings.GetStringClientId
                configLuaSettings.GetStringClientSecret)
          else w2
        let w4 := warnOnGalaxyError (galaxy.api.SignInGalaxy w3)
        (LoadResult.returned 1, { p2 with world := w4 })

/-- Common body of `OnAddEventListener` and `OnRemoveEventListener`, which differ
only in the dispatcher method they forward to.  `upvalue` is upvalue 1 of the
running closure.  `eventName` is the C string of argument 1, so the test
`'\0' == eventName[0]` is the test that this C string is empty. -/
def forwardListenerCall
    (forward : LuaEventDispatcher → World → Option lua_State → Option String → Int →
      Bool × World)
    (p : Process) (luaStatePointer : Option lua_State) (upvalue : LuaValue) :
    Except Fault (Int × Process) :=
  match luaStatePointer with
  | none => Except.ok (0, p)
  | some L =>
    let eventName : Option String :=
      if lua_isstringtype p.world L 1 then lua_tostring p.world L 1 else none
    match eventName with
    | none =>
      Except.ok (0, { p with
        world := CoronaLuaError p.world "1st argument must be set to an event name." })
    | some name =>
      if name = "" then
        Except.ok (0, { p with
          world := CoronaLuaError p.world "1st argument must be set to an event name." })
      else if ¬ CoronaLuaIsListener p.world L 2 name then
        Except.ok (0, { p with
          world := CoronaLuaError p.world "2nd argument must be set to a listener." })
      else
        match lua_touserdata upvalue with
        | none => Except.ok (0, p)
        | some contextPointer =>
          match p.objects.lookup contextPointer with
          | none => Except.error Fault.danglingPointer
          | some context =>
            match context.GetLuaEventDispatcher with
            | some luaEventDispatcher =>
              Except.ok (0, { p with world := (forward luaEventDispatcher p.world (some L)
                (some name) 2).2 })
            | none => Except.ok (0, p)

/-- Function `OnAddEventListener`, the Lua function `gog.addEventListener(eventName, listener)`. -/
def OnAddEventListener (p : Process) (luaStatePointer : Option lua_State)
    (upvalue : LuaValue) : Except Fault (Int × Process) :=
  forwardListenerCall LuaEventDispatcher.AddEventListener p luaStatePointer upvalue

/-- Call `galaxy::api::User()->SignedIn()`. -/
def galaxy.api.User.SignedIn (w : World) : Bool :=
  w.env.sdk.signedIn

/-- Call `galaxy::api::User()->IsLoggedOn()`. -/
def galaxy.api.User.IsLoggedOn (w : World) : Bool :=
  w.env.sdk.loggedOn

/-- Function `OnAccessingField`, the `__index` handler of the plugin table: the
field name is argument 2, read as a C string and compared by `strcmp`.
`upvalue` is upvalue 1 of the running closure; the context pointer is tested
against null and not used otherwise. -/
def OnAccessingField (w : World) (luaStatePointer : Option lua_State) (upvalue : LuaValue) :
    Int × World :=
  match luaStatePointer with
  | none => (0, w)
  | some L =>
    if ¬ lua_isstringtype w L 2 then (0, w)
    else
      match lua_tostring w L 2 with
      | none => (0, w)
      | some fieldName =>
        if fieldName = "isLoggedOn" then
          match lua_touserdata upvalue with
          | none => (0, w)
          | some _ =>
            if ¬ galaxy.api.User.SignedIn w then (0, w)
            else if ¬ galaxy.api.User.IsLoggedOn w then (0, w)
            else (1, lua_pushboolean w L 1)
        else (0, CoronaLuaError w ("Accessing unknown field: '" ++ fieldName ++ "'"))

/-- Call `galaxy::api::Stats()->SetAchievement(name)`. -/
def galaxy.api.Stats.SetAchievement (w : World) (name : String) : World :=
  { w with env := { w.env with sdk := w.env.sdk.record (SdkCall.SetAchievement name) } }

/-- Call `galaxy::api::Stats()->StoreStatsAndAchievements()`. -/
def galaxy.api.Stats.StoreStatsAndAchievements (w : World) : World :=
  { w with env := { w.env with sdk := w.env.sdk.record SdkCall.StoreStatsAndAchievements } }

/-- Function `OnSetAchievementUnlocked`, the Lua function
`gog.setAchievementUnlocked(achievementName)`.  The branch for a null state
calls `lua_pushboolean` on that null state.  After each of the two SDK calls
`GetError()` is consulted and an error is given to `CoronaLuaWarning`; the value
pushed at the end is the constant 1. -/
def OnSetAchievementUnlocked (w : World) (luaStatePointer : Option lua_State) :
    Except Fault (Int × World) :=
  match luaStatePointer with
  | none => Except.error Fault.nullState
  | some L =>
    if ¬ galaxy.api.User.SignedIn w then Except.ok (1, lua_pushboolean w L 0)
    else
      let achievementName : Option String :=
        if lua_isstringtype w L 1 then lua_tostring w L 1 else none
      match achievementName with
      | none =>
        Except.ok (1, lua_pushboolean
          (CoronaLuaError w "1st argument must be set to the achievement's unique name.") L 0)
      | some name =>
        let w1 := warnOnGalaxyError (galaxy.api.Stats.SetAchievement w name)
        let w2 := warnOnGalaxyError (galaxy.api.Stats.StoreStatsAndAchievements w1)
        Except.ok (1, lua_pushboolean w2 L 1)

/-- A callback of the static `g_GOGAuthListener` run by the SDK in the process:
`OnAuthSuccess`, `OnAuthFailure` or `OnAuthLost`, according to the notification.
The bodies refer to the SDK only. -/
def GOGAuthListener.callback (p : Process) (n : AuthNotification) : Process :=
  { p with world := { p.world with
      env := { p.world.env with sdk := GOGAuthListener.notify p.world.env.sdk n } } }

/-- Function `OnAssigningField`, the `__newindex` handler of the plugin table. -/
def OnAssigningField (w : World) (_luaStatePointer : Option lua_State) : Int × World :=
  (0, w)

/-- Consistency of the process: the instance collection holds exactly the
addresses of the live contexts, no address occurs twice, and none is null. -/
def Process.WellFormed (p : Process) : Prop :=
  p.sRuntimeContextCollection = p.liveAddresses ∧ p.liveAddresses.Nodup ∧
    0 ∉ p.liveAddresses

/-- States of the process reachable from the initial one by plugin loads made on
thread `T` with a non-null state and by finalizations of live contexts (the
host runs the finalizer once per instance). -/
inductive Reachable (T : Nat) (w0 : World) : Process → Prop where
  | initial : Reachable T w0 (Process.initial w0)
  | load (p : Process) (L : lua_State) :
      Reachable T w0 p → Reachable T w0 (luaopen_plugin_gog p T (some L)).2
  | finalize (p p1 : Process) (L : lua_State) (contextPointer : Nat) :
      Reachable T w0 p → contextPointer ∈ p.liveAddresses →
      OnFinalizing p (some L) (LuaValue.lightuserdata contextPointer) = Except.ok (0, p1) →
      Reachable T w0 p1

/-- Task that `OnAuthResponse(success)` creates on this context. -/
def RuntimeContext.taskFor (ctx : RuntimeContext) (success : Bool) :
    DispatchAuthResponseEventTask :=
  (DispatchAuthResponseEventTask.create.SetLuaEventDispatcher
    ctx.fLuaEventDispatcherPointer).AcquireEventDataFrom success

/-- All `OnAuthResponse` callbacks the environment still holds for the running
context: those already raised, followed by those of the reactions to come. -/
def callbackStream (e : Environment) : List Bool :=
  e.raised ++ e.script.flatMap CallReaction.authResponses

/-- Relation between the environment before and after Lua-side work: the
history of `Execute` calls, the SDK, the runtime subscriptions and the
diagnostics are unchanged, and no callback of the stream is lost or invented. -/
structure EnvStep (e e1 : Environment) : Prop where
  executed : e1.executed = e.executed
  stream : callbackStream e1 = callbackStream e
  sdk : e1.sdk = e.sdk
  runtimeListeners : e1.runtimeListeners = e.runtimeListeners
  diagnostics : e1.diagnostics = e.diagnostics

/-- Main states of the contexts of the instance collection, in the order of
the collection. -/
def Process.mainStates (p : Process) : List (Option lua_State) :=
  p.sRuntimeContextCollection.filterMap
    (fun a => (p.objects.lookup a).map RuntimeContext.GetMainLuaState)

/-- State a context constructed from `L` is bound to: the constructor of the
context resolves the main state of `L`, and the constructor of its dispatcher
resolves the main state of the result. -/
def boundMainState (w : World) (L : lua_State) : lua_State :=
  resolveMainState w (resolveMainState w L)

/-- States of the process reachable as in `Reachable`, where moreover the plugin
is loaded for a Lua state only while no context of the collection is bound to
the main state the new context gets bound to. -/
inductive ReachableOncePerMainState (T : Nat) (w0 : World) : Process → Prop where
  | initial : ReachableOncePerMainState T w0 (Process.initial w0)
  | load (p : Process) (L : lua_State) :
      ReachableOncePerMainState T w0 p →
      some (boundMainState p.world L) ∉ p.mainStates →
      ReachableOncePerMainState T w0 (luaopen_plugin_gog p T (some L)).2
  | finalize (p p1 : Process) (L : lua_State) (contextPointer : Nat) :
      ReachableOncePerMainState T w0 p → contextPointer ∈ p.liveAddresses →
      OnFinalizing p (some L) (LuaValue.lightuserdata contextPointer) = Except.ok (0, p1) →
      ReachableOncePerMainState T w0 p1

/-- The Lua string made of the bytes of `front`, a zero byte and the bytes of
`back`. -/
def withZeroByte (front back : String) : String :=
  front ++ String.singleton (Char.ofNat 0) ++ back

/-- Warning that `OnSetAchievementUnlocked` logs after the SDK call `c` when
the SDK reports an error for it. -/
def galaxyWarningsAfter (w : World) (c : SdkCall) : List String :=
  match w.env.sdk.errorAfter c with
  | some e => ["[GOG ERROR] " ++ e.1 ++ ": " ++ e.2]
  | none => []

/-- The Corona thread of every state is a root: it has no Corona thread other
than itself.  This is how `CoronaLuaGetCoronaThread` behaves in a runtime, where
it returns the main state of the runtime a state belongs to. -/
def World.MainStatesAreRoots (w : World) : Prop :=
  ∀ L M, w.coronaThread L = some M → resolveMainState w M = M

/-- Value of the Lua expression `package.loaded["config"]` read without
metamethods: nil when `package` or `package.loaded` is not a table. -/
def packageLoadedConfig (w : World) (L : lua_State) : LuaValue :=
  match w.rawget (w.globals L) (LuaValue.string "package") with
  | LuaValue.table package =>
    match w.rawget package (LuaValue.string "loaded") with
    | LuaValue.table loaded => w.rawget loaded (LuaValue.string "config")
    | _ => LuaValue.nil
  | _ => LuaValue.nil

/-- Value of the global `application`. -/
def globalApplication (w : World) (L : lua_State) : LuaValue :=
  w.rawget (w.globals L) (LuaValue.string "application")

/-- The heap once `require("config")` has run in `LoadFrom`: the heap the
environment's reaction to the call leaves when the global `require` is a
function, the heap as it is otherwise. -/
def heapAfterRequire (w : World) (L : lua_State) : List LuaObject :=
  match w.rawget (w.globals L) (LuaValue.string "require") with
  | LuaValue.function _ => (w.env.script.headD CallReaction.quiet).heapEffect w.heap
  | LuaValue.cfunction _ _ => (w.env.script.headD CallReaction.quiet).heapEffect w.heap
  | _ => w.heap

/-- The world in which `package.loaded.config` has been set to nil, when
`package` and `package.loaded` are tables. -/
def unloadedConfig (w : World) (L : lua_State) : World :=
  match w.rawget (w.globals L) (LuaValue.string "package") with
  | LuaValue.table package =>
    match w.rawget package (LuaValue.string "loaded") with
    | LuaValue.table loaded => w.rawset loaded (LuaValue.string "config") LuaValue.nil
    | _ => w
  | _ => w

/-! ## Concrete worlds used to exercise the definitions -/

/-- A Lua world with one universe: the table of globals is heap object 0, the
registry is heap object 1, every stack is empty and every state is its own
main state. -/
def World.fresh : World :=
  { stack := fun _ => [],
    globals := fun _ => 0,
    registry := fun _ => 1,
    heap := [{ fields := [], metatable := none }, { fields := [], metatable := none }],
    coronaThread := fun L => some L,
    env :=
      { script := [],
        raised := [],
        executed := [],
        sdk := { calls := [], signedIn := false, loggedOn := false,
                 errorAfter := fun _ => none, authListener := false,
                 authNotifications := [], encryptedAppTicket := "" },
        runtimeListeners := [],
        diagnostics := [],
        luaCalls := [] } }

/-- The fresh world extended with a dispatcher object: heap object 2 is a table
with the three dispatcher methods, stored in the registry under reference 1.
The environment reacts to calls with the given script. -/
def World.withDispatcher (script : List CallReaction) : World :=
  { World.fresh with
    heap :=
      [{ fields := [], metatable := none },
       { fields := [(LuaValue.number 1, LuaValue.table 2)], metatable := none },
       { fields := [(LuaValue.string "dispatchEvent", LuaValue.function 0),
                    (LuaValue.string "addEventListener", LuaValue.function 1),
                    (LuaValue.string "removeEventListener", LuaValue.function 2)],
         metatable := none }],
    env := { World.fresh.env with script := script } }

/-- The dispatcher that refers to the dispatcher object of `World.withDispatcher`. -/
def sampleDispatcher : LuaEventDispatcher :=
  { fLuaStatePointer := some 1, fLuaRegistryReferenceId := 1 }

/-- A context at address 1 bound to `sampleDispatcher`, with an empty queue. -/
def sampleContext : RuntimeContext :=
  { fLuaEventDispatcherPointer := some sampleDispatcher,
    fLuaEnterFrameCallback := { owner := 1, luaStatePointer := some 1 },
    fDispatchEventTaskQueue := [] }

/-- The process after two plugin loads on thread 1 for the same Lua state 1 of
the fresh world. -/
def Process.loadedTwice : Process :=
  (luaopen_plugin_gog (luaopen_plugin_gog (Process.initial World.fresh) 1 (some 1)).2 1
    (some 1)).2

/-- The process after two plugin loads on thread 1 for the Lua states 1 and 2 of
the fresh world, each of which is its own main state. -/
def Process.loadedForTwoStates : Process :=
  (luaopen_plugin_gog (luaopen_plugin_gog (Process.initial World.fresh) 1 (some 1)).2 1
    (some 2)).2

/-- A process with one live context at address 1, subscribed to enterFrame,
whose queue holds two tasks. -/
def Process.withQueuedTasks : Process :=
  { world :=
      { World.withDispatcher [] with
        env := { (World.withDispatcher []).env with runtimeListeners := [("enterFrame", 1)] } },
    sRuntimeContextCollection := [1],
    sMainThreadId := some 1,
    objects :=
      [(1, { sampleContext with
              fDispatchEventTaskQueue :=
                [some (sampleContext.taskFor true), some (sampleContext.taskFor false)] })] }

/-- The process `Process.withQueuedTasks` in which the stack of state 1 holds the
given arguments of a call from Lua. -/
def Process.calledWith (arguments : List LuaValue) : Process :=
  { Process.withQueuedTasks with
    world := Process.withQueuedTasks.world.setStack 1 arguments }

/-- The fresh world in which the plugin table (a table) and a field name are the
arguments on the stack of state 1, with the given session state of the SDK. -/
def World.readingField (fieldName : String) (signedIn loggedOn : Bool) : World :=
  { World.fresh with
    stack := fun _ => [LuaValue.table 0, LuaValue.string fieldName],
    env := { World.fresh.env with
      sdk := { World.fresh.env.sdk with signedIn := signedIn, loggedOn := loggedOn } } }

/-- A runtime with main state 1, every other state being a coroutine of it.
The globals (object 0) hold `system` (object 2) with the function
`newEventDispatcher`, whose call (the first scripted reaction) returns the
dispatcher object (object 3); object 4 is an event table.  The stack of the main
state holds `mainStack`, the stack of the coroutine state 2 holds the event
table.  The second scripted reaction returns `true`. -/
def World.coroutineRuntime (mainStack : List LuaValue) : World :=
  { World.fresh with
    stack := fun l => if l = 1 then mainStack else if l = 2 then [LuaValue.table 4] else [],
    heap :=
      [{ fields := [(LuaValue.string "system", LuaValue.table 2)], metatable := none },
       { fields := [], metatable := none },
       { fields := [(LuaValue.string "newEventDispatcher", LuaValue.function 9)],
         metatable := none },
       { fields := [(LuaValue.string "dispatchEvent", LuaValue.function 0),
                    (LuaValue.string "addEventListener", LuaValue.function 1),
                    (LuaValue.string "removeEventListener", LuaValue.function 2)],
         metatable := none },
       { fields := [(LuaValue.string "name", LuaValue.string "authResponse")],
         metatable := none }],
    coronaThread := fun _ => some 1,
    env := { World.fresh.env with
      script :=
        [{ outcome := CallOutcome.returned [LuaValue.table 3], heapEffect := fun h => h,
           authResponses := [] },
         { outcome := CallOutcome.returned [LuaValue.boolean true], heapEffect := fun h => h,
           authResponses := [] }] } }

/-- The dispatcher constructed from the coroutine state 2 of
`World.coroutineRuntime`, and the world the constructor leaves. -/
def coroutineDispatcher (mainStack : List LuaValue) : World × LuaEventDispatcher :=
  LuaEventDispatcher.create (World.coroutineRuntime mainStack) (some 2)

/-- The fresh world in which the stack of state 1 holds one argument, with the
given sign-in state and the given errors of the SDK. -/
def World.unlocking (argument : LuaValue) (signedIn : Bool)
    (errorAfter : SdkCall → Option (String × String)) : World :=
  { World.fresh with
    stack := fun _ => [argument],
    env := { World.fresh.env with
      sdk := { World.fresh.env.sdk with signedIn := signedIn, errorAfter := errorAfter } } }

/-- An SDK in which `SetAchievement` fails for every name. -/
def failingSetAchievement (c : SdkCall) : Option (String × String) :=
  match c with
  | SdkCall.SetAchievement _ => some ("InvalidArgument", "unknown achievement")
  | _ => none

/-- A world in which `config.lua` can be loaded: the globals (object 0) hold
`package` (object 2, whose `loaded` is object 3, without `config`), the function
`require` and the global `application` with the value "old"; the stack of state
1 holds one value.  The reaction to `require("config")` stores `true` in
`package.loaded.config` and replaces the global `application` by the
application table (object 4), whose `gog` table (object 5) holds the client
id. -/
def World.withConfigFile : World :=
  { World.fresh with
    stack := fun _ => [LuaValue.number 7],
    heap :=
      [{ fields := [(LuaValue.string "package", LuaValue.table 2),
                    (LuaValue.string "require", LuaValue.function 8),
                    (LuaValue.string "application", LuaValue.string "old")],
         metatable := none },
       { fields := [], metatable := none },
       { fields := [(LuaValue.string "loaded", LuaValue.table 3)], metatable := none },
       { fields := [], metatable := none },
       { fields := [(LuaValue.string "gog", LuaValue.table 5)], metatable := none },
       { fields := [(LuaValue.string "clientId", LuaValue.string "id-1")],
         metatable := none }],
    env := { World.fresh.env with
      script :=
        [{ outcome := CallOutcome.returned [LuaValue.boolean true],
           heapEffect := fun h =>
             (h.set 3 { fields := [(LuaValue.string "config", LuaValue.boolean true)],
                        metatable := none }).set 0
               { fields := [(LuaValue.string "package", LuaValue.table 2),
                            (LuaValue.string "require", LuaValue.function 8),
                            (LuaValue.string "application", LuaValue.table 4)],
                 metatable := none },
           authResponses := [] }] } }

/-- A reaction of the environment that returns nothing and raises the given
`OnAuthResponse` callbacks. -/
def CallReaction.raising (successes : List Bool) : CallReaction :=
  { outcome := CallOutcome.returned [], heapEffect := fun h => h, authResponses := successes }

/-! # Theorems -/

/-! ## Stack lemmas for the primitives -/

@[simp] theorem stack_setStack (w : World) (L l : lua_State) (st : List LuaValue) :
    (w.setStack L st).stack l = if l = L then st else w.stack l := rfl

@[simp] theorem stack_push (w : World) (L l : lua_State) (v : LuaValue) :
    (push w L v).stack l = if l = L then w.stack L ++ [v] else w.stack l := rfl

theorem stack_lua_pop (w : World) (L l : lua_State) (n : Nat) :
    (lua_pop w L n).stack l =
      if l = L then (w.stack L).take ((w.stack L).length - n) else w.stack l := by
  unfold lua_pop lua_settop
  have h1 : ¬ (0 ≤ -(n : Int) - 1) := by omega
  have h2 : (((w.stack L).length : Int) + (-(n : Int) - 1) + 1).toNat
      = (w.stack L).length - n := by omega
  simp only [h1, if_false, h2, stack_setStack]
  have h3 : (w.stack L).length - n - (w.stack L).length = 0 := by omega
  simp [h3]

@[simp] theorem stack_lua_rawgeti (w : World) (L l : lua_State) (idx n : Int) :
    (lua_rawgeti w L idx n).stack l =
      if l = L then w.stack L ++ [fieldOf w (valueAt w L idx) (LuaValue.number n)]
      else w.stack l := rfl

@[simp] theorem stack_lua_getfield (w : World) (L l : lua_State) (idx : Int) (k : String) :
    (lua_getfield w L idx k).stack l =
      if l = L then w.stack L ++ [fieldOf w (valueAt w L idx) (LuaValue.string k)]
      else w.stack l := rfl

@[simp] theorem stack_lua_pushvalue (w : World) (L l : lua_State) (idx : Int) :
    (lua_pushvalue w L idx).stack l =
      if l = L then w.stack L ++ [valueAt w L idx] else w.stack l := rfl

@[simp] theorem stack_lua_pushstring (w : World) (L l : lua_State) (s : String) :
    (lua_pushstring w L s).stack l =
      if l = L then w.stack L ++ [LuaValue.string s] else w.stack l := rfl

/-- Effect of `lua_insert(L, -2)` on a stack with at least two elements: the two
topmost elements are swapped. -/
theorem stack_lua_insert_two (w : World) (L l : lua_State) (st : List LuaValue)
    (a b : LuaValue) (h : w.stack L = st ++ [a, b]) :
    (lua_insert w L (-2)).stack l = if l = L then st ++ [b, a] else w.stack l := by
  unfold lua_insert slotOf
  have hl : (st ++ [a, b]).getLast? = some b := by simp
  have hd : (st ++ [a, b]).dropLast = st ++ [a] := by
    have : st ++ [a, b] = (st ++ [a]) ++ [b] := by simp
    rw [this, List.dropLast_concat]
  have hp : (((st ++ [a, b]).length : Int) + (-2)).toNat = st.length := by
    simp only [List.length_append, List.length_cons, List.length_nil]
    omega
  simp only [h, hl, hd, hp, stack_setStack]
  simp

/-- Stack contract of `CoronaLuaDoCall` with one requested result: the callee
and its arguments are replaced by exactly one value, on success and on error;
no other thread is touched. -/
theorem stack_CoronaLuaDoCall_one (w : World) (L : lua_State) (narg : Nat) :
    ∃ v, ∀ l, (CoronaLuaDoCall w L narg 1).1.stack l =
      if l = L then (w.stack L).take ((w.stack L).length - (narg + 1)) ++ [v]
      else w.stack l := by
  unfold CoronaLuaDoCall
  simp only
  split
  · split
    · rename_i results _
      refine ⟨(adjustResults results 1).headD LuaValue.nil, ?_⟩
      intro l
      have : adjustResults results 1 = [(adjustResults results 1).headD LuaValue.nil] := by
        unfold adjustResults
        cases results <;> simp
      rw [this]
      simp
    · rename_i message _
      exact ⟨message, fun l => by simp⟩
  · exact ⟨LuaValue.string "attempt to call a non-function value", fun l => by simp⟩

/-- Stack effect of `DispatchEventWithResult(lua_State*, int)` when it is called
on the state the dispatcher was created in: it never faults, and it leaves
exactly one extra value on that stack when it returns true and none when it
returns false. -/
theorem DispatchEventWithResultIndex_stack (d : LuaEventDispatcher) (w : World)
    (L : lua_State) (idx : Int) (hd : d.fLuaStatePointer = some L) :
    ∃ b w1 v, d.DispatchEventWithResultIndex w (some L) idx = Except.ok (b, w1) ∧
      ∀ l, w1.stack l = if l = L ∧ b = true then w.stack L ++ [v] else w.stack l := by
  unfold LuaEventDispatcher.DispatchEventWithResultIndex
  rw [hd]
  simp only
  by_cases h0 : idx = 0
  · exact ⟨false, w, LuaValue.nil, by simp [h0], fun l => by simp⟩
  by_cases hn : LUA_NOREF = d.fLuaRegistryReferenceId
  · exact ⟨false, w, LuaValue.nil, by simp [h0, hn], fun l => by simp⟩
  simp only [h0, hn, if_false]
  obtain ⟨index, hidx⟩ : ∃ index : Int,
      (if idx < 0 ∧ idx > LUA_REGISTRYINDEX then
        (Except.ok (idx + (lua_gettop w L + 1)) : Except Fault Int)
       else Except.ok idx) = Except.ok index := by
    by_cases hc : idx < 0 ∧ idx > LUA_REGISTRYINDEX
    · exact ⟨_, if_pos hc⟩
    · exact ⟨_, if_neg hc⟩
  rw [hidx]
  simp only
  by_cases ht : lua_istable (lua_rawgeti w L LUA_REGISTRYINDEX d.fLuaRegistryReferenceId) L (-1)
      = true
  · rw [if_neg (not_not.mpr ht)]
    by_cases hf : lua_isfunction (lua_getfield (lua_rawgeti w L LUA_REGISTRYINDEX
        d.fLuaRegistryReferenceId) L (-1) "dispatchEvent") L (-1) = true
    · rw [if_neg (not_not.mpr hf)]
      obtain ⟨v, hv⟩ := stack_CoronaLuaDoCall_one
        (lua_pushvalue (lua_insert (lua_getfield (lua_rawgeti w L LUA_REGISTRYINDEX
          d.fLuaRegistryReferenceId) L (-1) "dispatchEvent") L (-2)) L index) L 2
      have hst : (lua_getfield (lua_rawgeti w L LUA_REGISTRYINDEX d.fLuaRegistryReferenceId)
          L (-1) "dispatchEvent").stack L = w.stack L ++
            [fieldOf w (valueAt w L LUA_REGISTRYINDEX)
               (LuaValue.number d.fLuaRegistryReferenceId),
             fieldOf (lua_rawgeti w L LUA_REGISTRYINDEX d.fLuaRegistryReferenceId)
               (valueAt (lua_rawgeti w L LUA_REGISTRYINDEX d.fLuaRegistryReferenceId) L (-1))
               (LuaValue.string "dispatchEvent")] := by simp
      have hins := fun l => stack_lua_insert_two _ L l _ _ _ hst
      refine ⟨true, _, v, rfl, fun l => ?_⟩
      rw [hv]
      by_cases hl : l = L
      · subst hl
        simp only [stack_lua_pushvalue, if_true, and_self, hins]
        simp
      · simp only [hl, if_false, stack_lua_pushvalue, false_and, hins]
        simp [hl]
    · rw [if_pos hf]
      refine ⟨false, _, LuaValue.nil, rfl, fun l => ?_⟩
      rw [stack_lua_pop]
      by_cases hl : l = L
      · subst hl; simp
      · simp [hl]
  · rw [if_pos ht]
    refine ⟨false, _, LuaValue.nil, rfl, fun l => ?_⟩
    rw [stack_lua_pop]
    by_cases hl : l = L
    · subst hl; simp
    · simp [hl]

/-- Stack effect of `DispatchEventWithoutResult(lua_State*, int)` when it is
called on the state the dispatcher was created in: it never faults and every
stack is left as it was. -/
theorem DispatchEventWithoutResultIndex_stack (d : LuaEventDispatcher) (w : World)
    (L : lua_State) (idx : Int) (hd : d.fLuaStatePointer = some L) :
    ∃ b w1, d.DispatchEventWithoutResultIndex w (some L) idx = Except.ok (b, w1) ∧
      ∀ l, w1.stack l = w.stack l := by
  obtain ⟨b, w1, v, hr, hs⟩ := DispatchEventWithResultIndex_stack d w L idx hd
  unfold LuaEventDispatcher.DispatchEventWithoutResultIndex popDispatchResult
  rw [hr]
  cases b with
  | false =>
    refine ⟨false, w1, by simp, fun l => ?_⟩
    rw [hs]; simp
  | true =>
    refine ⟨true, lua_pop w1 L 1, by simp, fun l => ?_⟩
    rw [stack_lua_pop, hs L]
    by_cases hl : l = L
    · subst hl; simp
    · rw [hs l]; simp [hl]

@[simp] theorem stack_rawset (w : World) (ref : Nat) (k v : LuaValue) :
    (w.rawset ref k v).stack = w.stack := rfl

theorem stack_lua_setfield (w : World) (L l : lua_State) (idx : Int) (k : String) :
    (lua_setfield w L idx k).stack l = (lua_pop w L 1).stack l := by
  unfold lua_setfield
  simp only
  split <;> rfl

@[simp] theorem stack_CoronaLuaNewEvent (w : World) (L l : lua_State) (name : String) :
    (CoronaLuaNewEvent w L name).stack l =
      if l = L then w.stack L ++ [LuaValue.table w.heap.length] else w.stack l := rfl

@[simp] theorem stack_lua_pushboolean (w : World) (L l : lua_State) (b : Int) :
    (lua_pushboolean w L b).stack l =
      if l = L then w.stack L ++ [LuaValue.boolean (decide (b ≠ 0))] else w.stack l := rfl

theorem take_length_succ_append_two {α : Type} (st : List α) (a b : α) :
    (st ++ [a, b]).take (st.length + 1) = st ++ [a] := by
  have h : st ++ [a, b] = (st ++ [a]) ++ [b] := by simp
  rw [h, List.take_left']
  simp

/-- Stack effect of `PushLuaEventTableTo` on a non-null state: it returns true
and leaves exactly one new table on top of that stack. -/
theorem PushLuaEventTableTo_stack (t : DispatchAuthResponseEventTask) (w : World)
    (L : lua_State) :
    ∃ w1, t.PushLuaEventTableTo w (some L) = (true, w1) ∧
      ∀ l, w1.stack l =
        if l = L then w.stack L ++ [LuaValue.table w.heap.length] else w.stack l := by
  refine ⟨_, rfl, fun l => ?_⟩
  rw [stack_lua_setfield, stack_lua_pop]
  by_cases hl : l = L
  · subst hl; simp [take_length_succ_append_two]
  · simp [hl]

/-! ## Execute -/

/-- `Execute` always returns a result and leaves every Lua stack as it was. -/
theorem Execute_stack (t : DispatchAuthResponseEventTask) (w : World) :
    ∃ b w1, t.Execute w = Except.ok (b, w1) ∧
      ∀ L, w1.stack L = w.stack L ∧ (w1.stack L).length = (w.stack L).length := by
  unfold DispatchAuthResponseEventTask.Execute DispatchAuthResponseEventTask.executeBody
  cases hd : t.fLuaEventDispatcherPointer with
  | none => exact ⟨false, _, rfl, fun L => ⟨rfl, rfl⟩⟩
  | some d =>
    simp only
    cases hL : d.GetLuaState with
    | none => exact ⟨false, _, rfl, fun L => ⟨rfl, rfl⟩⟩
    | some L =>
      simp only
      obtain ⟨w1, hp, hs1⟩ :=
        PushLuaEventTableTo_stack t (w.recordExecute t) L
      obtain ⟨b, w2, hr, hs2⟩ := DispatchEventWithoutResultIndex_stack d w1 L (-1) hL
      refine ⟨b, lua_pop w2 L 1, ?_, fun l => ?_⟩
      · simp only [hp, hr]
      · have h : (lua_pop w2 L 1).stack l = w.stack l := by
          rw [stack_lua_pop, hs2 L, hs1 L]
          by_cases hl : l = L
          · subst hl; simp [World.recordExecute]
          · rw [hs2 l, hs1 l]; simp [hl, World.recordExecute]
        exact ⟨h, by rw [h]⟩

/-! ## The auth-response event record -/

theorem getD_length_append {α : Type} (st : List α) (a : α) (rest : List α) (d : α) :
    (st ++ a :: rest).getD st.length d = a := by
  induction st with
  | nil => rfl
  | cons x xs ih => simpa using ih

theorem valueAt_neg_one (w : World) (L : lua_State) (st : List LuaValue) (b : LuaValue)
    (h : w.stack L = st ++ [b]) : valueAt w L (-1) = b := by
  unfold valueAt
  have h1 : ¬ ((0 : Int) < -1) := by omega
  have h2 : LUA_REGISTRYINDEX < (-1 : Int) := by decide
  have h3 : ¬ ((-1 : Int) = 0) := by omega
  have h4 : -(-1 : Int) ≤ ((w.stack L).length : Int) := by
    rw [h]; simp
  have h5 : (((w.stack L).length : Int) + (-1)).toNat = st.length := by
    rw [h]; simp
  simp only [h1, h2, h3, h4, h5, if_true, if_false]
  rw [h]; exact getD_length_append st b [] LuaValue.nil

theorem valueAt_neg_two (w : World) (L : lua_State) (st : List LuaValue) (a b : LuaValue)
    (h : w.stack L = st ++ [a, b]) : valueAt w L (-2) = a := by
  unfold valueAt
  have h1 : ¬ ((0 : Int) < -2) := by omega
  have h2 : LUA_REGISTRYINDEX < (-2 : Int) := by decide
  have h3 : ¬ ((-2 : Int) = 0) := by omega
  have h4 : -(-2 : Int) ≤ ((w.stack L).length : Int) := by
    rw [h]; simp
  have h5 : (((w.stack L).length : Int) + (-2)).toNat = st.length := by
    rw [h]; simp
  simp only [h1, h2, h3, h4, h5, if_true, if_false]
  rw [h]; exact getD_length_append st a [b] LuaValue.nil

theorem rawget_rawset_same (w : World) (ref : Nat) (k v : LuaValue)
    (hr : ref < w.heap.length) (hv : v ≠ LuaValue.nil) :
    (w.rawset ref k v).rawget ref k = v := by
  unfold World.rawget World.rawset World.object
  simp [hr, hv, List.lookup]

theorem rawget_rawset_other (w : World) (ref : Nat) (k k2 v : LuaValue)
    (hr : ref < w.heap.length) (hk : k2 ≠ k) :
    (w.rawset ref k v).rawget ref k2 = w.rawget ref k2 := by
  unfold World.rawget World.rawset World.object
  have hl : ∀ fields : List (LuaValue × LuaValue),
      List.lookup k2 (fields.filter (fun kv => !decide (kv.1 = k))) = List.lookup k2 fields := by
    intro fields
    induction fields with
    | nil => rfl
    | cons kv rest ih =>
      obtain ⟨a, b⟩ := kv
      by_cases ha : a = k
      · subst ha
        have : (k2 == a) = false := by simpa using hk
        simp [List.lookup, List.filter, this, ih]
      · by_cases h2 : k2 = a
        · subst h2
          simp [List.lookup, List.filter, ha]
        · have : (k2 == a) = false := by simpa using h2
          simp [List.lookup, List.filter, ha, this, ih]
  by_cases hv : v = LuaValue.nil
  · simp [hr, hv, hl]
  · have : (k2 == k) = false := by simpa using hk
    simp [hr, hv, hl, List.lookup, this]

/-- For every task, world and non-null state, the record built by
`PushLuaEventTableTo` is the new table on top of the stack; its field `name` is
`authResponse` and its field `isError` holds the captured flag `fSuccess`
unchanged. -/
theorem PushLuaEventTableTo_record (t : DispatchAuthResponseEventTask) (w : World)
    (L : lua_State) :
    valueAt (t.PushLuaEventTableTo w (some L)).2 L (-1) = LuaValue.table w.heap.length ∧
    (t.PushLuaEventTableTo w (some L)).2.rawget w.heap.length (LuaValue.string "name")
      = LuaValue.string "authResponse" ∧
    (t.PushLuaEventTableTo w (some L)).2.rawget w.heap.length (LuaValue.string "isError")
      = LuaValue.boolean t.fSuccess := by
  obtain ⟨w1, hp, hs⟩ := PushLuaEventTableTo_stack t w L
  have hst : (lua_pushboolean (CoronaLuaNewEvent w L kLuaEventName) L
      (if t.fSuccess then 1 else 0)).stack L
        = w.stack L ++ [LuaValue.table w.heap.length, LuaValue.boolean t.fSuccess] := by
    cases t.fSuccess <;> simp
  have hset : (t.PushLuaEventTableTo w (some L)).2 =
      (lua_pop (lua_pushboolean (CoronaLuaNewEvent w L kLuaEventName) L
        (if t.fSuccess then 1 else 0)) L 1).rawset w.heap.length
          (LuaValue.string "isError") (LuaValue.boolean t.fSuccess) := by
    unfold DispatchAuthResponseEventTask.PushLuaEventTableTo lua_setfield
    simp only [valueAt_neg_two _ L _ _ _ hst]
    rw [valueAt_neg_one _ L (w.stack L ++ [LuaValue.table w.heap.length])
      (LuaValue.boolean t.fSuccess) (by rw [hst]; simp)]
  have hlen : w.heap.length < (lua_pop (lua_pushboolean (CoronaLuaNewEvent w L kLuaEventName) L
        (if t.fSuccess then 1 else 0)) L 1).heap.length := by
    simp [lua_pop, lua_settop, World.setStack, lua_pushboolean, push, CoronaLuaNewEvent,
      World.alloc]
  refine ⟨?_, ?_, ?_⟩
  · rw [hp]
    exact valueAt_neg_one w1 L (w.stack L) _ (by rw [hs L]; simp)
  · rw [hset, rawget_rawset_other _ _ _ _ _ hlen (by decide)]
    simp [World.rawget, World.object, lua_pop, lua_settop, World.setStack, lua_pushboolean,
      push, CoronaLuaNewEvent, World.alloc, kLuaEventName, List.lookup]
  · rw [hset, rawget_rawset_same _ _ _ _ hlen (by simp)]

/-! ## Dispatchers without a dispatcher object -/

/-- What holds of a dispatcher without a dispatcher object (reference id
`LUA_NOREF`): the listener methods and the index overloads of the dispatch
methods return false for all arguments and leave the world untouched; the name
overloads return false whenever the state argument is not null, the
dispatcher has no state of its own, or the event name is null. -/
theorem inert_dispatcher_fails_closed (d : LuaEventDispatcher) (w : World)
    (hd : d.fLuaRegistryReferenceId = LUA_NOREF)
    (luaStatePointer : Option lua_State) (eventName : Option String) (idx : Int) :
    d.AddEventListener w luaStatePointer eventName idx = (false, w) ∧
    d.RemoveEventListener w luaStatePointer eventName idx = (false, w) ∧
    d.DispatchEventWithResultIndex w luaStatePointer idx = Except.ok (false, w) ∧
    d.DispatchEventWithoutResultIndex w luaStatePointer idx = Except.ok (false, w) ∧
    ((luaStatePointer ≠ none ∨ d.fLuaStatePointer = none ∨ eventName = none) →
      ∃ w1, d.DispatchEventWithResultName w luaStatePointer eventName = Except.ok (false, w1) ∧
        d.DispatchEventWithoutResultName w luaStatePointer eventName
          = Except.ok (false, w1)) := by
  have hidx : ∀ (w0 : World) (p : Option lua_State) (i : Int),
      d.DispatchEventWithResultIndex w0 p i = Except.ok (false, w0) := by
    intro w0 p i
    unfold LuaEventDispatcher.DispatchEventWithResultIndex
    cases d.fLuaStatePointer with
    | none => rfl
    | some fL =>
      simp only [hd]
      by_cases h0 : i = 0
      · simp [h0]
      · simp [h0]
  have hlis : ∀ m, d.callListenerMethod m w luaStatePointer eventName idx = (false, w) := by
    intro m
    unfold LuaEventDispatcher.callListenerMethod
    cases luaStatePointer <;> cases eventName <;> simp [hd]
  refine ⟨hlis _, hlis _, hidx _ _ _, ?_, ?_⟩
  · unfold LuaEventDispatcher.DispatchEventWithoutResultIndex popDispatchResult
    rw [hidx]
    simp
  · intro h
    unfold LuaEventDispatcher.DispatchEventWithoutResultName
      LuaEventDispatcher.DispatchEventWithResultName
    cases hf : d.fLuaStatePointer with
    | none => exact ⟨w, rfl, rfl⟩
    | some fL =>
      cases eventName with
      | none => exact ⟨w, rfl, rfl⟩
      | some name =>
        cases luaStatePointer with
        | none => simp [hf] at h
        | some L =>
          simp only [hidx]
          exact ⟨_, rfl, rfl⟩

/-! ## Environment lemmas -/

theorem EnvStep.refl (e : Environment) : EnvStep e e :=
  ⟨rfl, rfl, rfl, rfl, rfl⟩

theorem EnvStep.of_eq {e e1 : Environment} (h : e1 = e) : EnvStep e e1 := by
  subst h; exact EnvStep.refl _

theorem EnvStep.trans {e e1 e2 : Environment} (h1 : EnvStep e e1) (h2 : EnvStep e1 e2) :
    EnvStep e e2 :=
  ⟨h2.executed.trans h1.executed, h2.stream.trans h1.stream, h2.sdk.trans h1.sdk,
   h2.runtimeListeners.trans h1.runtimeListeners, h2.diagnostics.trans h1.diagnostics⟩

@[simp] theorem env_setStack (w : World) (L : lua_State) (st : List LuaValue) :
    (w.setStack L st).env = w.env := rfl

@[simp] theorem env_rawset (w : World) (ref : Nat) (k v : LuaValue) :
    (w.rawset ref k v).env = w.env := rfl

@[simp] theorem env_push (w : World) (L : lua_State) (v : LuaValue) :
    (push w L v).env = w.env := rfl

@[simp] theorem env_lua_settop (w : World) (L : lua_State) (idx : Int) :
    (lua_settop w L idx).env = w.env := rfl

@[simp] theorem env_lua_pop (w : World) (L : lua_State) (n : Nat) :
    (lua_pop w L n).env = w.env := rfl

@[simp] theorem env_lua_pushvalue (w : World) (L : lua_State) (idx : Int) :
    (lua_pushvalue w L idx).env = w.env := rfl

@[simp] theorem env_lua_pushboolean (w : World) (L : lua_State) (b : Int) :
    (lua_pushboolean w L b).env = w.env := rfl

@[simp] theorem env_lua_pushstring (w : World) (L : lua_State) (k : String) :
    (lua_pushstring w L k).env = w.env := rfl

@[simp] theorem env_lua_pushnil (w : World) (L : lua_State) :
    (lua_pushnil w L).env = w.env := rfl

@[simp] theorem env_lua_getfield (w : World) (L : lua_State) (idx : Int) (k : String) :
    (lua_getfield w L idx k).env = w.env := rfl

@[simp] theorem env_lua_getglobal (w : World) (L : lua_State) (k : String) :
    (lua_getglobal w L k).env = w.env := rfl

@[simp] theorem env_lua_rawgeti (w : World) (L : lua_State) (idx n : Int) :
    (lua_rawgeti w L idx n).env = w.env := rfl

@[simp] theorem env_lua_setfield (w : World) (L : lua_State) (idx : Int) (k : String) :
    (lua_setfield w L idx k).env = w.env := by
  unfold lua_setfield
  simp only
  split <;> rfl

@[simp] theorem env_lua_setglobal (w : World) (L : lua_State) (k : String) :
    (lua_setglobal w L k).env = w.env := env_lua_setfield w L _ k

@[simp] theorem env_lua_insert (w : World) (L : lua_State) (idx : Int) :
    (lua_insert w L idx).env = w.env := by
  unfold lua_insert
  simp only
  split <;> rfl

@[simp] theorem env_lua_remove (w : World) (L : lua_State) (idx : Int) :
    (lua_remove w L idx).env = w.env := rfl

@[simp] theorem env_lua_createtable (w : World) (L : lua_State) :
    (lua_createtable w L).env = w.env := rfl

@[simp] theorem env_luaL_ref (w : World) (L : lua_State) (idx : Int) :
    (luaL_ref w L idx).1.env = w.env := by
  unfold luaL_ref
  simp only
  split
  · rfl
  · split <;> rfl

@[simp] theorem env_luaL_unref (w : World) (L : lua_State) (idx ref : Int) :
    (luaL_unref w L idx ref).env = w.env := by
  unfold luaL_unref
  split
  · rfl
  · split <;> rfl

@[simp] theorem env_CoronaLuaNewEvent (w : World) (L : lua_State) (name : String) :
    (CoronaLuaNewEvent w L name).env = w.env := rfl

/-- A protected call changes the environment only by consuming at most one
scripted reaction, whose callbacks it raises. -/
theorem EnvStep_CoronaLuaDoCall (w : World) (L : lua_State) (narg nresults : Nat) :
    EnvStep w.env (CoronaLuaDoCall w L narg nresults).1.env := by
  unfold CoronaLuaDoCall
  simp only
  have key : EnvStep w.env
      { script := w.env.script.tail,
        raised := w.env.raised ++ (w.env.script.headD CallReaction.quiet).authResponses,
        executed := w.env.executed, sdk := w.env.sdk,
        runtimeListeners := w.env.runtimeListeners, diagnostics := w.env.diagnostics,
        luaCalls := w.env.luaCalls ++
          [((w.stack L).getD ((w.stack L).length - (narg + 1)) LuaValue.nil,
            (w.stack L).drop ((w.stack L).length - (narg + 1) + 1))] } := by
    refine ⟨rfl, ?_, rfl, rfl, rfl⟩
    unfold callbackStream
    cases w.env.script with
    | nil => simp [CallReaction.quiet]
    | cons r rs => simp
  split
  · split
    · exact key
    · exact key
  · exact EnvStep.refl _

theorem EnvStep_DispatchEventWithResultIndex (d : LuaEventDispatcher) (w : World)
    (luaStatePointer : Option lua_State) (idx : Int) (r : Bool × World)
    (h : d.DispatchEventWithResultIndex w luaStatePointer idx = Except.ok r) :
    EnvStep w.env r.2.env := by
  unfold LuaEventDispatcher.DispatchEventWithResultIndex at h
  split at h
  · cases h; exact EnvStep.refl _
  · split at h
    · cases h; exact EnvStep.refl _
    · split at h
      · cases h; exact EnvStep.refl _
      · simp only at h
        split at h
        · cases h
        · split at h
          · cases h; exact EnvStep.of_eq (by simp)
          · split at h
            · cases h; exact EnvStep.of_eq (by simp)
            · split at h
              · cases h
              · cases h
                refine EnvStep.trans ?_ (EnvStep_CoronaLuaDoCall _ _ 2 1)
                exact EnvStep.of_eq (by simp)

theorem EnvStep_DispatchEventWithoutResultIndex (d : LuaEventDispatcher) (w : World)
    (luaStatePointer : Option lua_State) (idx : Int) (r : Bool × World)
    (h : d.DispatchEventWithoutResultIndex w luaStatePointer idx = Except.ok r) :
    EnvStep w.env r.2.env := by
  unfold LuaEventDispatcher.DispatchEventWithoutResultIndex popDispatchResult at h
  split at h
  · cases h
  · rename_i b w1 hr
    have h1 := EnvStep_DispatchEventWithResultIndex d w luaStatePointer idx _ hr
    split at h
    · split at h
      · cases h
      · cases h; exact EnvStep.trans h1 (EnvStep.of_eq (by simp))
    · cases h; exact h1

@[simp] theorem env_PushLuaEventTableTo (t : DispatchAuthResponseEventTask) (w : World)
    (luaStatePointer : Option lua_State) :
    (t.PushLuaEventTableTo w luaStatePointer).2.env = w.env := by
  unfold DispatchAuthResponseEventTask.PushLuaEventTableTo
  cases luaStatePointer <;> simp

/-- Effect of `Execute` on the environment: the call is appended to the history
and nothing else changes, apart from the reaction a dispatch consumed. -/
theorem EnvStep_Execute (t : DispatchAuthResponseEventTask) (w : World) (r : Bool × World)
    (h : t.Execute w = Except.ok r) : EnvStep (w.recordExecute t).env r.2.env := by
  unfold DispatchAuthResponseEventTask.Execute DispatchAuthResponseEventTask.executeBody at h
  split at h
  · cases h; exact EnvStep.refl _
  · split at h
    · cases h; exact EnvStep.refl _
    · rename_i d _ _ L _
      have hp := env_PushLuaEventTableTo t (w.recordExecute t) (some L)
      split at h
      · rename_i w1 hw1
        cases h
        rw [hw1] at hp
        exact EnvStep.of_eq hp
      · rename_i w1 hw1
        rw [hw1] at hp
        split at h
        · cases h
        · rename_i b w2 hr
          cases h
          have h2 := EnvStep_DispatchEventWithoutResultIndex d w1 (some L) (-1) _ hr
          exact EnvStep.trans (EnvStep.of_eq hp) (EnvStep.trans h2 (EnvStep.of_eq (by simp)))

/-! ## The queue -/

theorem foldl_OnAuthResponse (l : List Bool) (ctx : RuntimeContext) :
    l.foldl RuntimeContext.OnAuthResponse ctx =
      { ctx with fDispatchEventTaskQueue :=
          ctx.fDispatchEventTaskQueue ++ l.map (fun s => some (ctx.taskFor s)) } := by
  induction l generalizing ctx with
  | nil => simp
  | cons s rest ih =>
    rw [List.foldl_cons, ih]
    simp [RuntimeContext.OnAuthResponse, RuntimeContext.OnHandleGlobalGogEvent,
      RuntimeContext.taskFor]

theorem deliverRaised_fst (ctx : RuntimeContext) (w : World) :
    (ctx.deliverRaised w).1 =
      { ctx with fDispatchEventTaskQueue :=
          ctx.fDispatchEventTaskQueue ++ w.env.raised.map (fun s => some (ctx.taskFor s)) } :=
  foldl_OnAuthResponse w.env.raised ctx

theorem deliverRaised_snd (ctx : RuntimeContext) (w : World) :
    (ctx.deliverRaised w).2 = w.clearRaised := rfl

theorem callbackStream_clearRaised (w : World) :
    callbackStream w.env = w.env.raised ++ callbackStream w.clearRaised.env := by
  simp [callbackStream, World.clearRaised]

theorem reduceOption_map_some {α β : Type} (f : α → β) (l : List α) :
    (l.map (fun s => some (f s))).reduceOption = l.map f := by
  induction l with
  | nil => rfl
  | cons a rest ih => simp [List.reduceOption_cons_of_some, ih]

/-- The drain loop, given enough fuel, returns with an empty queue.  The
`Execute` calls it makes are, in order: the non-null tasks of the queue it
started with, then the tasks of the callbacks delivered while it ran.  The
delivered callbacks are a leading part of the callback stream; the stacks and
the SDK are as before. -/
theorem drain_spec (fuel : Nat) : ∀ (ctx : RuntimeContext) (w : World),
    ctx.fDispatchEventTaskQueue.length + (callbackStream w.env).length ≤ fuel →
    ∃ ctx1 w1 delivered,
      RuntimeContext.drain fuel ctx w = Except.ok (ctx1, w1) ∧
      ctx1.fDispatchEventTaskQueue = [] ∧
      ctx1.fLuaEventDispatcherPointer = ctx.fLuaEventDispatcherPointer ∧
      ctx1.fLuaEnterFrameCallback = ctx.fLuaEnterFrameCallback ∧
      callbackStream w.env = delivered ++ callbackStream w1.env ∧
      w1.env.executed = w.env.executed ++
        (ctx.fDispatchEventTaskQueue.reduceOption ++ delivered.map ctx.taskFor) ∧
      (w.env.raised = [] → w1.env.raised = []) ∧
      (∀ L, w1.stack L = w.stack L) ∧
      w1.env.sdk = w.env.sdk := by
  induction fuel with
  | zero =>
    intro ctx w hle
    have hq : ctx.fDispatchEventTaskQueue = [] := by
      cases hc : ctx.fDispatchEventTaskQueue with
      | nil => rfl
      | cons a l => rw [hc] at hle; simp at hle
    refine ⟨ctx, w, [], ?_, hq, rfl, rfl, by simp, by simp [hq], fun h => h, fun _ => rfl, rfl⟩
    unfold RuntimeContext.drain
    rw [hq]
  | succ fuel ih =>
    intro ctx w hle
    cases hq : ctx.fDispatchEventTaskQueue with
    | nil =>
      refine ⟨ctx, w, [], ?_, hq, rfl, rfl, by simp, by simp, fun h => h, fun _ => rfl, rfl⟩
      unfold RuntimeContext.drain
      rw [hq]
    | cons front rest =>
      rw [hq] at hle
      simp only [List.length_cons] at hle
      cases front with
      | none =>
        obtain ⟨ctx1, w1, delivered, hr, h1, h2, h3, h4, h5, h6, h7, h8⟩ :=
          ih { ctx with fDispatchEventTaskQueue := rest } w (by simp only; omega)
        refine ⟨ctx1, w1, delivered, ?_, h1, h2, h3, h4, ?_, h6, h7, h8⟩
        · unfold RuntimeContext.drain
          rw [hq]
          exact hr
        · rw [h5]
          simp [RuntimeContext.taskFor, List.reduceOption_cons_of_none]
      | some t =>
        obtain ⟨b, w1, hx, hst⟩ := Execute_stack t w
        have he := EnvStep_Execute t w _ hx
        simp only at he
        have hstream : callbackStream w1.env = callbackStream w.env := he.stream
        have hraised := callbackStream_clearRaised w1
        have hlen := congrArg List.length hraised
        rw [hstream, List.length_append] at hlen
        obtain ⟨ctx3, w3, delivered, hr, h1, h2, h3, h4, h5, h6, h7, h8⟩ :=
          ih (({ ctx with fDispatchEventTaskQueue := rest } : RuntimeContext).deliverRaised w1).1
            (({ ctx with fDispatchEventTaskQueue := rest } : RuntimeContext).deliverRaised w1).2
            (by
              rw [deliverRaised_fst, deliverRaised_snd]
              simp only [List.length_append, List.length_map]
              omega)
        simp only [deliverRaised_fst, deliverRaised_snd] at h2 h3 h4 h5 h6 h7 h8
        refine ⟨ctx3, w3, w1.env.raised ++ delivered, ?_, h1, h2, h3, ?_, ?_, ?_, ?_, ?_⟩
        · unfold RuntimeContext.drain
          rw [hq]
          simp only [hx]
          exact hr
        · rw [← hstream, hraised, h4, List.append_assoc]
        · rw [h5]
          have hex : w1.env.executed = w.env.executed ++ [t] := he.executed
          have hex2 : w1.clearRaised.env.executed = w1.env.executed := rfl
          have htf : ∀ s, ({ ctx with fDispatchEventTaskQueue := rest } : RuntimeContext).taskFor s
              = ctx.taskFor s := fun _ => rfl
          simp only [hex2, hex, List.reduceOption_append, reduceOption_map_some,
            List.reduceOption_cons_of_some, htf, List.map_append, List.append_assoc,
            List.singleton_append, List.cons_append]
          simp [RuntimeContext.taskFor]
        · intro _
          exact h6 rfl
        · intro L
          rw [h7 L]
          exact (hst L).1
        · rw [h8]
          exact he.sdk

/-- A frame tick with a non-null state, given enough fuel, returns 0 with an
empty queue.  The callbacks delivered during the tick (at the pump and while
tasks run) are a leading part of the callback stream, none stays raised, and
the `Execute` calls of the tick are, in order: the non-null tasks queued before
the tick, then the tasks of the delivered callbacks. -/
theorem OnCoronaEnterFrame_spec (fuel : Nat) (ctx : RuntimeContext) (L : lua_State)
    (w : World)
    (hfuel : ctx.fDispatchEventTaskQueue.length + (callbackStream w.env).length ≤ fuel) :
    ∃ ctx1 w1 delivered,
      ctx.OnCoronaEnterFrame fuel (some L) w = Except.ok (0, ctx1, w1) ∧
      ctx1.fDispatchEventTaskQueue = [] ∧
      ctx1.fLuaEventDispatcherPointer = ctx.fLuaEventDispatcherPointer ∧
      callbackStream w.env = delivered ++ callbackStream w1.env ∧
      w1.env.raised = [] ∧
      w1.env.executed = w.env.executed ++
        (ctx.fDispatchEventTaskQueue.reduceOption ++ delivered.map ctx.taskFor) := by
  have hs : callbackStream (galaxy.api.ProcessData w).env = callbackStream w.env := rfl
  have hr := callbackStream_clearRaised (galaxy.api.ProcessData w)
  have hlen := congrArg List.length hr
  rw [hs, List.length_append] at hlen
  obtain ⟨ctx1, w1, delivered, hd, h1, h2, _, h4, h5, h6, _, _⟩ :=
    drain_spec fuel (ctx.deliverRaised (galaxy.api.ProcessData w)).1
      (ctx.deliverRaised (galaxy.api.ProcessData w)).2
      (by
        rw [deliverRaised_fst, deliverRaised_snd]
        simp only [List.length_append, List.length_map]
        have : (galaxy.api.ProcessData w).env.raised = w.env.raised := rfl
        rw [this] at hlen ⊢
        omega)
  simp only [deliverRaised_fst, deliverRaised_snd] at h2 h4 h5 h6
  refine ⟨ctx1, w1, (galaxy.api.ProcessData w).env.raised ++ delivered, ?_, h1, h2, ?_,
    h6 rfl, ?_⟩
  · unfold RuntimeContext.OnCoronaEnterFrame
    simp only [hd]
  · rw [← hs, hr, h4, List.append_assoc]
  · rw [h5]
    have hex : (galaxy.api.ProcessData w).clearRaised.env.executed = w.env.executed := rfl
    simp only [hex, List.reduceOption_append, reduceOption_map_some, List.map_append,
      List.append_assoc]
    simp [RuntimeContext.taskFor]

/-! ## Environment lemmas for the plugin entry points -/

@[simp] theorem env_lua_pushlightuserdata (w : World) (L : lua_State) (a : Nat) :
    (lua_pushlightuserdata w L a).env = w.env := rfl

@[simp] theorem env_lua_setmetatable (w : World) (L : lua_State) (idx : Int) :
    (lua_setmetatable w L idx).env = w.env := by
  unfold lua_setmetatable
  simp only
  split <;> rfl

theorem env_foldl_rawset (names : List String) (ref upvalue : Nat) (w : World) :
    (names.foldl (fun acc name =>
      acc.rawset ref (LuaValue.string name) (LuaValue.cfunction name upvalue)) w).env
      = w.env := by
  induction names generalizing w with
  | nil => rfl
  | cons n rest ih => rw [List.foldl_cons, ih]; rfl

@[simp] theorem env_luaL_openlib (w : World) (L : lua_State) (names : List String) :
    (luaL_openlib w L names).env = w.env := by
  unfold luaL_openlib
  simp only [env_lua_pop]
  split
  · exact env_foldl_rawset _ _ _ _
  · rfl

@[simp] theorem env_luaL_newmetatable (w : World) (L : lua_State) (tname : String) :
    (luaL_newmetatable w L tname).1.env = w.env := by
  unfold luaL_newmetatable
  split <;> rfl

@[simp] theorem env_CoronaLuaPushUserdata (w : World) (L : lua_State) (name : String) :
    (CoronaLuaPushUserdata w L name).env = w.env := rfl

@[simp] theorem env_pushPluginTable (w : World) (L : lua_State) (contextPointer : Nat) :
    (pushPluginTable w L contextPointer).env = w.env := by
  unfold pushPluginTable
  simp

theorem EnvStep_create (w : World) (luaStatePointer : Option lua_State) :
    EnvStep w.env (LuaEventDispatcher.create w luaStatePointer).1.env := by
  unfold LuaEventDispatcher.create
  cases luaStatePointer with
  | none => exact EnvStep.refl _
  | some given =>
    simp only [env_lua_settop]
    generalize resolveMainState w given = L
    split
    · split
      · have hc := EnvStep_CoronaLuaDoCall
          (lua_getfield (lua_getglobal w L "system") L (-1) "newEventDispatcher") L 0 1
        simp only [env_lua_getfield, env_lua_getglobal] at hc
        split
        · simpa using hc
        · exact hc
      · exact EnvStep.of_eq (by simp)
    · exact EnvStep.of_eq (by simp)

@[simp] theorem env_probeConfigLoaded (w : World) (L : lua_State) :
    (PluginConfigLuaSettings.probeConfigLoaded w L).2.env = w.env := by
  unfold PluginConfigLuaSettings.probeConfigLoaded
  simp only [env_lua_pop]
  split
  · simp only [env_lua_pop]
    split <;> simp
  · simp

theorem EnvStep_requireConfig (w : World) (L : lua_State) :
    EnvStep w.env (PluginConfigLuaSettings.requireConfig w L).env := by
  unfold PluginConfigLuaSettings.requireConfig
  simp only
  split
  · have hc := EnvStep_CoronaLuaDoCall
      (lua_pushstring (lua_getglobal w L "require") L "config") L 1 1
    simpa using hc
  · exact EnvStep.of_eq (by simp)

@[simp] theorem env_readString (w : World) (L : lua_State) (field current : String) :
    (PluginConfigLuaSettings.readString w L field current).2.env = w.env := rfl

@[simp] theorem env_readSettings (c : PluginConfigLuaSettings) (w : World) (L : lua_State) :
    (c.readSettings w L).2.2.env = w.env := by
  unfold PluginConfigLuaSettings.readSettings
  simp only [env_lua_pop]
  split
  · simp only [env_lua_pop]
    split <;> simp
  · simp

@[simp] theorem env_unloadConfig (w : World) (L : lua_State) :
    (PluginConfigLuaSettings.unloadConfig w L).env = w.env := by
  unfold PluginConfigLuaSettings.unloadConfig
  simp only [env_lua_pop]
  split
  · simp only [env_lua_pop]
    split <;> simp
  · simp

theorem EnvStep_LoadFrom (c : PluginConfigLuaSettings) (w : World)
    (luaStatePointer : Option lua_State) :
    EnvStep w.env (c.LoadFrom w luaStatePointer).2.2.env := by
  unfold PluginConfigLuaSettings.LoadFrom
  cases luaStatePointer with
  | none => exact EnvStep.refl _
  | some L =>
    simp only [env_lua_setglobal]
    have h := EnvStep_requireConfig
      (lua_getglobal (PluginConfigLuaSettings.probeConfigLoaded w L).2 L "application") L
    simp only [env_lua_getglobal, env_probeConfigLoaded] at h
    split
    · simpa using h
    · simpa using h

/-! ## The instance collection -/

theorem le_foldl_max (l : List Nat) : ∀ init : Nat,
    init ≤ l.foldl max init ∧ ∀ a, a ∈ l → a ≤ l.foldl max init := by
  induction l with
  | nil => intro init; exact ⟨Nat.le_refl _, fun a ha => by simp at ha⟩
  | cons x xs ih =>
    intro init
    obtain ⟨h1, h2⟩ := ih (max init x)
    refine ⟨Nat.le_trans (Nat.le_max_left _ _) h1, fun a ha => ?_⟩
    rcases List.mem_cons.mp ha with rfl | hm
    · exact Nat.le_trans (Nat.le_max_right _ _) h1
    · exact h2 a hm

theorem freshAddress_not_live (p : Process) : p.freshAddress ∉ p.liveAddresses := by
  intro h
  have := (le_foldl_max p.liveAddresses 0).2 _ h
  unfold Process.freshAddress at this
  omega

theorem freshAddress_ne_zero (p : Process) : p.freshAddress ≠ 0 := by
  unfold Process.freshAddress
  omega

theorem length_filter_ne (l : List Nat) (a : Nat) (hn : l.Nodup) (ha : a ∈ l) :
    (l.filter (fun b => !decide (b = a))).length + 1 = l.length := by
  induction l with
  | nil => simp at ha
  | cons x xs ih =>
    have hx : x ∉ xs := (List.nodup_cons.mp hn).1
    have hxs : xs.Nodup := (List.nodup_cons.mp hn).2
    by_cases hxa : x = a
    · subst hxa
      have hf : xs.filter (fun b => !decide (b = x)) = xs := by
        apply List.filter_eq_self.mpr
        intro b hb
        have : b ≠ x := fun h => hx (h ▸ hb)
        simp [this]
      simp [List.filter, hf]
    · have ha2 : a ∈ xs := by
        rcases List.mem_cons.mp ha with h | h
        · exact absurd h.symm hxa
        · exact h
      have := ih hxs ha2
      simp [List.filter, hxa]
      omega

theorem map_fst_filter (l : List (Nat × RuntimeContext)) (a : Nat) :
    (l.filter (fun o => !decide (o.1 = a))).map Prod.fst
      = (l.map Prod.fst).filter (fun b => !decide (b = a)) := by
  induction l with
  | nil => rfl
  | cons x xs ih =>
    by_cases hx : x.1 = a
    · simp [List.filter, hx, ih]
    · simp [List.filter, hx, ih]

theorem lookup_of_mem (l : List (Nat × RuntimeContext)) (a : Nat)
    (ha : a ∈ l.map Prod.fst) : ∃ o, l.lookup a = some o := by
  induction l with
  | nil => simp at ha
  | cons x xs ih =>
    obtain ⟨k, v⟩ := x
    by_cases hk : a = k
    · subst hk; exact ⟨v, by simp [List.lookup]⟩
    · have ha2 : a ∈ xs.map Prod.fst := by
        simp only [List.map_cons, List.mem_cons] at ha
        rcases ha with h | h
        · exact absurd h hk
        · exact h
      obtain ⟨o, ho⟩ := ih ha2
      have : (a == k) = false := by simpa using hk
      exact ⟨o, by simp [List.lookup, this, ho]⟩

/-- The constructor on a non-null state never throws; it adds the object and
its address, and leaves the thread id and the SDK as they were. -/
theorem construct_spec (p : Process) (this : Nat) (L : lua_State) :
    ∃ p2, RuntimeContext.construct p this (some L) = some p2 ∧
      p2.sRuntimeContextCollection =
        (if this ∈ p.sRuntimeContextCollection then p.sRuntimeContextCollection
         else p.sRuntimeContextCollection ++ [this]) ∧
      p2.liveAddresses = p.liveAddresses ++ [this] ∧
      p2.sMainThreadId = p.sMainThreadId ∧
      p2.world.env.sdk = p.world.env.sdk := by
  refine ⟨_, rfl, rfl, ?_, rfl, ?_⟩
  · simp [Process.liveAddresses]
  · exact (EnvStep_create p.world (some (resolveMainState p.world L))).sdk

theorem env_sdk_destroy (d : LuaEventDispatcher) (w : World) :
    (d.destroy w).env = w.env := by
  unfold LuaEventDispatcher.destroy
  split
  · split <;> simp
  · rfl

/-- Deleting a live context succeeds; it removes the address from the
collection and the object from the live objects, and leaves the thread id and
the SDK as they were. -/
theorem delete_spec (p : Process) (this : Nat) (hlive : this ∈ p.liveAddresses) :
    ∃ p2, RuntimeContext.delete p this = Except.ok p2 ∧
      p2.sRuntimeContextCollection =
        p.sRuntimeContextCollection.filter (fun a => !decide (a = this)) ∧
      p2.liveAddresses = p.liveAddresses.filter (fun a => !decide (a = this)) ∧
      p2.sMainThreadId = p.sMainThreadId ∧
      p2.world.env.sdk = p.world.env.sdk := by
  obtain ⟨o, ho⟩ := lookup_of_mem p.objects this hlive
  unfold RuntimeContext.delete
  rw [ho]
  refine ⟨_, rfl, rfl, ?_, rfl, ?_⟩
  · exact map_fst_filter p.objects this
  · simp only
    cases o.fLuaEventDispatcherPointer with
    | none => rfl
    | some d => simp only [env_sdk_destroy]; rfl

@[simp] theorem sdk_warnOnGalaxyError (w : World) :
    (warnOnGalaxyError w).env.sdk = w.env.sdk := by
  unfold warnOnGalaxyError
  split <;> rfl

/-- A plugin load on the recorded thread, in a consistent process: it returns
the plugin table, registers exactly one new context, and calls the SDK's `Init`
first exactly when no instance existed before, then `SignInGalaxy`. -/
theorem luaopen_spec (p : Process) (T : Nat) (L : lua_State) (hwf : p.WellFormed)
    (hthread : RuntimeContext.GetInstanceCount p > 0 → p.sMainThreadId = some T) :
    ∃ p1 clientId clientSecret,
      luaopen_plugin_gog p T (some L) = (LoadResult.returned 1, p1) ∧
      p1.WellFormed ∧
      p1.liveAddresses = p.liveAddresses ++ [p.freshAddress] ∧
      p1.sMainThreadId = some T ∧
      RuntimeContext.GetInstanceCount p1 = RuntimeContext.GetInstanceCount p + 1 ∧
      p1.world.env.sdk.calls = p.world.env.sdk.calls ++
        (if RuntimeContext.GetInstanceCount p = 0 then [SdkCall.Init clientId clientSecret]
         else []) ++ [SdkCall.SignInGalaxy] := by
  obtain ⟨hc, hn, hz⟩ := hwf
  -- the process after the thread check
  obtain ⟨q, hq, hqc, hqo, hqt, hqw⟩ : ∃ q : Process,
      (if RuntimeContext.GetInstanceCount p > 0 then
          if some T ≠ p.sMainThreadId then none else some p
        else some { p with sMainThreadId := some T }) = some q ∧
      q.sRuntimeContextCollection = p.sRuntimeContextCollection ∧
      q.objects = p.objects ∧ q.sMainThreadId = some T ∧ q.world = p.world := by
    by_cases hcount : RuntimeContext.GetInstanceCount p > 0
    · have ht := hthread hcount
      refine ⟨p, ?_, rfl, rfl, ht, rfl⟩
      rw [if_pos hcount, if_neg (by rw [ht]; simp)]
    · exact ⟨_, if_neg hcount, rfl, rfl, rfl, rfl⟩
  have hfresh : q.freshAddress = p.freshAddress := by
    unfold Process.freshAddress Process.liveAddresses; rw [hqo]
  have hlive : q.liveAddresses = p.liveAddresses := by
    unfold Process.liveAddresses; rw [hqo]
  obtain ⟨p2, h2, h2c, h2o, h2t, h2s⟩ := construct_spec q q.freshAddress L
  have hnot : q.freshAddress ∉ q.sRuntimeContextCollection := by
    rw [hqc, hc, ← hlive]; exact freshAddress_not_live q
  rw [if_neg hnot] at h2c
  have hcount2 : RuntimeContext.GetInstanceCount p2 = RuntimeContext.GetInstanceCount p + 1 := by
    unfold RuntimeContext.GetInstanceCount
    rw [h2c, hqc]; simp
  have hone : RuntimeContext.GetInstanceCount p2 = 1 ↔ RuntimeContext.GetInstanceCount p = 0 := by
    rw [hcount2]; omega
  have hload := EnvStep_LoadFrom PluginConfigLuaSettings.create
    (pushPluginTable p2.world L q.freshAddress) (some L)
  obtain ⟨W, hres, hcalls⟩ : ∃ W : World,
      luaopen_plugin_gog p T (some L) = (LoadResult.returned 1, { p2 with world := W }) ∧
      W.env.sdk.calls = p.world.env.sdk.calls ++
        (if RuntimeContext.GetInstanceCount p = 0 then
          [SdkCall.Init
            (PluginConfigLuaSettings.create.LoadFrom
              (pushPluginTable p2.world L q.freshAddress) (some L)).2.1.GetStringClientId
            (PluginConfigLuaSettings.create.LoadFrom
              (pushPluginTable p2.world L q.freshAddress) (some L)).2.1.GetStringClientSecret]
         else []) ++ [SdkCall.SignInGalaxy] := by
    refine ⟨_, by unfold luaopen_plugin_gog; simp only [hq, h2]; rfl, ?_⟩
    simp only [sdk_warnOnGalaxyError]
    by_cases h0 : RuntimeContext.GetInstanceCount p = 0
    · rw [if_pos (hone.mpr h0), if_pos h0]
      simp only [sdk_warnOnGalaxyError, galaxy.api.SignInGalaxy, galaxy.api.Init,
        GalaxySdk.record]
      rw [hload.sdk]
      simp only [env_pushPluginTable, h2s, hqw, List.append_assoc]
    · rw [if_neg (fun h => h0 (hone.mp h)), if_neg h0]
      simp only [galaxy.api.SignInGalaxy, GalaxySdk.record]
      rw [hload.sdk]
      simp only [env_pushPluginTable, h2s, hqw, List.append_nil]
  refine ⟨{ p2 with world := W }, _, _, hres, ⟨?_, ?_, ?_⟩, ?_, ?_, hcount2, hcalls⟩
  · show p2.sRuntimeContextCollection = p2.liveAddresses
    rw [h2c, h2o, hqc, hc, hlive]
  · show p2.liveAddresses.Nodup
    rw [h2o]
    refine List.Nodup.append (hlive ▸ hn) (List.nodup_singleton _) ?_
    intro a ha hb
    rw [List.mem_singleton] at hb
    subst hb
    exact freshAddress_not_live q ha
  · show 0 ∉ p2.liveAddresses
    rw [h2o, hlive]
    intro h
    rcases List.mem_append.mp h with h | h
    · exact hz h
    · rw [List.mem_singleton] at h
      exact freshAddress_ne_zero q h.symm
  · show p2.liveAddresses = _
    rw [h2o, hlive, hfresh]
  · show p2.sMainThreadId = _
    rw [h2t, hqt]

/-- A finalization of a live context, in a consistent process: the context is
deleted, the count drops by one, and the SDK's `Shutdown` is called exactly when
no instance is left. -/
theorem OnFinalizing_spec (p : Process) (L : lua_State) (contextPointer : Nat)
    (hwf : p.WellFormed) (hlive : contextPointer ∈ p.liveAddresses) :
    ∃ p1, OnFinalizing p (some L) (LuaValue.lightuserdata contextPointer)
        = Except.ok (0, p1) ∧
      p1.WellFormed ∧
      p1.liveAddresses = p.liveAddresses.filter (fun a => !decide (a = contextPointer)) ∧
      p1.sMainThreadId = p.sMainThreadId ∧
      RuntimeContext.GetInstanceCount p1 + 1 = RuntimeContext.GetInstanceCount p ∧
      p1.world.env.sdk.calls = p.world.env.sdk.calls ++
        (if RuntimeContext.GetInstanceCount p1 = 0 then [SdkCall.Shutdown] else []) := by
  obtain ⟨hc, hn, hz⟩ := hwf
  have hne : contextPointer ≠ 0 := fun h => hz (h ▸ hlive)
  obtain ⟨p2, hdel, h2c, h2o, h2t, h2s⟩ := delete_spec p contextPointer hlive
  have hwf2 : p2.WellFormed := by
    refine ⟨by rw [h2c, h2o, hc], by rw [h2o]; exact hn.filter _, ?_⟩
    rw [h2o]
    intro h
    exact hz (List.mem_of_mem_filter h)
  have hcount : RuntimeContext.GetInstanceCount p2 + 1 = RuntimeContext.GetInstanceCount p := by
    unfold RuntimeContext.GetInstanceCount
    rw [h2c, hc]
    have := length_filter_ne p.liveAddresses contextPointer hn hlive
    omega
  have hnonneg : 0 ≤ RuntimeContext.GetInstanceCount p2 := by
    unfold RuntimeContext.GetInstanceCount; omega
  unfold OnFinalizing
  simp only [lua_touserdata, hne, if_false, hdel]
  by_cases h0 : RuntimeContext.GetInstanceCount p2 ≤ 0
  · have h00 : RuntimeContext.GetInstanceCount p2 = 0 := by omega
    rw [if_pos h0]
    refine ⟨_, rfl, hwf2, h2o, h2t, hcount, ?_⟩
    have hcnt : RuntimeContext.GetInstanceCount
        { p2 with world := galaxy.api.Shutdown p2.world } = 0 := h00
    rw [if_pos hcnt]
    simp only [galaxy.api.Shutdown, GalaxySdk.record, h2s]
  · rw [if_neg h0]
    refine ⟨p2, rfl, hwf2, h2o, h2t, hcount, ?_⟩
    rw [if_neg (by omega), h2s, List.append_nil]

/-- Every reachable state of the process is consistent, and while an instance
exists the recorded main thread is the thread the loads are made on. -/
theorem Reachable.invariant {T : Nat} {w0 : World} {p : Process} (h : Reachable T w0 p) :
    p.WellFormed ∧ (RuntimeContext.GetInstanceCount p > 0 → p.sMainThreadId = some T) := by
  induction h with
  | initial =>
    refine ⟨⟨rfl, List.nodup_nil, by simp [Process.liveAddresses, Process.initial]⟩, ?_⟩
    intro h
    simp [RuntimeContext.GetInstanceCount, Process.initial] at h
  | load p L _ ih =>
    obtain ⟨p1, _, _, hr, hwf, _, ht, _, _⟩ := luaopen_spec p T L ih.1 ih.2
    rw [hr]
    exact ⟨hwf, fun _ => ht⟩
  | finalize p p1 L a _ hlive hfin ih =>
    obtain ⟨p2, hr, hwf, _, ht, hcount, _⟩ := OnFinalizing_spec p L a ih.1 hlive
    rw [hr] at hfin
    have hp : p2 = p1 := by
      injection hfin with h
      exact (Prod.mk.inj h).2
    subst hp
    refine ⟨hwf, fun hpos => ?_⟩
    rw [ht]
    exact ih.2 (by omega)

/-- Claim C1 (FIFO drain order): when the queue of a context was filled by N
calls of `OnAuthResponse` before the tick and the environment enqueues nothing
during the tick, one call of `OnCoronaEnterFrame` with a non-null state returns
0 and has called `Execute` on the N tasks in exactly the order in which they
were enqueued. -/
theorem C1_fifo_drain_order (fuel : Nat) (ctx0 : RuntimeContext) (successes : List Bool)
    (L : lua_State) (w : World)
    (hempty : ctx0.fDispatchEventTaskQueue = [])
    (hquiet : callbackStream w.env = [])
    (hfuel : successes.length ≤ fuel) :
    (successes.foldl RuntimeContext.OnAuthResponse ctx0).fDispatchEventTaskQueue
      = successes.map (fun s => some (ctx0.taskFor s)) ∧
    ∃ ctx1 w1,
      (successes.foldl RuntimeContext.OnAuthResponse ctx0).OnCoronaEnterFrame fuel (some L) w
        = Except.ok (0, ctx1, w1) ∧
      w1.env.executed = w.env.executed ++ successes.map ctx0.taskFor ∧
      ctx1.fDispatchEventTaskQueue = [] := by
  rw [foldl_OnAuthResponse, hempty]
  refine ⟨by simp, ?_⟩
  obtain ⟨ctx1, w1, delivered, hr, h1, _, h3, _, h5⟩ :=
    OnCoronaEnterFrame_spec fuel
      { ctx0 with fDispatchEventTaskQueue :=
          [] ++ successes.map (fun s => some (ctx0.taskFor s)) } L w
      (by simp [hquiet]; exact hfuel)
  rw [hquiet] at h3
  have hdel : delivered = [] := by
    cases delivered with
    | nil => rfl
    | cons a l => simp at h3
  refine ⟨ctx1, w1, hr, ?_, h1⟩
  rw [h5, hdel]
  simp only [List.nil_append, reduceOption_map_some, List.map_nil, List.append_nil]

/-- Witness for C1: two callbacks, `OnAuthResponse(true)` then
`OnAuthResponse(false)`, followed by one tick in a quiet environment. -/
theorem C1_fifo_drain_order_witness :
    (sampleContext.fDispatchEventTaskQueue = [] ∧
      callbackStream (World.withDispatcher []).env = [] ∧
      [true, false].length ≤ 2) ∧
    ((([true, false].foldl RuntimeContext.OnAuthResponse sampleContext).fDispatchEventTaskQueue
        = [true, false].map (fun s => some (sampleContext.taskFor s))) ∧
      ∃ ctx1 w1,
        ([true, false].foldl RuntimeContext.OnAuthResponse sampleContext).OnCoronaEnterFrame 2
            (some 1) (World.withDispatcher []) = Except.ok (0, ctx1, w1) ∧
        w1.env.executed = (World.withDispatcher []).env.executed ++
          [true, false].map sampleContext.taskFor ∧
        ctx1.fDispatchEventTaskQueue = []) :=
  ⟨⟨rfl, rfl, by decide⟩,
   C1_fifo_drain_order 2 sampleContext [true, false] 1 (World.withDispatcher []) rfl rfl
     (by decide)⟩

/-- Claim C2 (exactly-once drain): for every queue content and every behaviour
of the environment, a call of `OnCoronaEnterFrame` with a non-null state
returns with an empty queue, and the `Execute` calls it made begin with the
non-null tasks that were queued when it started, each once and in queue order;
every further call is on a task created by a callback delivered during the
tick, so no queued task is executed twice and none is skipped. -/
theorem C2_exactly_once_drain (fuel : Nat) (ctx : RuntimeContext) (L : lua_State) (w : World)
    (hfuel : ctx.fDispatchEventTaskQueue.length + (callbackStream w.env).length ≤ fuel) :
    ∃ ctx1 w1 later,
      ctx.OnCoronaEnterFrame fuel (some L) w = Except.ok (0, ctx1, w1) ∧
      ctx1.fDispatchEventTaskQueue = [] ∧
      w1.env.executed =
        w.env.executed ++ ctx.fDispatchEventTaskQueue.reduceOption ++ later ∧
      (w1.env.executed.drop w.env.executed.length).take
          ctx.fDispatchEventTaskQueue.reduceOption.length
        = ctx.fDispatchEventTaskQueue.reduceOption ∧
      (∀ t, t ∈ later → ∃ s, s ∈ callbackStream w.env ∧ t = ctx.taskFor s) := by
  obtain ⟨ctx1, w1, delivered, hr, h1, _, h3, _, h5⟩ := OnCoronaEnterFrame_spec fuel ctx L w hfuel
  refine ⟨ctx1, w1, delivered.map ctx.taskFor, hr, h1, ?_, ?_, ?_⟩
  · rw [h5, List.append_assoc]
  · rw [h5, List.drop_left, List.take_left]
  · intro t ht
    obtain ⟨s, hs, rfl⟩ := List.mem_map.mp ht
    exact ⟨s, by rw [h3]; exact List.mem_append_left _ hs, rfl⟩

/-- Witness for C2: a queue holding a null pointer between two tasks, drained
while the environment raises one more callback. -/
theorem C2_exactly_once_drain_witness :
    ([some (sampleContext.taskFor true), none, some (sampleContext.taskFor false)].length +
        (callbackStream (World.withDispatcher [CallReaction.raising [true]]).env).length ≤ 4) ∧
    ∃ ctx1 w1 later,
      RuntimeContext.OnCoronaEnterFrame 4
          { sampleContext with fDispatchEventTaskQueue :=
              [some (sampleContext.taskFor true), none, some (sampleContext.taskFor false)] }
          (some 1) (World.withDispatcher [CallReaction.raising [true]])
        = Except.ok (0, ctx1, w1) ∧
      ctx1.fDispatchEventTaskQueue = [] ∧
      w1.env.executed =
        (World.withDispatcher [CallReaction.raising [true]]).env.executed ++
          [some (sampleContext.taskFor true), none,
            some (sampleContext.taskFor false)].reduceOption ++ later ∧
      (w1.env.executed.drop
            (World.withDispatcher [CallReaction.raising [true]]).env.executed.length).take
          [some (sampleContext.taskFor true), none,
            some (sampleContext.taskFor false)].reduceOption.length
        = [some (sampleContext.taskFor true), none,
            some (sampleContext.taskFor false)].reduceOption ∧
      (∀ t, t ∈ later → ∃ s,
        s ∈ callbackStream (World.withDispatcher [CallReaction.raising [true]]).env ∧
        t = RuntimeContext.taskFor
          { sampleContext with fDispatchEventTaskQueue :=
              [some (sampleContext.taskFor true), none, some (sampleContext.taskFor false)] }
          s) :=
  ⟨by decide,
   C2_exactly_once_drain 4
     { sampleContext with fDispatchEventTaskQueue :=
         [some (sampleContext.taskFor true), none, some (sampleContext.taskFor false)] }
     1 (World.withDispatcher [CallReaction.raising [true]]) (by decide)⟩

/-- Claim C3 (reentrant enqueue): when nothing is waiting at the pump, every
callback raised while the drain loop runs (by the Lua code an executing task
calls) is delivered during the same call of `OnCoronaEnterFrame`, and the task
it appends is executed within that call: after all tasks that were queued
before it, exactly once, in the order of the callbacks, while the tasks already
queued keep their relative order.  No raised callback is left over and the
queue is empty when the call returns. -/
theorem C3_reentrant_enqueue (fuel : Nat) (ctx : RuntimeContext) (L : lua_State) (w : World)
    (hpump : w.env.raised = [])
    (hfuel : ctx.fDispatchEventTaskQueue.length + (callbackStream w.env).length ≤ fuel) :
    ∃ ctx1 w1 reentrant,
      ctx.OnCoronaEnterFrame fuel (some L) w = Except.ok (0, ctx1, w1) ∧
      w.env.script.flatMap CallReaction.authResponses
        = reentrant ++ w1.env.script.flatMap CallReaction.authResponses ∧
      w1.env.raised = [] ∧
      ctx1.fDispatchEventTaskQueue = [] ∧
      w1.env.executed = w.env.executed ++
        (ctx.fDispatchEventTaskQueue.reduceOption ++ reentrant.map ctx.taskFor) := by
  obtain ⟨ctx1, w1, delivered, hr, h1, _, h3, h4, h5⟩ := OnCoronaEnterFrame_spec fuel ctx L w hfuel
  refine ⟨ctx1, w1, delivered, hr, ?_, h4, h1, h5⟩
  simpa [callbackStream, hpump, h4] using h3

/-- Witness for C3: one queued task whose dispatch makes the environment raise
two callbacks; the two new tasks run in the same tick, after the queued one. -/
theorem C3_reentrant_enqueue_witness :
    ((World.withDispatcher [CallReaction.raising [false, true]]).env.raised = [] ∧
      (sampleContext.OnAuthResponse true).fDispatchEventTaskQueue.length +
        (callbackStream (World.withDispatcher [CallReaction.raising [false, true]]).env).length
          ≤ 3) ∧
    ∃ ctx1 w1 reentrant,
      (sampleContext.OnAuthResponse true).OnCoronaEnterFrame 3 (some 1)
          (World.withDispatcher [CallReaction.raising [false, true]])
        = Except.ok (0, ctx1, w1) ∧
      (World.withDispatcher [CallReaction.raising [false, true]]).env.script.flatMap
          CallReaction.authResponses
        = reentrant ++ w1.env.script.flatMap CallReaction.authResponses ∧
      w1.env.raised = [] ∧
      ctx1.fDispatchEventTaskQueue = [] ∧
      w1.env.executed =
        (World.withDispatcher [CallReaction.raising [false, true]]).env.executed ++
          ((sampleContext.OnAuthResponse true).fDispatchEventTaskQueue.reduceOption ++
            reentrant.map (sampleContext.OnAuthResponse true).taskFor) :=
  ⟨⟨rfl, by decide⟩,
   C3_reentrant_enqueue 3 (sampleContext.OnAuthResponse true) 1
     (World.withDispatcher [CallReaction.raising [false, true]]) rfl (by decide)⟩

/-- The run behind the witness of C3, evaluated: the tick makes three `Execute`
calls, first on the queued task and then on the two tasks appended while it
ran, and consumes the scripted reaction. -/
theorem reentrant_tick_evaluated :
    ((sampleContext.OnAuthResponse true).OnCoronaEnterFrame 3 (some 1)
        (World.withDispatcher [CallReaction.raising [false, true]])).toOption.map
      (fun r => (r.1, r.2.1.fDispatchEventTaskQueue, r.2.2.env.executed,
        r.2.2.env.script.length, r.2.2.stack 1))
    = some (0, [], [sampleContext.taskFor true, sampleContext.taskFor false,
        sampleContext.taskFor true], 0, []) := by
  decide

/-- Claim C4, evaluated on the code: a task that captured `success = true`
builds an event record named `authResponse` whose field `isError` is true (the
record stores the captured flag itself), not false as the claim states. -/
theorem C4_success_true_gives_isError_true :
    ((DispatchAuthResponseEventTask.create.AcquireEventDataFrom true).PushLuaEventTableTo
        World.fresh (some 1)).1 = true ∧
    valueAt ((DispatchAuthResponseEventTask.create.AcquireEventDataFrom true).PushLuaEventTableTo
        World.fresh (some 1)).2 1 (-1) = LuaValue.table 2 ∧
    ((DispatchAuthResponseEventTask.create.AcquireEventDataFrom true).PushLuaEventTableTo
        World.fresh (some 1)).2.rawget 2 (LuaValue.string "name")
      = LuaValue.string "authResponse" ∧
    ((DispatchAuthResponseEventTask.create.AcquireEventDataFrom true).PushLuaEventTableTo
        World.fresh (some 1)).2.rawget 2 (LuaValue.string "isError")
      = LuaValue.boolean true := by
  decide

/-- Claim C5, evaluated on the code: a dispatcher constructed from a non-null
state in which `system.newEventDispatcher` is unavailable keeps the reference
id `LUA_NOREF`; calling either name overload of the dispatch methods on it (in
the world the constructor left) with a null state does not return false but
dereferences the null state. -/
theorem C5_inert_dispatch_by_name_faults_on_null_state :
    (LuaEventDispatcher.create World.fresh (some 1)).2
      = { fLuaStatePointer := some 1, fLuaRegistryReferenceId := LUA_NOREF } ∧
    (LuaEventDispatcher.create World.fresh (some 1)).2.DispatchEventWithResultName
        (LuaEventDispatcher.create World.fresh (some 1)).1 none (some "authResponse")
      = Except.error Fault.nullState ∧
    (LuaEventDispatcher.create World.fresh (some 1)).2.DispatchEventWithoutResultName
        (LuaEventDispatcher.create World.fresh (some 1)).1 none (some "authResponse")
      = Except.error Fault.nullState := by
  have h : (LuaEventDispatcher.create World.fresh (some 1)).2
      = { fLuaStatePointer := some 1, fLuaRegistryReferenceId := LUA_NOREF } := by decide
  refine ⟨h, ?_, ?_⟩
  · rw [h]; rfl
  · rw [h]; rfl

/-- Claim C6 (stack hygiene of Execute): for every task and every world,
`Execute` returns a result, and whether that result is true or false every Lua
stack is exactly as it was before the call, so its height is unchanged and
neither the pushed event table nor the dispatch result remains. -/
theorem C6_Execute_stack_hygiene (t : DispatchAuthResponseEventTask) (w : World) :
    ∃ b w1, t.Execute w = Except.ok (b, w1) ∧
      ∀ L, w1.stack L = w.stack L ∧ (w1.stack L).length = (w.stack L).length :=
  Execute_stack t w

/-- Claim C7 (Execute fails closed): when no dispatcher is bound, or the bound
dispatcher has a null Lua state, `Execute` returns false and leaves the world
untouched apart from the record of the call itself (no push, no dispatch, no
stack operation, no environment reaction consumed); in every other case the
event table is pushed on top of the stack and the value returned is the value
returned by `DispatchEventWithoutResult` called with index -1, the index of
that table. -/
theorem C7_Execute_fails_closed (t : DispatchAuthResponseEventTask) (w : World) :
    ((t.fLuaEventDispatcherPointer = none ∨
        ∃ d, t.fLuaEventDispatcherPointer = some d ∧ d.GetLuaState = none) →
      t.Execute w = Except.ok (false, (w.recordExecute t))) ∧
    (∀ d L, t.fLuaEventDispatcherPointer = some d → d.GetLuaState = some L →
      ∃ w1 b w2,
        t.PushLuaEventTableTo (w.recordExecute t) (some L) = (true, w1) ∧
        valueAt w1 L (-1) = LuaValue.table w.heap.length ∧
        w1.rawget w.heap.length (LuaValue.string "name") = LuaValue.string "authResponse" ∧
        d.DispatchEventWithoutResultIndex w1 (some L) (-1) = Except.ok (b, w2) ∧
        t.Execute w = Except.ok (b, lua_pop w2 L 1)) := by
  constructor
  · intro h
    unfold DispatchAuthResponseEventTask.Execute DispatchAuthResponseEventTask.executeBody
    rcases h with h | ⟨d, hd, hL⟩
    · rw [h]
    · rw [hd]; simp only [hL]
  · intro d L hd hL
    obtain ⟨w1, hp, _⟩ := PushLuaEventTableTo_stack t (w.recordExecute t) L
    obtain ⟨b, w2, hr, _⟩ := DispatchEventWithoutResultIndex_stack d w1 L (-1) hL
    have hrec := PushLuaEventTableTo_record t (w.recordExecute t) L
    rw [hp] at hrec
    refine ⟨w1, b, w2, hp, hrec.1, hrec.2.1, hr, ?_⟩
    unfold DispatchAuthResponseEventTask.Execute DispatchAuthResponseEventTask.executeBody
    rw [hd]
    simp only [hL, hp, hr]

/-- Witness for C7: an unbound task and a task bound to a dispatcher living in
state 1 of the fresh world. -/
theorem C7_Execute_fails_closed_witness :
    (DispatchAuthResponseEventTask.create.fLuaEventDispatcherPointer = none ∧
      DispatchAuthResponseEventTask.create.Execute World.fresh =
        Except.ok (false, World.fresh.recordExecute DispatchAuthResponseEventTask.create)) ∧
    (∃ w1 b w2,
      (sampleContext.taskFor true).PushLuaEventTableTo
        (World.fresh.recordExecute (sampleContext.taskFor true)) (some 1) = (true, w1) ∧
      valueAt w1 1 (-1) = LuaValue.table World.fresh.heap.length ∧
      w1.rawget World.fresh.heap.length (LuaValue.string "name")
        = LuaValue.string "authResponse" ∧
      sampleDispatcher.DispatchEventWithoutResultIndex w1 (some 1) (-1) = Except.ok (b, w2) ∧
      (sampleContext.taskFor true).Execute World.fresh = Except.ok (b, lua_pop w2 1 1)) :=
  ⟨⟨rfl, (C7_Execute_fails_closed DispatchAuthResponseEventTask.create World.fresh).1
      (Or.inl rfl)⟩,
   (C7_Execute_fails_closed (sampleContext.taskFor true) World.fresh).2
      sampleDispatcher 1 rfl rfl⟩

/-- Both results of `Execute` occur: true where the dispatcher object exists,
false where the registry holds no dispatcher object; the stack of the state is
empty before and after in both runs. -/
theorem Execute_results_evaluated :
    ((sampleContext.taskFor true).Execute (World.withDispatcher [])).toOption.map
        (fun r => (r.1, r.2.stack 1)) = some (true, []) ∧
    ((sampleContext.taskFor true).Execute World.fresh).toOption.map
        (fun r => (r.1, r.2.stack 1)) = some (false, []) := by
  decide

/-- Claim C8 (instance counting drives lifecycle): in every state reached by
plugin loads on one thread and finalizations of live contexts, a further load
returns the plugin table, raises the instance count by one and calls the SDK's
`Init` exactly when the count was 0 before it; a finalization of a live context
lowers the count by one and calls the SDK's `Shutdown` exactly when the count is
0 after it.  Loads and finalizations at other counts call neither (a load only
calls `SignInGalaxy`, a finalization calls nothing). -/
theorem C8_instance_count_drives_lifecycle (T : Nat) (w0 : World) (p : Process)
    (hreach : Reachable T w0 p) :
    (∀ L : lua_State, ∃ p1 clientId clientSecret,
      luaopen_plugin_gog p T (some L) = (LoadResult.returned 1, p1) ∧
      RuntimeContext.GetInstanceCount p1 = RuntimeContext.GetInstanceCount p + 1 ∧
      p1.world.env.sdk.calls = p.world.env.sdk.calls ++
        (if RuntimeContext.GetInstanceCount p = 0 then [SdkCall.Init clientId clientSecret]
         else []) ++ [SdkCall.SignInGalaxy] ∧
      Reachable T w0 p1) ∧
    (∀ (L : lua_State) (contextPointer : Nat), contextPointer ∈ p.liveAddresses →
      ∃ p1, OnFinalizing p (some L) (LuaValue.lightuserdata contextPointer)
          = Except.ok (0, p1) ∧
        RuntimeContext.GetInstanceCount p1 + 1 = RuntimeContext.GetInstanceCount p ∧
        p1.world.env.sdk.calls = p.world.env.sdk.calls ++
          (if RuntimeContext.GetInstanceCount p1 = 0 then [SdkCall.Shutdown] else []) ∧
        Reachable T w0 p1) := by
  obtain ⟨hwf, hthread⟩ := hreach.invariant
  constructor
  · intro L
    obtain ⟨p1, cid, sec, hr, _, _, _, hcount, hcalls⟩ := luaopen_spec p T L hwf hthread
    refine ⟨p1, cid, sec, hr, hcount, hcalls, ?_⟩
    have := Reachable.load p L hreach
    rw [hr] at this
    exact this
  · intro L a hlive
    obtain ⟨p1, hr, _, _, _, hcount, hcalls⟩ := OnFinalizing_spec p L a hwf hlive
    exact ⟨p1, hr, hcount, hcalls, Reachable.finalize p p1 L a hreach hlive hr⟩

/-- Witness for C8: the state reached by one load on thread 1 in the fresh
world; a second load in state 2 and the finalization of the context at
address 1. -/
theorem C8_instance_count_drives_lifecycle_witness :
    Reachable 1 World.fresh (luaopen_plugin_gog (Process.initial World.fresh) 1 (some 1)).2 ∧
    (∃ p1 clientId clientSecret,
      luaopen_plugin_gog (luaopen_plugin_gog (Process.initial World.fresh) 1 (some 1)).2 1
          (some 2) = (LoadResult.returned 1, p1) ∧
      RuntimeContext.GetInstanceCount p1 = RuntimeContext.GetInstanceCount
          (luaopen_plugin_gog (Process.initial World.fresh) 1 (some 1)).2 + 1 ∧
      p1.world.env.sdk.calls =
        (luaopen_plugin_gog (Process.initial World.fresh) 1 (some 1)).2.world.env.sdk.calls ++
        (if RuntimeContext.GetInstanceCount
            (luaopen_plugin_gog (Process.initial World.fresh) 1 (some 1)).2 = 0
         then [SdkCall.Init clientId clientSecret] else []) ++ [SdkCall.SignInGalaxy] ∧
      Reachable 1 World.fresh p1) ∧
    (∃ p1, OnFinalizing (luaopen_plugin_gog (Process.initial World.fresh) 1 (some 1)).2
          (some 1) (LuaValue.lightuserdata 1) = Except.ok (0, p1) ∧
        RuntimeContext.GetInstanceCount p1 + 1 = RuntimeContext.GetInstanceCount
          (luaopen_plugin_gog (Process.initial World.fresh) 1 (some 1)).2 ∧
        p1.world.env.sdk.calls =
          (luaopen_plugin_gog (Process.initial World.fresh) 1 (some 1)).2.world.env.sdk.calls ++
          (if RuntimeContext.GetInstanceCount p1 = 0 then [SdkCall.Shutdown] else []) ∧
        Reachable 1 World.fresh p1) :=
  ⟨Reachable.load _ 1 Reachable.initial,
   (C8_instance_count_drives_lifecycle 1 World.fresh _
      (Reachable.load _ 1 Reachable.initial)).1 2,
   (C8_instance_count_drives_lifecycle 1 World.fresh _
      (Reachable.load _ 1 Reachable.initial)).2 1 1 (by decide)⟩

set_option maxRecDepth 100000 in
/-- A whole life cycle evaluated: two loads on thread 1 followed by the
finalization of both contexts make the SDK calls `Init`, `SignInGalaxy`,
`SignInGalaxy`, `Shutdown`, and the instance count goes 1, 2, 1, 0. -/
theorem lifecycle_evaluated :
    (luaopen_plugin_gog (Process.initial World.fresh) 1 (some 1)).2.sRuntimeContextCollection
      = [1] ∧
    (luaopen_plugin_gog (luaopen_plugin_gog (Process.initial World.fresh) 1 (some 1)).2 1
      (some 2)).2.sRuntimeContextCollection = [1, 2] ∧
    ((OnFinalizing (luaopen_plugin_gog (luaopen_plugin_gog (Process.initial World.fresh) 1
        (some 1)).2 1 (some 2)).2 (some 1) (LuaValue.lightuserdata 1)).toOption.map
      (fun r => (r.2.sRuntimeContextCollection, r.2.world.env.sdk.calls)))
      = some ([2], [SdkCall.Init "" "", SdkCall.SignInGalaxy, SdkCall.SignInGalaxy]) ∧
    ((OnFinalizing (luaopen_plugin_gog (luaopen_plugin_gog (Process.initial World.fresh) 1
        (some 1)).2 1 (some 2)).2 (some 1) (LuaValue.lightuserdata 1)).toOption.bind
      (fun r => (OnFinalizing r.2 (some 2) (LuaValue.lightuserdata 2)).toOption.map
        (fun r2 => (r2.2.sRuntimeContextCollection, r2.2.world.env.sdk.calls))))
      = some ([], [SdkCall.Init "" "", SdkCall.SignInGalaxy, SdkCall.SignInGalaxy,
          SdkCall.Shutdown]) := by
  decide

/-- Claim C10 (thread affinity): when at least one context is live and
`luaopen_plugin_gog` is called on a thread other than the recorded main thread,
the load ends in a Lua error and the process is exactly as before (no context
created, instance set and count unchanged); and from a process without
instances, two loads on the same thread for two Lua states both return the
plugin table and leave the instance count at 2. -/
theorem C10_thread_affinity (p : Process) (T : Nat) (L : lua_State)
    (hlive : RuntimeContext.GetInstanceCount p > 0) (hthread : some T ≠ p.sMainThreadId) :
    luaopen_plugin_gog p T (some L) =
      (LoadResult.luaError "Cannot load another instance of 'plugin.gog' from another thread.",
        p) ∧
    (∀ (w : World) (T1 : Nat) (L1 L2 : lua_State),
      (luaopen_plugin_gog (Process.initial w) T1 (some L1)).1 = LoadResult.returned 1 ∧
      (luaopen_plugin_gog (luaopen_plugin_gog (Process.initial w) T1 (some L1)).2 T1
        (some L2)).1 = LoadResult.returned 1 ∧
      RuntimeContext.GetInstanceCount
        (luaopen_plugin_gog (luaopen_plugin_gog (Process.initial w) T1 (some L1)).2 T1
          (some L2)).2 = 2) := by
  constructor
  · unfold luaopen_plugin_gog
    simp only [hlive, if_true]
    rw [if_pos hthread]
  · intro w T1 L1 L2
    have h0 : Reachable T1 w (Process.initial w) := Reachable.initial
    obtain ⟨p1, _, _, hr1, hwf1, _, ht1, hc1, _⟩ :=
      luaopen_spec (Process.initial w) T1 L1 h0.invariant.1 h0.invariant.2
    obtain ⟨p2, _, _, hr2, _, _, _, hc2, _⟩ := luaopen_spec p1 T1 L2 hwf1 (fun _ => ht1)
    rw [hr1]
    simp only [hr2]
    refine ⟨trivial, trivial, ?_⟩
    rw [hc2, hc1]
    rfl

/-- Witness for C10: one context was loaded on thread 1; a load from thread 2 is
refused. -/
theorem C10_thread_affinity_witness :
    (RuntimeContext.GetInstanceCount
        (luaopen_plugin_gog (Process.initial World.fresh) 1 (some 1)).2 > 0 ∧
      some 2 ≠ (luaopen_plugin_gog (Process.initial World.fresh) 1 (some 1)).2.sMainThreadId) ∧
    luaopen_plugin_gog (luaopen_plugin_gog (Process.initial World.fresh) 1 (some 1)).2 2 (some 2) =
      (LoadResult.luaError "Cannot load another instance of 'plugin.gog' from another thread.",
        (luaopen_plugin_gog (Process.initial World.fresh) 1 (some 1)).2) :=
  ⟨⟨by decide, by decide⟩,
   (C10_thread_affinity (luaopen_plugin_gog (Process.initial World.fresh) 1 (some 1)).2 2 2
      (by decide) (by decide)).1⟩

/-- Claim C12 (null construction is atomic): the constructor of `RuntimeContext`
run on a null Lua state throws, at whatever address it runs; the expression
`new RuntimeContext(nullptr)` yields no object and leaves the process as it was,
so the instance collection, the live objects and `GetInstanceCount` are the same
as before the attempt. -/
theorem C12_null_construction_is_atomic (p : Process) (this : Nat) :
    RuntimeContext.construct p this none = none ∧
    (RuntimeContext.new p none).1 = none ∧
    (RuntimeContext.new p none).2.sRuntimeContextCollection = p.sRuntimeContextCollection ∧
    (RuntimeContext.new p none).2.objects = p.objects ∧
    RuntimeContext.GetInstanceCount (RuntimeContext.new p none).2 =
      RuntimeContext.GetInstanceCount p :=
  ⟨rfl, rfl, rfl, rfl, rfl⟩

theorem lookup_map_update (l : List (Nat × RuntimeContext)) (a : Nat) (x v : RuntimeContext)
    (h : l.lookup a = some x) :
    (l.map (fun o => if o.1 = a then (o.1, v) else o)).lookup a = some v := by
  induction l with
  | nil => simp [List.lookup] at h
  | cons y ys ih =>
    obtain ⟨k, u⟩ := y
    by_cases hk : k = a
    · have e : (if (k, u).1 = a then ((k, u).1, v) else (k, u)) = (a, v) := by
        rw [if_pos hk]; simp [hk]
      simp only [List.map_cons, e]
      simp [List.lookup_cons]
    · have e : (if (k, u).1 = a then ((k, u).1, v) else (k, u)) = (k, u) := if_neg hk
      have hk2 : (a == k) = false := by simpa using fun e : a = k => hk e.symm
      simp only [List.map_cons, e]
      rw [List.lookup_cons] at h ⊢
      simp only [hk2] at h ⊢
      exact ih h

theorem lookup_map_update_other (l : List (Nat × RuntimeContext)) (a b : Nat)
    (v : RuntimeContext) (hb : b ≠ a) :
    (l.map (fun o => if o.1 = a then (o.1, v) else o)).lookup b = l.lookup b := by
  induction l with
  | nil => rfl
  | cons y ys ih =>
    obtain ⟨k, u⟩ := y
    by_cases hk : k = a
    · have e : (if (k, u).1 = a then ((k, u).1, v) else (k, u)) = (k, v) := if_pos hk
      have hk2 : (b == k) = false := by simpa [hk] using hb
      simp only [List.map_cons, e]
      rw [List.lookup_cons, List.lookup_cons]
      simp only [hk2]
      exact ih
    · have e : (if (k, u).1 = a then ((k, u).1, v) else (k, u)) = (k, u) := if_neg hk
      simp only [List.map_cons, e]
      rw [List.lookup_cons, List.lookup_cons, ih]

/-- Claim C14 (native event capture): a call of `OnAuthResponse(success)` on a
live context appends exactly one task to the back of its queue and leaves the
tasks already queued in place; the flag of the new task is `success` and its
dispatcher is the dispatcher of the context.  The call returns; the world (every
Lua stack, the heap, the history of `Execute` calls and of Lua calls) is the one
before the call, the instance collection is unchanged and so is every other
live context. -/
theorem C14_OnAuthResponse_appends_one_task (p : Process) (contextPointer : Nat)
    (context : RuntimeContext) (success : Bool)
    (hlive : p.objects.lookup contextPointer = some context) :
    ∃ task p1,
      (context.OnAuthResponse success).fDispatchEventTaskQueue =
        context.fDispatchEventTaskQueue ++ [some task] ∧
      task.fSuccess = success ∧
      task.GetLuaEventDispatcher = context.GetLuaEventDispatcher ∧
      (context.OnAuthResponse success).fLuaEventDispatcherPointer =
        context.fLuaEventDispatcherPointer ∧
      Process.OnAuthResponse p contextPointer success = Except.ok p1 ∧
      p1.objects.lookup contextPointer = some (context.OnAuthResponse success) ∧
      (∀ other, other ≠ contextPointer → p1.objects.lookup other = p.objects.lookup other) ∧
      p1.world = p.world ∧
      p1.sRuntimeContextCollection = p.sRuntimeContextCollection := by
  refine ⟨context.taskFor success,
    { p with objects := p.objects.map (fun o =>
        if o.1 = contextPointer then (o.1, context.OnAuthResponse success) else o) },
    rfl, rfl, rfl, rfl, ?_, ?_, ?_, rfl, rfl⟩
  · unfold Process.OnAuthResponse
    rw [hlive]
  · exact lookup_map_update p.objects contextPointer context _ hlive
  · intro other hother
    exact lookup_map_update_other p.objects contextPointer other _ hother

/-- Witness for C14: the context at address 1 of `Process.withQueuedTasks`,
whose queue already holds two tasks, receives `OnAuthResponse(true)`. -/
theorem C14_OnAuthResponse_appends_one_task_witness :
    Process.withQueuedTasks.objects.lookup 1 =
      some { sampleContext with
        fDispatchEventTaskQueue :=
          [some (sampleContext.taskFor true), some (sampleContext.taskFor false)] } ∧
    ∃ task p1,
      (({ sampleContext with
          fDispatchEventTaskQueue :=
            [some (sampleContext.taskFor true), some (sampleContext.taskFor false)] } :
          RuntimeContext).OnAuthResponse true).fDispatchEventTaskQueue =
        [some (sampleContext.taskFor true), some (sampleContext.taskFor false)] ++ [some task] ∧
      task.fSuccess = true ∧
      task.GetLuaEventDispatcher = some sampleDispatcher ∧
      Process.OnAuthResponse Process.withQueuedTasks 1 true = Except.ok p1 ∧
      p1.world = Process.withQueuedTasks.world :=
  ⟨by decide,
   (C14_OnAuthResponse_appends_one_task Process.withQueuedTasks 1 _ true (by decide)).elim
     (fun task h => h.elim (fun p1 h1 =>
       ⟨task, p1, h1.1, h1.2.1, h1.2.2.1, h1.2.2.2.2.1, h1.2.2.2.2.2.2.2.1⟩))⟩

theorem lookup_filter_ne (l : List (Nat × RuntimeContext)) (a : Nat) :
    (l.filter (fun o => !decide (o.1 = a))).lookup a = none := by
  induction l with
  | nil => rfl
  | cons y ys ih =>
    obtain ⟨k, u⟩ := y
    by_cases hk : k = a
    · simp only [List.filter_cons, hk, decide_True, Bool.not_true]
      simpa using ih
    · have hk2 : (a == k) = false := by simpa using fun e : a = k => hk e.symm
      simp only [List.filter_cons, hk, decide_False, Bool.not_false, if_true]
      rw [List.lookup_cons]
      simp only [hk2]
      exact ih

/-- Claim C13 (drop on destroy): `delete` of a live context, whatever its queue
holds, succeeds and calls `Execute` on no task (the history of `Execute` calls
and the history of Lua calls are the ones before); the address is no longer in
the instance collection nor among the live objects, and the "enterFrame"
subscription of the callback of the context is gone while every other
subscription is kept. -/
theorem C13_destroy_drops_queued_tasks (p : Process) (this : Nat) (object : RuntimeContext)
    (hlive : p.objects.lookup this = some object) :
    ∃ p1, RuntimeContext.delete p this = Except.ok p1 ∧
      p1.world.env.executed = p.world.env.executed ∧
      p1.world.env.luaCalls = p.world.env.luaCalls ∧
      this ∉ p1.sRuntimeContextCollection ∧
      p1.objects.lookup this = none ∧
      ("enterFrame", object.fLuaEnterFrameCallback.owner) ∉ p1.world.env.runtimeListeners ∧
      (∀ s, s ≠ ("enterFrame", object.fLuaEnterFrameCallback.owner) →
        (s ∈ p1.world.env.runtimeListeners ↔ s ∈ p.world.env.runtimeListeners)) := by
  have henv : ∀ w : World,
      (match object.fLuaEventDispatcherPointer with
        | some d => d.destroy w
        | none => w).env = w.env := by
    intro w
    cases object.fLuaEventDispatcherPointer with
    | none => rfl
    | some d => exact env_sdk_destroy d w
  unfold RuntimeContext.delete
  rw [hlive]
  refine ⟨_, rfl, ?_, ?_, ?_, ?_, ?_, ?_⟩
  · simp only [henv]; rfl
  · simp only [henv]; rfl
  · simp [List.mem_filter]
  · exact lookup_filter_ne p.objects this
  · simp only [henv]
    simp [LuaMethodCallback.RemoveFromRuntimeEventListeners, List.mem_filter]
  · intro s hs
    simp only [henv]
    simp [LuaMethodCallback.RemoveFromRuntimeEventListeners, List.mem_filter, hs]

/-- Witness for C13: the context at address 1 of `Process.withQueuedTasks` is
deleted while its queue holds two tasks. -/
theorem C13_destroy_drops_queued_tasks_witness :
    (Process.withQueuedTasks.objects.lookup 1).map
        (fun o => o.fDispatchEventTaskQueue.length) = some 2 ∧
    ∃ p1, RuntimeContext.delete Process.withQueuedTasks 1 = Except.ok p1 ∧
      p1.world.env.executed = Process.withQueuedTasks.world.env.executed ∧
      1 ∉ p1.sRuntimeContextCollection ∧
      ("enterFrame", 1) ∉ p1.world.env.runtimeListeners :=
  ⟨by decide,
   (C13_destroy_drops_queued_tasks Process.withQueuedTasks 1
      { sampleContext with
        fDispatchEventTaskQueue :=
          [some (sampleContext.taskFor true), some (sampleContext.taskFor false)] }
      (by decide)).elim
     (fun p1 h => ⟨p1, h.1, h.2.1, h.2.2.2.1, h.2.2.2.2.2.1⟩)⟩

theorem filterMap_lookup_of_nodup (l : List (Nat × RuntimeContext))
    (f : RuntimeContext → Option lua_State) (hn : (l.map Prod.fst).Nodup) :
    (l.map Prod.fst).filterMap (fun a => (l.lookup a).map f) = l.map (fun o => f o.2) := by
  induction l with
  | nil => rfl
  | cons y ys ih =>
    obtain ⟨k, u⟩ := y
    rw [List.map_cons, List.nodup_cons] at hn
    have hcongr : (ys.map Prod.fst).filterMap (fun a => (((k, u) :: ys).lookup a).map f)
        = (ys.map Prod.fst).filterMap (fun a => (ys.lookup a).map f) := by
      apply List.filterMap_congr
      intro a ha
      have hak : (a == k) = false := by
        simpa using fun e : a = k => hn.1 (e ▸ ha)
      rw [List.lookup_cons]
      simp only [hak]
    have hhead : (((k, u) :: ys).lookup k).map f = some (f u) := by
      rw [List.lookup_cons]
      simp
    rw [List.map_cons, List.filterMap_cons]
    simp only [hhead]
    rw [hcongr, ih hn.2]
    rfl

/-- In a consistent process the main states of the contexts of the collection
are the main states of the live objects. -/
theorem mainStates_eq (p : Process) (hwf : p.WellFormed) :
    p.mainStates = p.objects.map (fun o => o.2.GetMainLuaState) := by
  unfold Process.mainStates
  rw [hwf.1]
  exact filterMap_lookup_of_nodup p.objects RuntimeContext.GetMainLuaState hwf.2.1

/-- A plugin load either leaves the live objects as they were (the load was
refused) or adds one context, bound to the main state of the main state of the
given state. -/
theorem luaopen_objects (p : Process) (T : Nat) (L : lua_State) :
    (luaopen_plugin_gog p T (some L)).2.objects = p.objects ∨
    ∃ object : RuntimeContext,
      (luaopen_plugin_gog p T (some L)).2.objects = p.objects ++ [(p.freshAddress, object)] ∧
      object.GetMainLuaState = some (boundMainState p.world L) := by
  unfold luaopen_plugin_gog
  simp only
  by_cases hcount : RuntimeContext.GetInstanceCount p > 0
  · by_cases ht : some T ≠ p.sMainThreadId
    · left
      rw [if_pos hcount, if_pos ht]
    · right
      rw [if_pos hcount, if_neg ht]
      exact ⟨_, rfl, rfl⟩
  · right
    rw [if_neg hcount]
    exact ⟨_, rfl, rfl⟩

/-- A finalization leaves a sublist of the live objects. -/
theorem OnFinalizing_objects (p p1 : Process) (luaStatePointer : Option lua_State)
    (upvalue : LuaValue) (n : Int)
    (h : OnFinalizing p luaStatePointer upvalue = Except.ok (n, p1)) :
    p1.objects.Sublist p.objects := by
  unfold OnFinalizing at h
  cases luaStatePointer with
  | none => simp at h
  | some L =>
    simp only at h
    cases hu : lua_touserdata upvalue with
    | none =>
      rw [hu] at h
      simp only at h
      split at h
      · injection h with h; injection h with _ h; rw [← h]
      · injection h with h; injection h with _ h; rw [← h]
    | some c =>
      rw [hu] at h
      simp only at h
      unfold RuntimeContext.delete at h
      cases hl : p.objects.lookup c with
      | none => rw [hl] at h; simp at h
      | some o =>
        rw [hl] at h
        simp only at h
        split at h
        · injection h with h; injection h with _ h; rw [← h]
          exact List.filter_sublist _
        · injection h with h; injection h with _ h; rw [← h]
          exact List.filter_sublist _

theorem pair_mem_of_lookup (l : List (Nat × RuntimeContext)) (a : Nat) (x : RuntimeContext)
    (h : l.lookup a = some x) : (a, x) ∈ l := by
  induction l with
  | nil => simp [List.lookup] at h
  | cons y ys ih =>
    obtain ⟨k, u⟩ := y
    rw [List.lookup_cons] at h
    by_cases hk : a = k
    · have hk2 : (a == k) = true := by simpa using hk
      simp only [hk2] at h
      injection h with h
      rw [hk, h]
      exact List.mem_cons_self _ _
    · have hk2 : (a == k) = false := by simpa using hk
      simp only [hk2] at h
      exact List.mem_cons_of_mem _ (ih h)

theorem ReachableOncePerMainState.reachable {T : Nat} {w0 : World} {p : Process}
    (h : ReachableOncePerMainState T w0 p) : Reachable T w0 p := by
  induction h with
  | initial => exact Reachable.initial
  | load p L _ _ ih => exact Reachable.load p L ih
  | finalize p p1 L a _ hlive hfin ih => exact Reachable.finalize p p1 L a ih hlive hfin

theorem ReachableOncePerMainState.nodup {T : Nat} {w0 : World} {p : Process}
    (h : ReachableOncePerMainState T w0 p) :
    (p.objects.map (fun o => o.2.GetMainLuaState)).Nodup := by
  induction h with
  | initial => exact List.nodup_nil
  | load p L hp hguard ih =>
    rw [mainStates_eq p hp.reachable.invariant.1] at hguard
    rcases luaopen_objects p T L with h | ⟨object, h, hmain⟩
    · rw [h]; exact ih
    · rw [h, List.map_append, List.map_cons, List.map_nil]
      simp only [hmain]
      rw [List.nodup_append]
      refine ⟨ih, List.nodup_singleton _, ?_⟩
      intro x hx hx2
      rw [List.mem_singleton] at hx2
      exact hguard (hx2 ▸ hx)
  | finalize p p1 L a _ _ hfin ih =>
    exact List.Nodup.sublist ((OnFinalizing_objects p p1 (some L) _ 0 hfin).map _) ih

set_option maxRecDepth 100000 in
/-- Counterexample to claim C11 as stated: two plugin loads on one thread for the
same Lua state 1 are a reachable state of the process in which the instance
collection holds two contexts, at addresses 1 and 2, both with main state 1. -/
theorem C11_two_loads_for_one_state_share_the_main_state :
    Reachable 1 World.fresh Process.loadedTwice ∧
    Process.loadedTwice.sRuntimeContextCollection = [1, 2] ∧
    Process.loadedTwice.mainStates = [some 1, some 1] ∧
    ¬ Process.loadedTwice.mainStates.Nodup :=
  ⟨Reachable.load _ 1 (Reachable.load _ 1 Reachable.initial), by decide, by decide, by decide⟩

/-- Claim C11, amended (uniqueness of the main state): in every state reachable
by plugin loads and finalizations in which the plugin is loaded for a Lua state
only while no context of the collection is bound to the main state the new
context gets bound to, no two contexts of the instance collection have the same
`GetMainLuaState()`. -/
theorem C11_main_states_unique_when_loaded_once_per_main_state (T : Nat) (w0 : World)
    (p : Process) (hreach : ReachableOncePerMainState T w0 p) :
    p.mainStates.Nodup ∧
    ∀ (a b : Nat) (x y : RuntimeContext),
      a ∈ p.sRuntimeContextCollection → b ∈ p.sRuntimeContextCollection →
      p.objects.lookup a = some x → p.objects.lookup b = some y →
      x.GetMainLuaState = y.GetMainLuaState → a = b := by
  have hwf := hreach.reachable.invariant.1
  have hnd := hreach.nodup
  refine ⟨by rw [mainStates_eq p hwf]; exact hnd, ?_⟩
  intro a b x y _ _ ha hb hxy
  have hma : (a, x) ∈ p.objects := pair_mem_of_lookup p.objects a x ha
  have hmb : (b, y) ∈ p.objects := pair_mem_of_lookup p.objects b y hb
  have := List.inj_on_of_nodup_map hnd hma hmb hxy
  exact congrArg Prod.fst this

set_option maxRecDepth 100000 in
/-- Witness for the amended C11: two plugin loads for the Lua states 1 and 2 of
the fresh world, each its own main state. -/
theorem C11_main_states_unique_when_loaded_once_per_main_state_witness :
    ReachableOncePerMainState 1 World.fresh Process.loadedForTwoStates ∧
    Process.loadedForTwoStates.mainStates = [some 1, some 2] ∧
    Process.loadedForTwoStates.mainStates.Nodup :=
  ⟨ReachableOncePerMainState.load _ 2
      (ReachableOncePerMainState.load _ 1 ReachableOncePerMainState.initial (by decide))
      (by decide),
   by decide,
   (C11_main_states_unique_when_loaded_once_per_main_state 1 World.fresh _
      (ReachableOncePerMainState.load _ 2
        (ReachableOncePerMainState.load _ 1 ReachableOncePerMainState.initial (by decide))
        (by decide))).1⟩

set_option maxRecDepth 100000 in
/-- The forwarded call evaluated: `gog.addEventListener("authResponse", f)` calls
the `addEventListener` function of the dispatcher object with the dispatcher
object, the event name and the listener, and leaves the stack as it was; with an
empty event name no Lua function is called. -/
theorem listener_call_evaluated :
    ((OnAddEventListener
        (Process.calledWith [LuaValue.string "authResponse", LuaValue.function 7]) (some 1)
        (LuaValue.lightuserdata 1)).toOption.map
      (fun r => (r.1, r.2.world.env.luaCalls, r.2.world.stack 1))) =
      some (0,
        [(LuaValue.function 1,
          [LuaValue.table 2, LuaValue.string "authResponse", LuaValue.function 7])],
        [LuaValue.string "authResponse", LuaValue.function 7]) ∧
    ((OnAddEventListener (Process.calledWith [LuaValue.string "", LuaValue.function 7])
        (some 1) (LuaValue.lightuserdata 1)).toOption.map
      (fun r => (r.1, r.2.world.env.luaCalls, r.2.world.env.diagnostics))) =
      some (0, [], ["ERROR: 1st argument must be set to an event name."]) := by
  decide

set_option maxRecDepth 100000 in
/-- Event names that hold a zero byte, evaluated.  A name that starts with a zero
byte has an empty C string: the call is refused with the usage error although
the Lua string has length 4.  For the name made of "dispatchEvent", a zero byte
and "x", the C string is "dispatchEvent": a table with a function in its field
`dispatchEvent` is accepted as a listener and the call is forwarded with the
event name "dispatchEvent". -/
theorem listener_call_with_zero_byte_evaluated :
    (withZeroByte "" "abc").length = 4 ∧
    cString (withZeroByte "" "abc") = "" ∧
    ((OnAddEventListener
        (Process.calledWith [LuaValue.string (withZeroByte "" "abc"), LuaValue.function 7])
        (some 1) (LuaValue.lightuserdata 1)).toOption.map
      (fun r => (r.1, r.2.world.env.luaCalls, r.2.world.env.diagnostics))) =
      some (0, [], ["ERROR: 1st argument must be set to an event name."]) ∧
    cString (withZeroByte "dispatchEvent" "x") = "dispatchEvent" ∧
    ((OnAddEventListener
        (Process.calledWith
          [LuaValue.string (withZeroByte "dispatchEvent" "x"), LuaValue.table 2])
        (some 1) (LuaValue.lightuserdata 1)).toOption.map
      (fun r => (r.1, r.2.world.env.luaCalls))) =
      some (0,
        [(LuaValue.function 1,
          [LuaValue.table 2, LuaValue.string "dispatchEvent", LuaValue.table 2])]) :=
  ⟨by decide, by decide, by decide, by decide, by decide⟩

/-- Counterexample to claim C16 as stated: reading `isLoggedOn` while the user
is not signed in, or signed in but not logged on, yields 0 values and pushes
nothing; it does not yield the boolean false. -/
theorem C16_isLoggedOn_yields_no_value_when_not_logged_on :
    galaxy.api.User.SignedIn (World.readingField "isLoggedOn" false false) = false ∧
    (OnAccessingField (World.readingField "isLoggedOn" false false) (some 1)
      (LuaValue.lightuserdata 1)).1 = 0 ∧
    (OnAccessingField (World.readingField "isLoggedOn" false false) (some 1)
      (LuaValue.lightuserdata 1)).2.stack 1 =
      [LuaValue.table 0, LuaValue.string "isLoggedOn"] ∧
    galaxy.api.User.IsLoggedOn (World.readingField "isLoggedOn" true false) = false ∧
    (OnAccessingField (World.readingField "isLoggedOn" true false) (some 1)
      (LuaValue.lightuserdata 1)).1 = 0 ∧
    (OnAccessingField (World.readingField "isLoggedOn" true false) (some 1)
      (LuaValue.lightuserdata 1)).2.stack 1 =
      [LuaValue.table 0, LuaValue.string "isLoggedOn"] := by
  decide

theorem OnAccessingField_isLoggedOn (w : World) (L : lua_State) (upvalue : LuaValue)
    (contextPointer : Nat)
    (hfield : valueAt w L 2 = LuaValue.string "isLoggedOn")
    (hcontext : lua_touserdata upvalue = some contextPointer) :
    OnAccessingField w (some L) upvalue =
      if galaxy.api.User.SignedIn w = true ∧ galaxy.api.User.IsLoggedOn w = true then
        (1, lua_pushboolean w L 1)
      else (0, w) := by
  have h1 : lua_isstringtype w L 2 = true := by simp [lua_isstringtype, hfield]
  have h2 : lua_tostring w L 2 = some "isLoggedOn" := by
    have hc : cString "isLoggedOn" = "isLoggedOn" := by decide
    simp [lua_tostring, hfield, hc]
  unfold OnAccessingField
  simp only
  rw [if_neg (not_not.mpr h1), h2]
  simp only
  rw [if_pos trivial, hcontext]
  simp only
  by_cases hs : galaxy.api.User.SignedIn w = true
  · by_cases hl : galaxy.api.User.IsLoggedOn w = true
    · rw [if_neg (not_not.mpr hs), if_neg (not_not.mpr hl), if_pos ⟨hs, hl⟩]
    · rw [if_neg (not_not.mpr hs), if_pos hl, if_neg (fun h => hl h.2)]
  · rw [if_pos hs, if_neg (fun h => hs h.1)]

/-- Claim C16, amended (reading `isLoggedOn`): with the field name "isLoggedOn"
as argument 2 and a non-null context pointer in the closure, `OnAccessingField`
queries the SDK at the time of the read; when the user is signed in and logged
on it returns 1 value, the boolean true pushed on top of the stack; when the
user is not signed in or not logged on it returns 0 values and leaves the world
as it was. -/
theorem C16_isLoggedOn_yields_true_or_no_value (w : World) (L : lua_State)
    (upvalue : LuaValue) (contextPointer : Nat)
    (hfield : valueAt w L 2 = LuaValue.string "isLoggedOn")
    (hcontext : lua_touserdata upvalue = some contextPointer) :
    (galaxy.api.User.SignedIn w = true ∧ galaxy.api.User.IsLoggedOn w = true →
      (OnAccessingField w (some L) upvalue).1 = 1 ∧
      (OnAccessingField w (some L) upvalue).2.stack L = w.stack L ++ [LuaValue.boolean true] ∧
      (OnAccessingField w (some L) upvalue).2.env = w.env) ∧
    (¬ (galaxy.api.User.SignedIn w = true ∧ galaxy.api.User.IsLoggedOn w = true) →
      OnAccessingField w (some L) upvalue = (0, w)) := by
  rw [OnAccessingField_isLoggedOn w L upvalue contextPointer hfield hcontext]
  constructor
  · intro h
    rw [if_pos h]
    refine ⟨rfl, ?_, rfl⟩
    simp [lua_pushboolean]
  · intro h
    rw [if_neg h]

/-- Witness for the amended C16: the field is read while the user is signed in
and logged on. -/
theorem C16_isLoggedOn_yields_true_or_no_value_witness :
    valueAt (World.readingField "isLoggedOn" true true) 1 2 = LuaValue.string "isLoggedOn" ∧
    (OnAccessingField (World.readingField "isLoggedOn" true true) (some 1)
      (LuaValue.lightuserdata 1)).1 = 1 ∧
    (OnAccessingField (World.readingField "isLoggedOn" true true) (some 1)
      (LuaValue.lightuserdata 1)).2.stack 1 =
      (World.readingField "isLoggedOn" true true).stack 1 ++ [LuaValue.boolean true] :=
  ⟨by decide,
   ((C16_isLoggedOn_yields_true_or_no_value (World.readingField "isLoggedOn" true true) 1
      (LuaValue.lightuserdata 1) 1 (by decide) (by decide)).1 ⟨rfl, rfl⟩).1,
   ((C16_isLoggedOn_yields_true_or_no_value (World.readingField "isLoggedOn" true true) 1
      (LuaValue.lightuserdata 1) 1 (by decide) (by decide)).1 ⟨rfl, rfl⟩).2.1⟩

set_option maxRecDepth 100000 in
/-- Counterexample to claim C17 as stated: the field name made of "isLoggedOn", a
zero byte and "x" is a field name other than "isLoggedOn", yet reading it while
the user is signed in and logged on reports no error and returns 1 value, the
boolean true: `strcmp` sees the C string "isLoggedOn". -/
theorem C17_field_name_with_zero_byte_is_read_as_isLoggedOn :
    withZeroByte "isLoggedOn" "x" ≠ "isLoggedOn" ∧
    valueAt (World.readingField (withZeroByte "isLoggedOn" "x") true true) 1 2
      = LuaValue.string (withZeroByte "isLoggedOn" "x") ∧
    (OnAccessingField (World.readingField (withZeroByte "isLoggedOn" "x") true true) (some 1)
      (LuaValue.lightuserdata 1)).1 = 1 ∧
    (OnAccessingField (World.readingField (withZeroByte "isLoggedOn" "x") true true) (some 1)
      (LuaValue.lightuserdata 1)).2.stack 1 =
      [LuaValue.table 0, LuaValue.string (withZeroByte "isLoggedOn" "x"),
        LuaValue.boolean true] ∧
    (OnAccessingField (World.readingField (withZeroByte "isLoggedOn" "x") true true) (some 1)
      (LuaValue.lightuserdata 1)).2.env.diagnostics = [] :=
  ⟨by decide, by decide, by decide, by decide, by decide⟩

/-- Claim C17, amended (unknown field): for every string field name given as
argument 2 whose C string (its bytes up to the first zero byte) is other than
"isLoggedOn", `OnAccessingField` reports the usage error "Accessing unknown
field" with that C string through `CoronaLuaError` and returns 0 values; nothing
is pushed and nothing else changes. -/
theorem C17_unknown_field_is_an_error (w : World) (L : lua_State) (upvalue : LuaValue)
    (fieldName : String)
    (hfield : valueAt w L 2 = LuaValue.string fieldName)
    (hname : cString fieldName ≠ "isLoggedOn") :
    OnAccessingField w (some L) upvalue =
      (0, CoronaLuaError w ("Accessing unknown field: '" ++ cString fieldName ++ "'")) ∧
    (OnAccessingField w (some L) upvalue).1 = 0 ∧
    (OnAccessingField w (some L) upvalue).2.env.diagnostics =
      w.env.diagnostics ++ ["ERROR: Accessing unknown field: '" ++ cString fieldName ++ "'"] ∧
    (OnAccessingField w (some L) upvalue).2.stack = w.stack ∧
    (OnAccessingField w (some L) upvalue).2.heap = w.heap := by
  have h1 : lua_isstringtype w L 2 = true := by simp [lua_isstringtype, hfield]
  have h2 : lua_tostring w L 2 = some (cString fieldName) := by simp [lua_tostring, hfield]
  have h : OnAccessingField w (some L) upvalue =
      (0, CoronaLuaError w ("Accessing unknown field: '" ++ cString fieldName ++ "'")) := by
    unfold OnAccessingField
    simp only
    rw [if_neg (not_not.mpr h1), h2]
    simp only
    rw [if_neg hname]
  rw [h]
  exact ⟨rfl, rfl, rfl, rfl, rfl⟩

/-- Witness for the amended C17: the field `userName` is read. -/
theorem C17_unknown_field_is_an_error_witness :
    valueAt (World.readingField "userName" true true) 1 2 = LuaValue.string "userName" ∧
    cString "userName" ≠ "isLoggedOn" ∧
    (OnAccessingField (World.readingField "userName" true true) (some 1)
      (LuaValue.lightuserdata 1)).1 = 0 ∧
    (OnAccessingField (World.readingField "userName" true true) (some 1)
      (LuaValue.lightuserdata 1)).2.env.diagnostics =
      (World.readingField "userName" true true).env.diagnostics ++
        ["ERROR: Accessing unknown field: '" ++ cString "userName" ++ "'"] :=
  ⟨by decide, by decide,
   (C17_unknown_field_is_an_error (World.readingField "userName" true true) 1
      (LuaValue.lightuserdata 1) "userName" (by decide) (by decide)).2.1,
   (C17_unknown_field_is_an_error (World.readingField "userName" true true) 1
      (LuaValue.lightuserdata 1) "userName" (by decide) (by decide)).2.2.1⟩

theorem stack_lua_insert_other (w : World) (L l : lua_State) (idx : Int) (h : l ≠ L) :
    (lua_insert w L idx).stack l = w.stack l := by
  unfold lua_insert
  simp only
  split
  · rfl
  · simp [h]

/-- Stack effect of `DispatchEventWithResult(lua_State*, int)` on the stack of
the state it is given, whatever state the dispatcher was created in: the call
returns, the stack of the given state gains one value when the result is true
and is as before when it is false, and the stack of every state other than the
given one and the one of the dispatcher is as before. -/
theorem DispatchEventWithResultIndex_stack_of_given (d : LuaEventDispatcher) (w : World)
    (L : lua_State) (idx : Int) :
    ∃ b w1 v, d.DispatchEventWithResultIndex w (some L) idx = Except.ok (b, w1) ∧
      w1.stack L = (if b = true then w.stack L ++ [v] else w.stack L) ∧
      ∀ l, l ≠ L → d.fLuaStatePointer ≠ some l → w1.stack l = w.stack l := by
  cases hd : d.fLuaStatePointer with
  | none =>
    refine ⟨false, w, LuaValue.nil, ?_, by simp, fun _ _ _ => rfl⟩
    unfold LuaEventDispatcher.DispatchEventWithResultIndex
    rw [hd]
  | some fL =>
    by_cases hfl : fL = L
    · subst hfl
      obtain ⟨b, w1, v, hr, hs⟩ := DispatchEventWithResultIndex_stack d w fL idx hd
      refine ⟨b, w1, v, hr, ?_, fun l hl _ => ?_⟩
      · rw [hs fL]
        cases b <;> simp
      · rw [hs l]
        simp [hl]
    · have hLf : L ≠ fL := fun e => hfl e.symm
      unfold LuaEventDispatcher.DispatchEventWithResultIndex
      rw [hd]
      simp only
      by_cases h0 : idx = 0
      · exact ⟨false, w, LuaValue.nil, by simp [h0], by simp, fun _ _ _ => rfl⟩
      by_cases hn : LUA_NOREF = d.fLuaRegistryReferenceId
      · exact ⟨false, w, LuaValue.nil, by simp [h0, hn], by simp, fun _ _ _ => rfl⟩
      simp only [h0, hn, if_false]
      obtain ⟨index, hidx⟩ : ∃ index : Int,
          (if idx < 0 ∧ idx > LUA_REGISTRYINDEX then
            (Except.ok (idx + (lua_gettop w L + 1)) : Except Fault Int)
           else Except.ok idx) = Except.ok index := by
        by_cases hc : idx < 0 ∧ idx > LUA_REGISTRYINDEX
        · exact ⟨_, if_pos hc⟩
        · exact ⟨_, if_neg hc⟩
      rw [hidx]
      simp only
      by_cases ht : lua_istable (lua_rawgeti w fL LUA_REGISTRYINDEX d.fLuaRegistryReferenceId)
          fL (-1) = true
      · rw [if_neg (not_not.mpr ht)]
        by_cases hf : lua_isfunction (lua_getfield (lua_rawgeti w fL LUA_REGISTRYINDEX
            d.fLuaRegistryReferenceId) fL (-1) "dispatchEvent") fL (-1) = true
        · rw [if_neg (not_not.mpr hf)]
          obtain ⟨v, hv⟩ := stack_CoronaLuaDoCall_one
            (lua_pushvalue (lua_insert (lua_getfield (lua_rawgeti w fL LUA_REGISTRYINDEX
              d.fLuaRegistryReferenceId) fL (-1) "dispatchEvent") fL (-2)) L index) fL 2
          refine ⟨true, _, valueAt (lua_insert (lua_getfield (lua_rawgeti w fL
            LUA_REGISTRYINDEX d.fLuaRegistryReferenceId) fL (-1) "dispatchEvent") fL (-2)) L
            index, rfl, ?_, fun l hl hlf => ?_⟩
          · rw [hv, if_neg hLf, stack_lua_pushvalue, if_pos rfl,
              stack_lua_insert_other _ _ _ _ hLf]
            simp [hLf]
          · have hlf2 : l ≠ fL := fun e => hlf (by rw [e])
            rw [hv, if_neg hlf2, stack_lua_pushvalue, if_neg hl,
              stack_lua_insert_other _ _ _ _ hlf2]
            simp [hlf2]
        · rw [if_pos hf]
          refine ⟨false, _, LuaValue.nil, rfl, ?_, fun l hl hlf => ?_⟩
          · rw [stack_lua_pop]; simp [hLf]
          · have hlf2 : l ≠ fL := fun e => hlf (by rw [e])
            rw [stack_lua_pop]; simp [hlf2]
      · rw [if_pos ht]
        refine ⟨false, _, LuaValue.nil, rfl, ?_, fun l hl hlf => ?_⟩
        · rw [stack_lua_pop]; simp [hLf]
        · have hlf2 : l ≠ fL := fun e => hlf (by rw [e])
          rw [stack_lua_pop]; simp [hlf2]

theorem eraseIdx_length_append (st rest : List LuaValue) (a : LuaValue) :
    (st ++ a :: rest).eraseIdx st.length = st ++ rest := by
  induction st with
  | nil => rfl
  | cons x xs ih => simp [List.eraseIdx, ih]

theorem stack_lua_remove (w : World) (L l : lua_State) (idx : Int) :
    (lua_remove w L idx).stack l =
      if l = L then (w.stack L).eraseIdx (slotOf w L idx) else w.stack l := rfl

/-- Stack effect of `DispatchEventWithResult(lua_State*, const char*)` on the
stack of the non-null state it is given: the call returns, the stack of the
given state gains one value when the result is true and is as before when it is
false (the event table made for the call is removed in both cases), and the
stack of every state other than the given one and the one of the dispatcher is
as before. -/
theorem DispatchEventWithResultName_stack_of_given (d : LuaEventDispatcher) (w : World)
    (L : lua_State) (eventName : Option String) :
    ∃ b w1 v, d.DispatchEventWithResultName w (some L) eventName = Except.ok (b, w1) ∧
      w1.stack L = (if b = true then w.stack L ++ [v] else w.stack L) ∧
      ∀ l, l ≠ L → d.fLuaStatePointer ≠ some l → w1.stack l = w.stack l := by
  unfold LuaEventDispatcher.DispatchEventWithResultName
  cases hd : d.fLuaStatePointer with
  | none => exact ⟨false, w, LuaValue.nil, rfl, by simp, fun _ _ _ => rfl⟩
  | some fL =>
    cases eventName with
    | none => exact ⟨false, w, LuaValue.nil, rfl, by simp, fun _ _ _ => rfl⟩
    | some name =>
      simp only
      obtain ⟨b, w2, v, hr, hs, ho⟩ := DispatchEventWithResultIndex_stack_of_given d
        (CoronaLuaNewEvent w L name) L (lua_gettop (CoronaLuaNewEvent w L name) L)
      rw [hr]
      simp only
      have hslot : slotOf w2 L (lua_gettop (CoronaLuaNewEvent w L name) L)
          = (w.stack L).length := by
        unfold slotOf lua_gettop
        simp
      refine ⟨b, _, v, rfl, ?_, fun l hl hlf => ?_⟩
      · rw [stack_lua_remove, if_pos rfl, hslot, hs]
        cases b with
        | false =>
          simp only [stack_CoronaLuaNewEvent, if_true, Bool.false_eq_true, if_false]
          rw [eraseIdx_length_append]
          simp
        | true =>
          simp only [stack_CoronaLuaNewEvent, if_true]
          rw [List.append_assoc, List.singleton_append, eraseIdx_length_append]
      · rw [stack_lua_remove, if_neg hl, ho l hl (by rw [hd]; exact hlf)]
        simp [hl]

theorem stack_take_length_append_one (st : List LuaValue) (v : LuaValue) :
    (st ++ [v]).take ((st ++ [v]).length - 1) = st := by
  simp

/-- Popping the dispatch result: when the dispatch leaves the stack of the given
state with one more value for true and as before for false, the pop gives the
same boolean and leaves that stack as before. -/
theorem popDispatchResult_stack (w : World) (L : lua_State) (b : Bool) (w2 : World)
    (v : LuaValue)
    (hs : w2.stack L = (if b = true then w.stack L ++ [v] else w.stack L)) :
    ∃ w1, popDispatchResult (some L) (Except.ok (b, w2)) = Except.ok (b, w1) ∧
      w1.stack L = w.stack L ∧ ∀ l, l ≠ L → w1.stack l = w2.stack l := by
  unfold popDispatchResult
  cases b with
  | false =>
    refine ⟨w2, rfl, ?_, fun _ _ => rfl⟩
    rw [hs]; simp
  | true =>
    refine ⟨lua_pop w2 L 1, rfl, ?_, fun l hl => ?_⟩
    · rw [stack_lua_pop, if_pos rfl, hs]
      simp
    · rw [stack_lua_pop, if_neg hl]

theorem DispatchEventWithResultIndex_null_false (d : LuaEventDispatcher) (w w2 : World)
    (idx : Int) (b : Bool)
    (h : d.DispatchEventWithResultIndex w none idx = Except.ok (b, w2)) : b = false := by
  have key : ∀ q : World, (Except.ok (false, q) : Except Fault (Bool × World)) =
      Except.ok (b, w2) → b = false := by
    intro q hq
    injection hq with hq
    injection hq with hq _
    exact hq.symm
  unfold LuaEventDispatcher.DispatchEventWithResultIndex at h
  cases hd : d.fLuaStatePointer with
  | none => rw [hd] at h; exact key _ h
  | some fL =>
    rw [hd] at h
    simp only at h
    by_cases h0 : idx = 0
    · rw [if_pos h0] at h; exact key _ h
    rw [if_neg h0] at h
    by_cases hn : LUA_NOREF = d.fLuaRegistryReferenceId
    · rw [if_pos hn] at h; exact key _ h
    rw [if_neg hn] at h
    by_cases hc : idx < 0 ∧ idx > LUA_REGISTRYINDEX
    · rw [if_pos hc] at h; simp at h
    · rw [if_neg hc] at h
      simp only at h
      split at h
      · exact key _ h
      · split at h
        · exact key _ h
        · simp at h

theorem DispatchEventWithResultName_null_false (d : LuaEventDispatcher) (w w2 : World)
    (eventName : Option String) (b : Bool)
    (h : d.DispatchEventWithResultName w none eventName = Except.ok (b, w2)) : b = false := by
  unfold LuaEventDispatcher.DispatchEventWithResultName at h
  split at h
  · simp at h
  · injection h with h
    injection h with h _
    exact h.symm

/-- Claim C19 (`DispatchEventWithoutResult` keeps the stack): for both
overloads, every dispatcher, world and non-null state, the call returns the
same boolean as the corresponding `DispatchEventWithResult` call and leaves the
stack of the given state exactly as it was before the call, height and content,
whether that boolean is true or false; the stacks of all states other than the
dispatcher's own are as before too, so that every stack is unchanged when the
call is made on the dispatcher's own state.  With a null state, whenever
`DispatchEventWithResult` returns, `DispatchEventWithoutResult` returns the same
boolean and world. -/
theorem C19_dispatch_without_result_keeps_the_stack (d : LuaEventDispatcher) (w : World)
    (L : lua_State) (idx : Int) (eventName : Option String) :
    (∃ b w2 w1, d.DispatchEventWithResultIndex w (some L) idx = Except.ok (b, w2) ∧
      d.DispatchEventWithoutResultIndex w (some L) idx = Except.ok (b, w1) ∧
      w1.stack L = w.stack L ∧ (w1.stack L).length = (w.stack L).length ∧
      ∀ l, d.fLuaStatePointer ≠ some l → w1.stack l = w.stack l) ∧
    (∃ b w2 w1, d.DispatchEventWithResultName w (some L) eventName = Except.ok (b, w2) ∧
      d.DispatchEventWithoutResultName w (some L) eventName = Except.ok (b, w1) ∧
      w1.stack L = w.stack L ∧ (w1.stack L).length = (w.stack L).length ∧
      ∀ l, d.fLuaStatePointer ≠ some l → w1.stack l = w.stack l) ∧
    (∀ b w2, d.DispatchEventWithResultIndex w none idx = Except.ok (b, w2) →
      d.DispatchEventWithoutResultIndex w none idx = Except.ok (b, w2)) ∧
    (∀ b w2, d.DispatchEventWithResultName w none eventName = Except.ok (b, w2) →
      d.DispatchEventWithoutResultName w none eventName = Except.ok (b, w2)) := by
  refine ⟨?_, ?_, ?_, ?_⟩
  · obtain ⟨b, w2, v, hr, hs, ho⟩ := DispatchEventWithResultIndex_stack_of_given d w L idx
    obtain ⟨w1, hp, hs1, ho1⟩ := popDispatchResult_stack w L b w2 v hs
    refine ⟨b, w2, w1, hr, ?_, hs1, by rw [hs1], fun l hl => ?_⟩
    · unfold LuaEventDispatcher.DispatchEventWithoutResultIndex
      rw [hr, hp]
    · by_cases hlL : l = L
      · rw [hlL, hs1]
      · rw [ho1 l hlL, ho l hlL hl]
  · obtain ⟨b, w2, v, hr, hs, ho⟩ := DispatchEventWithResultName_stack_of_given d w L eventName
    obtain ⟨w1, hp, hs1, ho1⟩ := popDispatchResult_stack w L b w2 v hs
    refine ⟨b, w2, w1, hr, ?_, hs1, by rw [hs1], fun l hl => ?_⟩
    · unfold LuaEventDispatcher.DispatchEventWithoutResultName
      rw [hr, hp]
    · by_cases hlL : l = L
      · rw [hlL, hs1]
      · rw [ho1 l hlL, ho l hlL hl]
  · intro b w2 h
    have hb := DispatchEventWithResultIndex_null_false d w w2 idx b h
    unfold LuaEventDispatcher.DispatchEventWithoutResultIndex popDispatchResult
    rw [h, hb]
    rfl
  · intro b w2 h
    have hb := DispatchEventWithResultName_null_false d w w2 eventName b h
    unfold LuaEventDispatcher.DispatchEventWithoutResultName popDispatchResult
    rw [h, hb]
    rfl

/-- Witness for C19: the dispatcher of `World.withDispatcher` dispatches the
event table at index 1 of its own state. -/
theorem C19_dispatch_without_result_keeps_the_stack_witness :
    ∃ b w2 w1,
      sampleDispatcher.DispatchEventWithResultIndex
        ((World.withDispatcher []).setStack 1 [LuaValue.table 2]) (some 1) 1
        = Except.ok (b, w2) ∧
      sampleDispatcher.DispatchEventWithoutResultIndex
        ((World.withDispatcher []).setStack 1 [LuaValue.table 2]) (some 1) 1
        = Except.ok (b, w1) ∧
      w1.stack 1 = ((World.withDispatcher []).setStack 1 [LuaValue.table 2]).stack 1 :=
  (C19_dispatch_without_result_keeps_the_stack sampleDispatcher
      ((World.withDispatcher []).setStack 1 [LuaValue.table 2]) 1 1 none).1.elim
    (fun b h => h.elim (fun w2 h2 => h2.elim (fun w1 h1 => ⟨b, w2, w1, h1.1, h1.2.1, h1.2.2.1⟩)))

/-- Both overloads of `DispatchEventWithoutResult` evaluated on the dispatcher's
own state and on a coroutine state: the result is true and the stack of the given
state is the one before the call. -/
theorem dispatch_without_result_evaluated :
    ((sampleDispatcher.DispatchEventWithoutResultIndex
        ((World.withDispatcher []).setStack 1 [LuaValue.table 2]) (some 1) 1).toOption.map
      (fun r => (r.1, r.2.stack 1))) = some (true, [LuaValue.table 2]) ∧
    ((sampleDispatcher.DispatchEventWithoutResultName
        ((World.withDispatcher []).setStack 1 [LuaValue.table 2]) (some 1)
        (some "authResponse")).toOption.map
      (fun r => (r.1, r.2.stack 1))) = some (true, [LuaValue.table 2]) ∧
    (((coroutineDispatcher [LuaValue.number 7]).2.DispatchEventWithoutResultIndex
        (coroutineDispatcher [LuaValue.number 7]).1 (some 2) 1).toOption.map
      (fun r => (r.1, r.2.stack 2))) = some (true, [LuaValue.table 4]) := by
  decide

/-- Claim C18, evaluated on the code: a dispatcher constructed from the coroutine
state 2 is bound to the main state 1.  `DispatchEventWithResult(L, 1)` called
with the coroutine state 2, whose stack holds the event table, returns true; the
value it leaves on top of the stack of state 2 is a second copy of the event
table, not the dispatch result, and the value that was on top of the stack of
the main state has been replaced by the outcome of the call made there (an error
message when that value is the number 7, the returned `true` when it is a
function).  The event-name overload behaves alike: the copy of the table it made
stays on top of the stack of state 2. -/
theorem C18_coroutine_dispatch_leaves_the_event_table_on_top :
    (coroutineDispatcher [LuaValue.number 7]).2 =
      { fLuaStatePointer := some 1, fLuaRegistryReferenceId := 1 } ∧
    (((coroutineDispatcher [LuaValue.number 7]).2.DispatchEventWithResultIndex
        (coroutineDispatcher [LuaValue.number 7]).1 (some 2) 1).toOption.map
      (fun r => (r.1, r.2.stack 2, r.2.stack 1))) =
      some (true, [LuaValue.table 4, LuaValue.table 4],
        [LuaValue.string "attempt to call a non-function value"]) ∧
    (((coroutineDispatcher [LuaValue.function 5]).2.DispatchEventWithResultIndex
        (coroutineDispatcher [LuaValue.function 5]).1 (some 2) 1).toOption.map
      (fun r => (r.1, r.2.stack 2, r.2.stack 1))) =
      some (true, [LuaValue.table 4, LuaValue.table 4], [LuaValue.boolean true]) ∧
    (((coroutineDispatcher [LuaValue.number 7]).2.DispatchEventWithResultName
        (coroutineDispatcher [LuaValue.number 7]).1 (some 2) (some "authResponse")).toOption.map
      (fun r => (r.1, r.2.stack 2, r.2.stack 1))) =
      some (true, [LuaValue.table 4, LuaValue.table 5],
        [LuaValue.string "attempt to call a non-function value"]) := by
  decide

/-- The same dispatcher called on its own state 1, whose stack holds the event
table: the result of the call is left on top of the event table, and
`dispatchEvent` received the dispatcher object and the event table. -/
theorem dispatch_on_own_state_evaluated :
    (((coroutineDispatcher [LuaValue.table 4]).2.DispatchEventWithResultIndex
        (coroutineDispatcher [LuaValue.table 4]).1 (some 1) 1).toOption.map
      (fun r => (r.1, r.2.stack 1, r.2.env.luaCalls))) =
      some (true, [LuaValue.table 4, LuaValue.boolean true],
        [(LuaValue.function 9, []),
         (LuaValue.function 0, [LuaValue.table 3, LuaValue.table 4])]) := by
  decide

/-- Claim C25, evaluated on the code: `DispatchEventWithResult(L, 1)` called with
the coroutine state 2 on a dispatcher bound to the main state 1 returns true
without calling `dispatchEvent` (function 0).  The call is made on the stack of
the main state, where the event table was not pushed: with the number 7 on top
of that stack no Lua function is called at all; with a function on top of it,
that function is called, with `dispatchEvent` and the dispatcher object as its
arguments.  The outcome of the call is left on the stack of the main state; the
stack of state 2 receives a copy of the event table. -/
theorem C25_coroutine_dispatch_does_not_call_dispatchEvent :
    (((coroutineDispatcher [LuaValue.number 7]).2.DispatchEventWithResultIndex
        (coroutineDispatcher [LuaValue.number 7]).1 (some 2) 1).toOption.map
      (fun r => (r.1, r.2.env.luaCalls, r.2.stack 2))) =
      some (true, [(LuaValue.function 9, [])], [LuaValue.table 4, LuaValue.table 4]) ∧
    (((coroutineDispatcher [LuaValue.function 5]).2.DispatchEventWithResultIndex
        (coroutineDispatcher [LuaValue.function 5]).1 (some 2) 1).toOption.map
      (fun r => (r.1, r.2.env.luaCalls, r.2.stack 2, r.2.stack 1))) =
      some (true,
        [(LuaValue.function 9, []),
         (LuaValue.function 5, [LuaValue.function 0, LuaValue.table 3])],
        [LuaValue.table 4, LuaValue.table 4], [LuaValue.boolean true]) := by
  decide

theorem valueAt_positive_append (w w1 : World) (L : lua_State) (j : Int)
    (extra : List LuaValue) (hst : w1.stack L = w.stack L ++ extra)
    (h1 : 1 ≤ j) (h2 : j ≤ ((w.stack L).length : Int)) :
    valueAt w1 L j = (w.stack L).getD (j.toNat - 1) LuaValue.nil := by
  unfold valueAt
  rw [if_pos (by omega), hst]
  exact List.getD_append _ _ _ _ (by omega)

theorem valueAt_relative (w : World) (L : lua_State) (i : Int)
    (hlo : -((w.stack L).length : Int) ≤ i) (hhi : i ≤ -1) (hreg : LUA_REGISTRYINDEX < i) :
    valueAt w L i = (w.stack L).getD (((w.stack L).length : Int) + i).toNat LuaValue.nil := by
  unfold valueAt
  rw [if_neg (by omega), if_pos hreg, if_neg (by omega), if_pos (by omega)]

/-- Claim C24 (index conversion): the conversion written in `AddEventListener`,
`RemoveEventListener` and `DispatchEventWithResult`, on a stack of height `n`.
For a relative index `i` with `-n ≤ i ≤ -1` (above `LUA_REGISTRYINDEX`, as every
relative index is) the converted index is `i + n + 1`, lies in `1..n`, and
denotes the same slot and value as `i`; it still denotes that value after any
values are pushed on top of the stack.  A positive index and a pseudo-index
(`i ≤ LUA_REGISTRYINDEX`) are left unchanged.  The conversion written in
`DispatchEventWithResult` is the same function. -/
theorem C24_relative_index_conversion (w : World) (L : lua_State) (i : Int)
    (hlo : -((w.stack L).length : Int) ≤ i) (hhi : i ≤ -1) (hreg : LUA_REGISTRYINDEX < i) :
    toAbsoluteIndex w L i = i + ((w.stack L).length : Int) + 1 ∧
    1 ≤ toAbsoluteIndex w L i ∧
    toAbsoluteIndex w L i ≤ ((w.stack L).length : Int) ∧
    slotOf w L (toAbsoluteIndex w L i) = slotOf w L i ∧
    valueAt w L (toAbsoluteIndex w L i) = valueAt w L i ∧
    (∀ (w1 : World) (pushed : List LuaValue), w1.stack L = w.stack L ++ pushed →
      valueAt w1 L (toAbsoluteIndex w L i) = valueAt w L i) ∧
    (∀ j : Int, 0 < j ∨ j ≤ LUA_REGISTRYINDEX → toAbsoluteIndex w L j = j) ∧
    (∀ j : Int, (if j < 0 ∧ j > LUA_REGISTRYINDEX then j + (lua_gettop w L + 1) else j) =
      toAbsoluteIndex w L j) := by
  have hconv : toAbsoluteIndex w L i = i + ((w.stack L).length : Int) + 1 := by
    unfold toAbsoluteIndex lua_gettop
    rw [if_pos ⟨by omega, hreg⟩]
    omega
  have hafter : ∀ (w1 : World) (pushed : List LuaValue), w1.stack L = w.stack L ++ pushed →
      valueAt w1 L (toAbsoluteIndex w L i) = valueAt w L i := by
    intro w1 pushed hst
    rw [hconv, valueAt_positive_append w w1 L _ pushed hst (by omega) (by omega),
      valueAt_relative w L i hlo hhi hreg]
    congr 1
    omega
  refine ⟨hconv, by omega, by omega, ?_, ?_, hafter, ?_, fun j => rfl⟩
  · rw [hconv]
    unfold slotOf
    rw [if_pos (by omega), if_neg (by omega)]
    omega
  · exact hafter w [] (by simp)
  · intro j hj
    unfold toAbsoluteIndex
    rw [if_neg]
    intro h
    rcases hj with hj | hj
    · omega
    · exact absurd h.2 (by omega)

/-- Witness for C24: index -2 on a stack of height 3 is converted to 2. -/
theorem C24_relative_index_conversion_witness :
    toAbsoluteIndex
      (World.fresh.setStack 1 [LuaValue.number 1, LuaValue.number 2, LuaValue.number 3]) 1 (-2)
      = -2 + ((3 : Nat) : Int) + 1 ∧
    valueAt
      (World.fresh.setStack 1 [LuaValue.number 1, LuaValue.number 2, LuaValue.number 3]) 1
      (toAbsoluteIndex
        (World.fresh.setStack 1 [LuaValue.number 1, LuaValue.number 2, LuaValue.number 3]) 1
        (-2)) =
    valueAt
      (World.fresh.setStack 1 [LuaValue.number 1, LuaValue.number 2, LuaValue.number 3]) 1
      (-2) :=
  ⟨(C24_relative_index_conversion
      (World.fresh.setStack 1 [LuaValue.number 1, LuaValue.number 2, LuaValue.number 3]) 1 (-2)
      (by decide) (by decide) (by decide)).1,
   (C24_relative_index_conversion
      (World.fresh.setStack 1 [LuaValue.number 1, LuaValue.number 2, LuaValue.number 3]) 1 (-2)
      (by decide) (by decide) (by decide)).2.2.2.2.1⟩

/-- The converted index denotes, after values are pushed on top of the stack, the
value the given index denoted before, for every index that denotes a value. -/
theorem valueAt_toAbsoluteIndex_append (w w1 : World) (L : lua_State) (idx : Int)
    (extra : List LuaValue) (hst : w1.stack L = w.stack L ++ extra)
    (hreg : w1.registry L = w.registry L) (hglob : w1.globals L = w.globals L)
    (hv : valueAt w L idx ≠ LuaValue.nil) :
    valueAt w1 L (toAbsoluteIndex w L idx) = valueAt w L idx := by
  by_cases hpos : 0 < idx
  · have hconv : toAbsoluteIndex w L idx = idx := by
      unfold toAbsoluteIndex
      rw [if_neg (by omega)]
    rw [hconv]
    by_cases hle : idx ≤ ((w.stack L).length : Int)
    · rw [valueAt_positive_append w w1 L idx extra hst (by omega) hle]
      unfold valueAt
      rw [if_pos hpos]
    · exfalso
      apply hv
      unfold valueAt
      rw [if_pos hpos]
      exact List.getD_eq_default _ _ (by omega)
  · by_cases hreg2 : LUA_REGISTRYINDEX < idx
    · by_cases h0 : idx = 0
      · exfalso
        apply hv
        unfold valueAt
        rw [if_neg hpos, if_pos hreg2, if_pos h0]
      · by_cases hlo : -idx ≤ ((w.stack L).length : Int)
        · have hconv : toAbsoluteIndex w L idx = idx + ((w.stack L).length : Int) + 1 := by
            unfold toAbsoluteIndex lua_gettop
            rw [if_pos ⟨by omega, hreg2⟩]
            omega
          rw [hconv, valueAt_positive_append w w1 L _ extra hst (by omega) (by omega),
            valueAt_relative w L idx (by omega) (by omega) hreg2]
          congr 1
          omega
        · exfalso
          apply hv
          unfold valueAt
          rw [if_neg hpos, if_pos hreg2, if_neg h0, if_neg hlo]
    · have hconv : toAbsoluteIndex w L idx = idx := by
        unfold toAbsoluteIndex
        rw [if_neg (fun h => hreg2 h.2)]
      rw [hconv]
      unfold valueAt
      rw [if_neg hpos, if_neg hreg2, if_neg hpos, if_neg hreg2, hreg, hglob]

/-- A protected call with three arguments of a value that is a function enters
that function and its three arguments in the history of calls. -/
theorem luaCalls_CoronaLuaDoCall_three (w : World) (L : lua_State) (st : List LuaValue)
    (fn a b c : LuaValue) (nresults : Nat)
    (hfn : (∃ ref, fn = LuaValue.function ref) ∨
      (∃ name upvalue, fn = LuaValue.cfunction name upvalue))
    (hst : w.stack L = st ++ [fn, a, b, c]) :
    (CoronaLuaDoCall w L 3 nresults).1.env.luaCalls = w.env.luaCalls ++ [(fn, [a, b, c])] := by
  have hbase : (w.stack L).length - (3 + 1) = st.length := by
    rw [hst]; simp
  have hcallee : (w.stack L).getD st.length LuaValue.nil = fn := by
    rw [hst]; exact getD_length_append st fn [a, b, c] LuaValue.nil
  have hargs : (w.stack L).drop (st.length + 1) = [a, b, c] := by
    rw [hst]
    have : st ++ [fn, a, b, c] = (st ++ [fn]) ++ [a, b, c] := by simp
    rw [this, List.drop_left']
    simp
  unfold CoronaLuaDoCall
  simp only [hbase, hcallee, hargs]
  rcases hfn with ⟨ref, rfl⟩ | ⟨name, upvalue, rfl⟩
  · simp only [if_true]
    split <;> rfl
  · simp only [if_true]
    split <;> rfl

theorem registry_lua_insert (w : World) (L : lua_State) (idx : Int) :
    (lua_insert w L idx).registry = w.registry := by
  unfold lua_insert
  simp only
  split <;> rfl

theorem globals_lua_insert (w : World) (L : lua_State) (idx : Int) :
    (lua_insert w L idx).globals = w.globals := by
  unfold lua_insert
  simp only
  split <;> rfl

theorem callListenerMethod_refused (d : LuaEventDispatcher) (method : String) (w : World)
    (luaStatePointer : Option lua_State) (eventName : Option String) (idx : Int)
    (h : luaStatePointer = none ∨ eventName = none ∨ idx = 0 ∨
      ∃ L name, luaStatePointer = some L ∧ eventName = some name ∧
        CoronaLuaIsListener w L idx name = false) :
    d.callListenerMethod method w luaStatePointer eventName idx = (false, w) := by
  unfold LuaEventDispatcher.callListenerMethod
  cases luaStatePointer with
  | none => rfl
  | some L =>
    cases eventName with
    | none => rfl
    | some name =>
      simp only
      by_cases h0 : idx = 0
      · rw [if_pos h0]
      · rw [if_neg h0]
        by_cases hn : LUA_NOREF = d.fLuaRegistryReferenceId
        · rw [if_pos hn]
        · rw [if_neg hn]
          rcases h with h | h | h | ⟨L1, name1, hL, hname, hl⟩
          · exact absurd h (by simp)
          · exact absurd h (by simp)
          · exact absurd h h0
          · injection hL with hL
            injection hname with hname
            subst hL
            subst hname
            rw [if_pos (by rw [hl]; simp)]

theorem callListenerMethod_called (d : LuaEventDispatcher) (method : String) (w : World)
    (luaStatePointer : Option lua_State) (eventName : Option String) (idx : Int)
    (h : (d.callListenerMethod method w luaStatePointer eventName idx).1 = true) :
    ∃ L name ref, luaStatePointer = some L ∧ eventName = some name ∧ idx ≠ 0 ∧
      CoronaLuaIsListener w L idx name = true ∧
      fieldOf w (valueAt w L LUA_REGISTRYINDEX) (LuaValue.number d.fLuaRegistryReferenceId)
        = LuaValue.table ref ∧
      (d.callListenerMethod method w luaStatePointer eventName idx).2.env.luaCalls =
        w.env.luaCalls ++
          [(fieldOf w (LuaValue.table ref) (LuaValue.string method),
            [LuaValue.table ref, LuaValue.string name, valueAt w L idx])] := by
  unfold LuaEventDispatcher.callListenerMethod at h ⊢
  cases luaStatePointer with
  | none => exact absurd h (by simp)
  | some L =>
    cases eventName with
    | none => exact absurd h (by simp)
    | some name =>
      simp only at h ⊢
      by_cases h0 : idx = 0
      · rw [if_pos h0] at h; exact absurd h (by simp)
      rw [if_neg h0] at h ⊢
      by_cases hn : LUA_NOREF = d.fLuaRegistryReferenceId
      · rw [if_pos hn] at h; exact absurd h (by simp)
      rw [if_neg hn] at h ⊢
      by_cases hl : CoronaLuaIsListener w L idx name = true
      swap
      · rw [if_pos hl] at h; exact absurd h (by simp)
      rw [if_neg (not_not.mpr hl)] at h ⊢
      by_cases ht : lua_istable (lua_rawgeti w L LUA_REGISTRYINDEX d.fLuaRegistryReferenceId)
          L (-1) = true
      swap
      · rw [if_pos ht] at h; exact absurd h (by simp)
      rw [if_neg (not_not.mpr ht)] at h ⊢
      by_cases hf : lua_isfunction (lua_getfield (lua_rawgeti w L LUA_REGISTRYINDEX
          d.fLuaRegistryReferenceId) L (-1) method) L (-1) = true
      swap
      · rw [if_pos hf] at h; exact absurd h (by simp)
      rw [if_neg (not_not.mpr hf)]
      -- the dispatcher object pushed by lua_rawgeti
      have hst1 : (lua_rawgeti w L LUA_REGISTRYINDEX d.fLuaRegistryReferenceId).stack L
          = w.stack L ++ [fieldOf w (valueAt w L LUA_REGISTRYINDEX)
              (LuaValue.number d.fLuaRegistryReferenceId)] := by simp
      have hv1 := valueAt_neg_one _ L _ _ hst1
      obtain ⟨ref, href⟩ : ∃ ref, fieldOf w (valueAt w L LUA_REGISTRYINDEX)
          (LuaValue.number d.fLuaRegistryReferenceId) = LuaValue.table ref := by
        unfold lua_istable at ht
        rw [hv1] at ht
        cases hx : fieldOf w (valueAt w L LUA_REGISTRYINDEX)
            (LuaValue.number d.fLuaRegistryReferenceId) with
        | table r => exact ⟨r, rfl⟩
        | _ => rw [hx] at ht; simp at ht
      rw [href] at hst1 hv1
      -- the method pushed by lua_getfield
      have hst2 : (lua_getfield (lua_rawgeti w L LUA_REGISTRYINDEX d.fLuaRegistryReferenceId)
          L (-1) method).stack L = w.stack L ++
            [LuaValue.table ref, fieldOf w (LuaValue.table ref) (LuaValue.string method)] := by
        rw [stack_lua_getfield, if_pos rfl, hst1, hv1]
        simp
        rfl
      have hv2 := valueAt_neg_one _ L (w.stack L ++ [LuaValue.table ref])
        (fieldOf w (LuaValue.table ref) (LuaValue.string method)) (by rw [hst2]; simp)
      have hfn : (∃ r, fieldOf w (LuaValue.table ref) (LuaValue.string method)
            = LuaValue.function r) ∨
          (∃ n u, fieldOf w (LuaValue.table ref) (LuaValue.string method)
            = LuaValue.cfunction n u) := by
        unfold lua_isfunction at hf
        rw [hv2] at hf
        cases hx : fieldOf w (LuaValue.table ref) (LuaValue.string method) with
        | function r => exact Or.inl ⟨r, rfl⟩
        | cfunction n u => exact Or.inr ⟨n, u, rfl⟩
        | _ => rw [hx] at hf; simp at hf
      have hst3 := stack_lua_insert_two _ L L _ _ _ hst2
      rw [if_pos rfl] at hst3
      have hst4 : (lua_pushstring (lua_insert (lua_getfield (lua_rawgeti w L
          LUA_REGISTRYINDEX d.fLuaRegistryReferenceId) L (-1) method) L (-2)) L name).stack L
          = w.stack L ++ [fieldOf w (LuaValue.table ref) (LuaValue.string method),
              LuaValue.table ref, LuaValue.string name] := by
        rw [stack_lua_pushstring, if_pos rfl, hst3]
        simp
      have hnil : valueAt w L idx ≠ LuaValue.nil := by
        intro hx
        unfold CoronaLuaIsListener at hl
        rw [hx] at hl
        simp at hl
      have hreg4 : (lua_pushstring (lua_insert (lua_getfield (lua_rawgeti w L
          LUA_REGISTRYINDEX d.fLuaRegistryReferenceId) L (-1) method) L (-2)) L name).registry L
          = w.registry L := by
        show (lua_insert _ L (-2)).registry L = _
        rw [registry_lua_insert]
        rfl
      have hglob4 : (lua_pushstring (lua_insert (lua_getfield (lua_rawgeti w L
          LUA_REGISTRYINDEX d.fLuaRegistryReferenceId) L (-1) method) L (-2)) L name).globals L
          = w.globals L := by
        show (lua_insert _ L (-2)).globals L = _
        rw [globals_lua_insert]
        rfl
      have hv4 := valueAt_toAbsoluteIndex_append w _ L idx _ hst4 hreg4 hglob4 hnil
      have hst5 : (lua_pushvalue (lua_pushstring (lua_insert (lua_getfield (lua_rawgeti w L
          LUA_REGISTRYINDEX d.fLuaRegistryReferenceId) L (-1) method) L (-2)) L name) L
          (toAbsoluteIndex w L idx)).stack L
          = w.stack L ++ [fieldOf w (LuaValue.table ref) (LuaValue.string method),
              LuaValue.table ref, LuaValue.string name, valueAt w L idx] := by
        rw [stack_lua_pushvalue, if_pos rfl, hst4, hv4]
        simp
      refine ⟨L, name, ref, rfl, rfl, h0, hl, href, ?_⟩
      rw [luaCalls_CoronaLuaDoCall_three _ L _ _ _ _ _ 0 hfn hst5]
      simp

/-- Claim C20 (the listener methods fail closed): `AddEventListener` and
`RemoveEventListener` return false and leave the world exactly as it was (no
Lua function called, every stack as before) whenever the state is null, the
event name is null, the index is 0, or the value at the index is not a listener
for the event.  When one of them returns true, the state and the name are not
null, the index is not 0 and denotes a listener, the registry entry of the
dispatcher is a table, and exactly one Lua function has been called: the
`addEventListener`, respectively `removeEventListener`, field of that table,
with the dispatcher table, the event name and the listener as its arguments. -/
theorem C20_listener_methods_fail_closed (d : LuaEventDispatcher) (w : World)
    (luaStatePointer : Option lua_State) (eventName : Option String) (idx : Int) :
    ((luaStatePointer = none ∨ eventName = none ∨ idx = 0 ∨
        ∃ L name, luaStatePointer = some L ∧ eventName = some name ∧
          CoronaLuaIsListener w L idx name = false) →
      d.AddEventListener w luaStatePointer eventName idx = (false, w) ∧
      d.RemoveEventListener w luaStatePointer eventName idx = (false, w)) ∧
    ((d.AddEventListener w luaStatePointer eventName idx).1 = true →
      ∃ L name ref, luaStatePointer = some L ∧ eventName = some name ∧ idx ≠ 0 ∧
        CoronaLuaIsListener w L idx name = true ∧
        fieldOf w (valueAt w L LUA_REGISTRYINDEX) (LuaValue.number d.fLuaRegistryReferenceId)
          = LuaValue.table ref ∧
        (d.AddEventListener w luaStatePointer eventName idx).2.env.luaCalls =
          w.env.luaCalls ++
            [(fieldOf w (LuaValue.table ref) (LuaValue.string "addEventListener"),
              [LuaValue.table ref, LuaValue.string name, valueAt w L idx])]) ∧
    ((d.RemoveEventListener w luaStatePointer eventName idx).1 = true →
      ∃ L name ref, luaStatePointer = some L ∧ eventName = some name ∧ idx ≠ 0 ∧
        CoronaLuaIsListener w L idx name = true ∧
        fieldOf w (valueAt w L LUA_REGISTRYINDEX) (LuaValue.number d.fLuaRegistryReferenceId)
          = LuaValue.table ref ∧
        (d.RemoveEventListener w luaStatePointer eventName idx).2.env.luaCalls =
          w.env.luaCalls ++
            [(fieldOf w (LuaValue.table ref) (LuaValue.string "removeEventListener"),
              [LuaValue.table ref, LuaValue.string name, valueAt w L idx])]) :=
  ⟨fun h => ⟨callListenerMethod_refused d "addEventListener" w luaStatePointer eventName idx h,
      callListenerMethod_refused d "removeEventListener" w luaStatePointer eventName idx h⟩,
   fun h => callListenerMethod_called d "addEventListener" w luaStatePointer eventName idx h,
   fun h => callListenerMethod_called d "removeEventListener" w luaStatePointer eventName idx h⟩

/-- Witness for C20: on the dispatcher of `World.withDispatcher`, a call with a
listener function at index 2 returns true, and a call with index 0 returns
false and leaves the world as it was. -/
theorem C20_listener_methods_fail_closed_witness :
    (sampleDispatcher.AddEventListener
      ((World.withDispatcher []).setStack 1 [LuaValue.string "authResponse", LuaValue.function 7])
      (some 1) (some "authResponse") 2).1 = true ∧
    (∃ L name ref, some 1 = some L ∧ some "authResponse" = some name ∧ (2 : Int) ≠ 0 ∧
      CoronaLuaIsListener
        ((World.withDispatcher []).setStack 1
          [LuaValue.string "authResponse", LuaValue.function 7]) L 2 name = true ∧
      fieldOf
        ((World.withDispatcher []).setStack 1
          [LuaValue.string "authResponse", LuaValue.function 7])
        (valueAt ((World.withDispatcher []).setStack 1
          [LuaValue.string "authResponse", LuaValue.function 7]) L LUA_REGISTRYINDEX)
        (LuaValue.number sampleDispatcher.fLuaRegistryReferenceId) = LuaValue.table ref ∧
      (sampleDispatcher.AddEventListener
        ((World.withDispatcher []).setStack 1
          [LuaValue.string "authResponse", LuaValue.function 7])
        (some 1) (some "authResponse") 2).2.env.luaCalls =
        ((World.withDispatcher []).setStack 1
          [LuaValue.string "authResponse", LuaValue.function 7]).env.luaCalls ++
          [(fieldOf ((World.withDispatcher []).setStack 1
              [LuaValue.string "authResponse", LuaValue.function 7])
              (LuaValue.table ref) (LuaValue.string "addEventListener"),
            [LuaValue.table ref, LuaValue.string name,
             valueAt ((World.withDispatcher []).setStack 1
               [LuaValue.string "authResponse", LuaValue.function 7]) L 2])]) ∧
    sampleDispatcher.AddEventListener
      ((World.withDispatcher []).setStack 1 [LuaValue.string "authResponse", LuaValue.function 7])
      (some 1) (some "authResponse") 0 =
      (false, (World.withDispatcher []).setStack 1
        [LuaValue.string "authResponse", LuaValue.function 7]) :=
  ⟨by decide,
   (C20_listener_methods_fail_closed sampleDispatcher
      ((World.withDispatcher []).setStack 1 [LuaValue.string "authResponse", LuaValue.function 7])
      (some 1) (some "authResponse") 2).2.1 (by decide),
   ((C20_listener_methods_fail_closed sampleDispatcher
      ((World.withDispatcher []).setStack 1 [LuaValue.string "authResponse", LuaValue.function 7])
      (some 1) (some "authResponse") 0).1 (Or.inr (Or.inr (Or.inl rfl)))).1⟩

/-- The listener methods evaluated: with a relative index the listener passed to
`removeEventListener` is the value the index denoted before the call, and the
stack is as it was after the call. -/
theorem listener_methods_evaluated :
    (sampleDispatcher.RemoveEventListener
      ((World.withDispatcher []).setStack 1 [LuaValue.function 7, LuaValue.number 3])
      (some 1) (some "authResponse") (-2)).1 = true ∧
    (sampleDispatcher.RemoveEventListener
      ((World.withDispatcher []).setStack 1 [LuaValue.function 7, LuaValue.number 3])
      (some 1) (some "authResponse") (-2)).2.env.luaCalls =
      [(LuaValue.function 2,
        [LuaValue.table 2, LuaValue.string "authResponse", LuaValue.function 7])] ∧
    (sampleDispatcher.RemoveEventListener
      ((World.withDispatcher []).setStack 1 [LuaValue.function 7, LuaValue.number 3])
      (some 1) (some "authResponse") (-2)).2.stack 1 =
      [LuaValue.function 7, LuaValue.number 3] := by
  decide

/-- Claim C26 (null frame tick): `OnCoronaEnterFrame` called with a null state
returns 0 together with the context and the world it was given: the SDK pump is
not run, no task is dequeued and none is executed, so the queue is exactly as
before. -/
theorem C26_null_frame_tick_is_a_no_op (fuel : Nat) (ctx : RuntimeContext) (w : World) :
    ctx.OnCoronaEnterFrame fuel none w = Except.ok (0, ctx, w) ∧
    ∃ ctx1 w1, ctx.OnCoronaEnterFrame fuel none w = Except.ok (0, ctx1, w1) ∧
      ctx1.fDispatchEventTaskQueue = ctx.fDispatchEventTaskQueue ∧
      w1.env.sdk.calls = w.env.sdk.calls ∧
      w1.env.executed = w.env.executed :=
  ⟨rfl, ctx, w, rfl, rfl, rfl, rfl⟩

/-- A frame tick with a null state evaluated next to one with a state, on a
context with two queued tasks: the first leaves the queue and calls nothing,
the second runs the pump and executes both tasks. -/
theorem null_frame_tick_evaluated :
    ((({ sampleContext with
          fDispatchEventTaskQueue :=
            [some (sampleContext.taskFor true), some (sampleContext.taskFor false)] } :
        RuntimeContext).OnCoronaEnterFrame 5 none (World.withDispatcher [])).toOption.map
      (fun r => (r.1, r.2.1.fDispatchEventTaskQueue.length, r.2.2.env.sdk.calls,
        r.2.2.env.executed.length))) = some (0, 2, [], 0) ∧
    ((({ sampleContext with
          fDispatchEventTaskQueue :=
            [some (sampleContext.taskFor true), some (sampleContext.taskFor false)] } :
        RuntimeContext).OnCoronaEnterFrame 5 (some 1) (World.withDispatcher [])).toOption.map
      (fun r => (r.1, r.2.1.fDispatchEventTaskQueue.length, r.2.2.env.sdk.calls,
        r.2.2.env.executed.length))) = some (0, 0, [SdkCall.ProcessData], 2) := by
  decide

/-- Claim C27 (the auth listener enqueues nothing): a callback of
`g_GOGAuthListener` (`OnAuthSuccess`, `OnAuthFailure`, `OnAuthLost`) leaves
every live context, hence every queue, as it was, raises no `OnAuthResponse`
callback and executes no task; so does the SDK pump that delivers the
notifications to the listener.  Hence a frame tick on a context with an empty
queue, with no callback raised by other native code, executes no task and
leaves the queue empty, whatever auth notifications are waiting in the SDK. -/
theorem C27_auth_listener_enqueues_nothing (p : Process) (n : AuthNotification) :
    (GOGAuthListener.callback p n).objects = p.objects ∧
    (GOGAuthListener.callback p n).sRuntimeContextCollection = p.sRuntimeContextCollection ∧
    (GOGAuthListener.callback p n).world.env.raised = p.world.env.raised ∧
    (GOGAuthListener.callback p n).world.env.script = p.world.env.script ∧
    (GOGAuthListener.callback p n).world.env.executed = p.world.env.executed ∧
    (galaxy.api.ProcessData p.world).env.raised = p.world.env.raised ∧
    (galaxy.api.ProcessData p.world).env.script = p.world.env.script ∧
    (galaxy.api.ProcessData p.world).env.executed = p.world.env.executed ∧
    (∀ (fuel : Nat) (ctx : RuntimeContext) (L : lua_State),
      ctx.fDispatchEventTaskQueue = [] → p.world.env.raised = [] →
      ∃ w1, ctx.OnCoronaEnterFrame fuel (some L) p.world = Except.ok (0, ctx, w1) ∧
        w1.env.executed = p.world.env.executed ∧
        w1.env.luaCalls = p.world.env.luaCalls) := by
  refine ⟨rfl, rfl, rfl, rfl, rfl, rfl, rfl, rfl, ?_⟩
  intro fuel ctx L hq hr
  have hr1 : (galaxy.api.ProcessData p.world).env.raised = [] := hr
  have hd : ctx.deliverRaised (galaxy.api.ProcessData p.world)
      = (ctx, (galaxy.api.ProcessData p.world).clearRaised) := by
    unfold RuntimeContext.deliverRaised
    rw [hr1]
    rfl
  have hdrain : RuntimeContext.drain fuel ctx (galaxy.api.ProcessData p.world).clearRaised
      = Except.ok (ctx, (galaxy.api.ProcessData p.world).clearRaised) := by
    unfold RuntimeContext.drain
    rw [hq]
  refine ⟨(galaxy.api.ProcessData p.world).clearRaised, ?_, rfl, rfl⟩
  unfold RuntimeContext.OnCoronaEnterFrame
  simp only [hd, hdrain]

/-- Witness for C27: three auth notifications wait in the SDK with the listener
registered; the frame tick on a context with an empty queue delivers them to the
listener and executes no task. -/
theorem C27_auth_listener_enqueues_nothing_witness :
    ∃ w1, sampleContext.OnCoronaEnterFrame 5 (some 1)
        (Process.initial
          { World.withDispatcher [] with
            env := { (World.withDispatcher []).env with
              sdk := { (World.withDispatcher []).env.sdk with
                authListener := true,
                authNotifications := [AuthNotification.success, AuthNotification.failure,
                  AuthNotification.lost] } } }).world = Except.ok (0, sampleContext, w1) ∧
      w1.env.executed = [] ∧ w1.env.luaCalls = [] :=
  (C27_auth_listener_enqueues_nothing
      (Process.initial
        { World.withDispatcher [] with
          env := { (World.withDispatcher []).env with
            sdk := { (World.withDispatcher []).env.sdk with
              authListener := true,
              authNotifications := [AuthNotification.success, AuthNotification.failure,
                AuthNotification.lost] } } })
      AuthNotification.success).2.2.2.2.2.2.2.2 5 sampleContext 1 rfl rfl

set_option maxRecDepth 100000 in
/-- Counterexample to claim C23 as stated: the user is signed in, argument 1 is
the string "ACH_WIN" and the SDK reports an error from `SetAchievement`; the
error is logged as a warning and `OnSetAchievementUnlocked` returns 1 value,
the boolean true. -/
theorem C23_true_is_returned_when_the_sdk_reports_an_error :
    galaxy.api.GetError (galaxy.api.Stats.SetAchievement
        (World.unlocking (LuaValue.string "ACH_WIN") true failingSetAchievement) "ACH_WIN")
      = some ("InvalidArgument", "unknown achievement") ∧
    ((OnSetAchievementUnlocked
        (World.unlocking (LuaValue.string "ACH_WIN") true failingSetAchievement)
        (some 1)).toOption.map
      (fun r => (r.1, r.2.stack 1, r.2.env.diagnostics))) =
      some (1, [LuaValue.string "ACH_WIN", LuaValue.boolean true],
        ["[GOG ERROR] InvalidArgument: unknown achievement"]) := by
  decide

theorem GetError_record (w : World) (c : SdkCall) (sdk : GalaxySdk)
    (h : sdk = w.env.sdk.record c) :
    galaxy.api.GetError { w with env := { w.env with sdk := sdk } } = w.env.sdk.errorAfter c := by
  unfold galaxy.api.GetError
  rw [h]
  simp [GalaxySdk.record]

theorem warnOnGalaxyError_after (w : World) (c : SdkCall) :
    (warnOnGalaxyError { w with env := { w.env with sdk := w.env.sdk.record c } }).env.diagnostics
      = w.env.diagnostics ++ galaxyWarningsAfter w c ∧
    (warnOnGalaxyError { w with env := { w.env with sdk := w.env.sdk.record c } }).env.sdk
      = w.env.sdk.record c ∧
    (warnOnGalaxyError { w with env := { w.env with sdk := w.env.sdk.record c } }).stack
      = w.stack := by
  unfold warnOnGalaxyError galaxyWarningsAfter
  rw [GetError_record w c _ rfl]
  cases w.env.sdk.errorAfter c with
  | none => simp
  | some e => simp [CoronaLuaWarning]

theorem warn_after_SetAchievement (w : World) (name : String) :
    (warnOnGalaxyError (galaxy.api.Stats.SetAchievement w name)).env.diagnostics
      = w.env.diagnostics ++ galaxyWarningsAfter w (SdkCall.SetAchievement name) ∧
    (warnOnGalaxyError (galaxy.api.Stats.SetAchievement w name)).env.sdk
      = w.env.sdk.record (SdkCall.SetAchievement name) ∧
    (warnOnGalaxyError (galaxy.api.Stats.SetAchievement w name)).stack = w.stack :=
  warnOnGalaxyError_after w (SdkCall.SetAchievement name)

theorem warn_after_StoreStatsAndAchievements (w : World) :
    (warnOnGalaxyError (galaxy.api.Stats.StoreStatsAndAchievements w)).env.diagnostics
      = w.env.diagnostics ++ galaxyWarningsAfter w SdkCall.StoreStatsAndAchievements ∧
    (warnOnGalaxyError (galaxy.api.Stats.StoreStatsAndAchievements w)).env.sdk
      = w.env.sdk.record SdkCall.StoreStatsAndAchievements ∧
    (warnOnGalaxyError (galaxy.api.Stats.StoreStatsAndAchievements w)).stack = w.stack :=
  warnOnGalaxyError_after w SdkCall.StoreStatsAndAchievements

/-- Claim C23, amended (results of `gog.setAchievementUnlocked`): on a non-null
state `OnSetAchievementUnlocked` always returns 1 value.  It is false when the
user is not signed in, and false, with a usage error reported, when argument 1 is
not a string.  Otherwise `SetAchievement`, with the C string of argument 1, and
`StoreStatsAndAchievements` are called in this order, an error the SDK reports after either call is logged
as a warning and not raised, and the value is true whether or not an error was
reported. -/
theorem C23_setAchievementUnlocked_results (w : World) (L : lua_State) :
    (galaxy.api.User.SignedIn w = false →
      OnSetAchievementUnlocked w (some L) = Except.ok (1, lua_pushboolean w L 0) ∧
      (lua_pushboolean w L 0).stack L = w.stack L ++ [LuaValue.boolean false] ∧
      (lua_pushboolean w L 0).env = w.env) ∧
    (galaxy.api.User.SignedIn w = true → (∀ s, valueAt w L 1 ≠ LuaValue.string s) →
      ∃ w1, OnSetAchievementUnlocked w (some L) = Except.ok (1, w1) ∧
        w1.stack L = w.stack L ++ [LuaValue.boolean false] ∧
        w1.env.sdk = w.env.sdk ∧
        w1.env.diagnostics = w.env.diagnostics ++
          ["ERROR: 1st argument must be set to the achievement's unique name."]) ∧
    (galaxy.api.User.SignedIn w = true →
      ∀ name, valueAt w L 1 = LuaValue.string name →
      ∃ w1, OnSetAchievementUnlocked w (some L) = Except.ok (1, w1) ∧
        w1.stack L = w.stack L ++ [LuaValue.boolean true] ∧
        w1.env.sdk.calls = w.env.sdk.calls ++
          [SdkCall.SetAchievement (cString name), SdkCall.StoreStatsAndAchievements] ∧
        w1.env.diagnostics = w.env.diagnostics ++
          galaxyWarningsAfter w (SdkCall.SetAchievement (cString name)) ++
          galaxyWarningsAfter w SdkCall.StoreStatsAndAchievements) := by
  refine ⟨?_, ?_, ?_⟩
  · intro hs
    refine ⟨?_, by simp [lua_pushboolean], rfl⟩
    unfold OnSetAchievementUnlocked
    simp only
    rw [if_pos (by rw [hs]; simp)]
  · intro hs hv
    have h1 : lua_isstringtype w L 1 = false := by
      unfold lua_isstringtype
      cases hx : valueAt w L 1 with
      | string s => exact absurd hx (hv s)
      | _ => rfl
    refine ⟨lua_pushboolean
      (CoronaLuaError w "1st argument must be set to the achievement's unique name.") L 0,
      ?_, ?_, rfl, rfl⟩
    · unfold OnSetAchievementUnlocked
      simp only
      rw [if_neg (by rw [hs]; simp), h1]
      rfl
    · rw [stack_lua_pushboolean, if_pos rfl]
      simp [CoronaLuaError]
  · intro hs name hv
    have h1 : lua_isstringtype w L 1 = true := by simp [lua_isstringtype, hv]
    have h2 : lua_tostring w L 1 = some (cString name) := by simp [lua_tostring, hv]
    obtain ⟨hd1, hsdk1, hst1⟩ := warn_after_SetAchievement w (cString name)
    obtain ⟨hd2, hsdk2, hst2⟩ := warn_after_StoreStatsAndAchievements
      (warnOnGalaxyError (galaxy.api.Stats.SetAchievement w (cString name)))
    have e2 : galaxyWarningsAfter (warnOnGalaxyError (galaxy.api.Stats.SetAchievement w (cString name)))
        SdkCall.StoreStatsAndAchievements
        = galaxyWarningsAfter w SdkCall.StoreStatsAndAchievements := by
      unfold galaxyWarningsAfter
      rw [hsdk1]
      rfl
    refine ⟨lua_pushboolean (warnOnGalaxyError (galaxy.api.Stats.StoreStatsAndAchievements
      (warnOnGalaxyError (galaxy.api.Stats.SetAchievement w (cString name))))) L 1, ?_, ?_, ?_, ?_⟩
    · unfold OnSetAchievementUnlocked
      simp only
      rw [if_neg (by rw [hs]; simp), h1, if_pos rfl, h2]
    · rw [stack_lua_pushboolean, if_pos rfl, hst2, hst1]
      simp
    · show (warnOnGalaxyError (galaxy.api.Stats.StoreStatsAndAchievements
          (warnOnGalaxyError (galaxy.api.Stats.SetAchievement w (cString name))))).env.sdk.calls = _
      rw [hsdk2, hsdk1]
      simp [GalaxySdk.record]
    · show (warnOnGalaxyError (galaxy.api.Stats.StoreStatsAndAchievements
          (warnOnGalaxyError (galaxy.api.Stats.SetAchievement w (cString name))))).env.diagnostics = _
      rw [hd2, hd1, e2]

/-- Witness for the amended C23: the user is signed in, argument 1 is the string
"ACH_WIN" and the SDK reports an error from `SetAchievement`. -/
theorem C23_setAchievementUnlocked_results_witness :
    ∃ w1, OnSetAchievementUnlocked
        (World.unlocking (LuaValue.string "ACH_WIN") true failingSetAchievement) (some 1)
        = Except.ok (1, w1) ∧
      w1.stack 1 =
        (World.unlocking (LuaValue.string "ACH_WIN") true failingSetAchievement).stack 1 ++
          [LuaValue.boolean true] ∧
      w1.env.sdk.calls =
        (World.unlocking (LuaValue.string "ACH_WIN") true failingSetAchievement).env.sdk.calls ++
          [SdkCall.SetAchievement (cString "ACH_WIN"), SdkCall.StoreStatsAndAchievements] :=
  ((C23_setAchievementUnlocked_results
      (World.unlocking (LuaValue.string "ACH_WIN") true failingSetAchievement) 1).2.2
      rfl "ACH_WIN" (by decide)).elim
    (fun w1 h => ⟨w1, h.1, h.2.1, h.2.2.1⟩)

theorem find?_of_unique (l : List Nat) (pred : Nat → Bool) (a : Nat) (ha : a ∈ l)
    (hp : pred a = true) (hu : ∀ b ∈ l, pred b = true → b = a) : l.find? pred = some a := by
  induction l with
  | nil => simp at ha
  | cons x xs ih =>
    by_cases hx : pred x = true
    · have : x = a := hu x (List.mem_cons_self _ _) hx
      rw [List.find?_cons, hx, this]
    · have hxa : a ≠ x := fun e => hx (e ▸ hp)
      have hx2 : pred x = false := by simpa using hx
      rw [List.find?_cons, hx2]
      exact ih (List.mem_of_ne_of_mem hxa ha) (fun b hb => hu b (List.mem_cons_of_mem _ hb))

theorem lookup_append_of_not_mem (l : List (Nat × RuntimeContext)) (a : Nat)
    (o : RuntimeContext) (h : a ∉ l.map Prod.fst) : (l ++ [(a, o)]).lookup a = some o := by
  induction l with
  | nil => simp [List.lookup]
  | cons y ys ih =>
    obtain ⟨k, u⟩ := y
    have hk : (a == k) = false := by
      simpa using fun e : a = k => h (by simp [e])
    rw [List.cons_append, List.lookup_cons]
    simp only [hk]
    exact ih (fun hm => h (by simp at hm ⊢; exact Or.inr hm))

theorem resolveMainState_idempotent (w : World) (hroots : w.MainStatesAreRoots)
    (L : lua_State) : resolveMainState w (resolveMainState w L) = resolveMainState w L := by
  cases hc : w.coronaThread L with
  | none =>
    have : resolveMainState w L = L := by
      unfold resolveMainState CoronaLuaGetCoronaThread
      rw [hc]
    rw [this, this]
  | some M =>
    by_cases hM : M = L
    · have : resolveMainState w L = L := by
        unfold resolveMainState CoronaLuaGetCoronaThread
        rw [hc]
        simp [hM]
      rw [this, this]
    · have : resolveMainState w L = M := by
        unfold resolveMainState CoronaLuaGetCoronaThread
        rw [hc]
        simp [hM]
      rw [this]
      exact hroots L M hc

set_option maxRecDepth 100000 in
/-- Counterexample to claim C21 as stated: after two plugin loads for the same
Lua state 1, the contexts at the addresses 1 and 2 are both in the instance
collection and both have state 1, the root of state 1, as their main state.
`GetInstanceBy` of state 1 returns one address, so whatever order the set is
iterated in, one of the two contexts is not the one returned: context 2 when the
loop visits 1 first, context 1 when it visits 2 first. -/
theorem C21_GetInstanceBy_returns_one_of_two_contexts :
    Process.loadedTwice.sRuntimeContextCollection = [1, 2] ∧
    (Process.loadedTwice.objects.lookup 1).map RuntimeContext.GetMainLuaState
      = some (some 1) ∧
    (Process.loadedTwice.objects.lookup 2).map RuntimeContext.GetMainLuaState
      = some (some 1) ∧
    resolveMainState Process.loadedTwice.world 1 = 1 ∧
    RuntimeContext.GetInstanceBy Process.loadedTwice [1, 2] (some 1) = some 1 ∧
    RuntimeContext.GetInstanceBy Process.loadedTwice [2, 1] (some 1) = some 2 ∧
    (∀ iteration : List Nat,
      RuntimeContext.GetInstanceBy Process.loadedTwice iteration (some 1) ≠ some 1 ∨
      RuntimeContext.GetInstanceBy Process.loadedTwice iteration (some 1) ≠ some 2) := by
  have hroot : resolveMainState Process.loadedTwice.world 1 = 1 := by decide
  refine ⟨by decide, by decide, by decide, hroot, ?_, ?_, ?_⟩
  · unfold RuntimeContext.GetInstanceBy
    simp only [hroot]
    decide
  · unfold RuntimeContext.GetInstanceBy
    simp only [hroot]
    decide
  · intro iteration
    generalize RuntimeContext.GetInstanceBy Process.loadedTwice iteration (some 1) = result
    by_cases h : result = some 1
    · right
      rw [h]
      decide
    · left
      exact h

/-- Claim C21, amended (root resolution): in a consistent process,
(1) a context constructed from a Lua state `L` at a free address is bound, for
good, to the main state of the main state of `L`; in a runtime where the Corona
thread of every state is a root this is the root of `L` and is itself a root,
not a coroutine state;
(2) whatever order the collection is iterated in, when a context of the
collection has the root of `L1` as its main state, `GetInstanceBy(L1)` returns a
context, and every context it returns is in the collection and has the root of
`L1` as its main state;
(3) it returns the given context when that is the only context of the collection
with this main state;
(4) `GetInstanceBy` returns null for a null state and for a state whose root is
the main state of no context of the collection. -/
theorem C21_root_resolution (p : Process) (hwf : p.WellFormed) :
    (∀ (this : Nat) (L : lua_State) (p2 : Process),
      RuntimeContext.construct p this (some L) = some p2 → this ∉ p.liveAddresses →
      ∃ object, p2.objects.lookup this = some object ∧
        object.GetMainLuaState = some (boundMainState p.world L) ∧
        (p.world.MainStatesAreRoots →
          object.GetMainLuaState = some (resolveMainState p.world L) ∧
          resolveMainState p.world (resolveMainState p.world L) = resolveMainState p.world L)) ∧
    (∀ (iteration : List Nat) (a : Nat) (object : RuntimeContext) (L1 : lua_State),
      iteration.Perm p.sRuntimeContextCollection →
      a ∈ p.sRuntimeContextCollection → p.objects.lookup a = some object →
      object.GetMainLuaState = some (resolveMainState p.world L1) →
      ∃ b, RuntimeContext.GetInstanceBy p iteration (some L1) = some b) ∧
    (∀ (iteration : List Nat) (L1 : lua_State) (b : Nat),
      iteration.Perm p.sRuntimeContextCollection →
      RuntimeContext.GetInstanceBy p iteration (some L1) = some b →
      b ∈ p.sRuntimeContextCollection ∧
      ∃ o, p.objects.lookup b = some o ∧
        o.GetMainLuaState = some (resolveMainState p.world L1)) ∧
    (∀ (iteration : List Nat) (a : Nat) (object : RuntimeContext) (L1 : lua_State),
      iteration.Perm p.sRuntimeContextCollection →
      a ∈ p.sRuntimeContextCollection → p.objects.lookup a = some object →
      object.GetMainLuaState = some (resolveMainState p.world L1) →
      (∀ (b : Nat) (o : RuntimeContext), b ∈ p.sRuntimeContextCollection →
        p.objects.lookup b = some o →
        o.GetMainLuaState = some (resolveMainState p.world L1) → b = a) →
      RuntimeContext.GetInstanceBy p iteration (some L1) = some a) ∧
    (∀ iteration : List Nat, RuntimeContext.GetInstanceBy p iteration none = none) ∧
    (∀ (iteration : List Nat) (L1 : lua_State),
      iteration.Perm p.sRuntimeContextCollection →
      some (resolveMainState p.world L1) ∉ p.mainStates →
      RuntimeContext.GetInstanceBy p iteration (some L1) = none) := by
  obtain ⟨hc, hn, hz⟩ := hwf
  have hreturned : ∀ (iteration : List Nat) (L1 : lua_State) (b : Nat),
      iteration.Perm p.sRuntimeContextCollection →
      RuntimeContext.GetInstanceBy p iteration (some L1) = some b →
      b ∈ p.sRuntimeContextCollection ∧
      ∃ o, p.objects.lookup b = some o ∧
        o.GetMainLuaState = some (resolveMainState p.world L1) := by
    intro iteration L1 b hperm hb
    unfold RuntimeContext.GetInstanceBy at hb
    simp only at hb
    have hmem := List.mem_of_find?_eq_some hb
    have hpred := List.find?_some hb
    refine ⟨hperm.mem_iff.mp hmem, ?_⟩
    cases hl : p.objects.lookup b with
    | none => rw [hl] at hpred; simp at hpred
    | some o =>
      rw [hl] at hpred
      simp only [Bool.and_eq_true, decide_eq_true_eq] at hpred
      exact ⟨o, rfl, hpred.2⟩
  have hpred : ∀ (a : Nat) (object : RuntimeContext) (L1 : lua_State),
      a ∈ p.sRuntimeContextCollection → p.objects.lookup a = some object →
      object.GetMainLuaState = some (resolveMainState p.world L1) →
      (decide (a ≠ 0) &&
        match p.objects.lookup a with
        | some object => decide (object.GetMainLuaState = some (resolveMainState p.world L1))
        | none => false) = true := by
    intro a object L1 ha hlook hmain
    have ha0 : a ≠ 0 := fun e => hz (by rw [← hc, ← e]; exact ha)
    rw [hlook]
    simp [ha0, hmain]
  refine ⟨?_, ?_, hreturned, ?_, fun _ => rfl, ?_⟩
  · intro this L p2 hcons hfree
    unfold RuntimeContext.construct at hcons
    simp only at hcons
    injection hcons with hcons
    rw [← hcons]
    refine ⟨_, lookup_append_of_not_mem p.objects this _ hfree, rfl, fun hroots => ?_⟩
    have hi := resolveMainState_idempotent p.world hroots L
    refine ⟨?_, hi⟩
    show some (boundMainState p.world L) = _
    unfold boundMainState
    rw [hi]
  · intro iteration a object L1 hperm ha hlook hmain
    cases hfind : RuntimeContext.GetInstanceBy p iteration (some L1) with
    | some b => exact ⟨b, rfl⟩
    | none =>
      exfalso
      unfold RuntimeContext.GetInstanceBy at hfind
      simp only at hfind
      rw [List.find?_eq_none] at hfind
      exact hfind a (hperm.mem_iff.mpr ha) (hpred a object L1 ha hlook hmain)
  · intro iteration a object L1 hperm ha hlook hmain hunique
    unfold RuntimeContext.GetInstanceBy
    simp only
    apply find?_of_unique _ _ a (hperm.mem_iff.mpr ha) (hpred a object L1 ha hlook hmain)
    intro b hb hbp
    cases hl : p.objects.lookup b with
    | none => rw [hl] at hbp; simp at hbp
    | some o =>
      rw [hl] at hbp
      simp only [Bool.and_eq_true, decide_eq_true_eq] at hbp
      exact hunique b o (hperm.mem_iff.mp hb) hl hbp.2
  · intro iteration L1 hperm hnot
    unfold RuntimeContext.GetInstanceBy
    simp only
    rw [List.find?_eq_none]
    intro b hb hbp
    cases hl : p.objects.lookup b with
    | none => rw [hl] at hbp; simp at hbp
    | some o =>
      rw [hl] at hbp
      simp only [Bool.and_eq_true, decide_eq_true_eq] at hbp
      apply hnot
      unfold Process.mainStates
      rw [List.mem_filterMap]
      exact ⟨b, hperm.mem_iff.mp hb, by rw [hl]; simp [hbp.2]⟩

set_option maxRecDepth 100000 in
/-- Witness for the amended C21: after two loads for the states 1 and 2 of the
fresh world, the context at address 2 is the only one with main state 2, and
`GetInstanceBy` of state 2 returns it, here with the collection iterated from
address 2 to address 1. -/
theorem C21_root_resolution_witness :
    Process.loadedForTwoStates.WellFormed ∧
    List.Perm [2, 1] Process.loadedForTwoStates.sRuntimeContextCollection ∧
    Process.loadedForTwoStates.mainStates = [some 1, some 2] ∧
    RuntimeContext.GetInstanceBy Process.loadedForTwoStates [2, 1] (some 2) = some 2 := by
  have hwf : Process.loadedForTwoStates.WellFormed := ⟨by decide, by decide, by decide⟩
  have hc : Process.loadedForTwoStates.sRuntimeContextCollection = [1, 2] := by decide
  have hperm : List.Perm [2, 1] Process.loadedForTwoStates.sRuntimeContextCollection := by
    rw [hc]
    exact List.Perm.swap 1 2 []
  have hl1 : (Process.loadedForTwoStates.objects.lookup 1).map RuntimeContext.GetMainLuaState
      = some (some 1) := by decide
  have hl2 : Process.loadedForTwoStates.objects.lookup 2 =
      some { fLuaEventDispatcherPointer :=
               some { fLuaStatePointer := some 2, fLuaRegistryReferenceId := LUA_NOREF },
             fLuaEnterFrameCallback := { owner := 2, luaStatePointer := some 2 },
             fDispatchEventTaskQueue := [] } := by decide
  have hroot : resolveMainState Process.loadedForTwoStates.world 2 = 2 := by decide
  refine ⟨hwf, hperm, by decide, ?_⟩
  refine (C21_root_resolution Process.loadedForTwoStates hwf).2.2.2.1 [2, 1] 2 _ 2 hperm
    (by rw [hc]; decide) hl2 (by rw [hroot]; rfl) ?_
  intro b o hb hlook hmain
  rw [hc] at hb
  rw [hroot] at hmain
  simp only [List.mem_cons, List.mem_singleton, List.not_mem_nil, or_false] at hb
  rcases hb with hb | hb
  · exfalso
    subst hb
    rw [hlook] at hl1
    simp only [Option.map_some', Option.some.injEq] at hl1
    rw [hmain] at hl1
    exact absurd hl1 (by decide)
  · exact hb

set_option maxRecDepth 100000 in
/-- Root resolution evaluated on a coroutine: in the runtime with main state 1, a
context constructed from the coroutine state 2 has main state 1, and
`GetInstanceBy` returns it for the states 1, 2 and 3 alike and null for a null
state. -/
theorem root_resolution_evaluated :
    ((RuntimeContext.construct (Process.initial (World.coroutineRuntime [])) 1 (some 2)).map
      (fun p => (p.mainStates,
        RuntimeContext.GetInstanceBy p p.sRuntimeContextCollection (some 1),
        RuntimeContext.GetInstanceBy p p.sRuntimeContextCollection (some 2),
        RuntimeContext.GetInstanceBy p p.sRuntimeContextCollection (some 3),
        RuntimeContext.GetInstanceBy p p.sRuntimeContextCollection none)))
      = some ([some 1], some 1, some 1, some 1, none) := by
  decide

theorem World.eq_of_fields (a b : World) (hs : a.stack = b.stack) (hg : a.globals = b.globals)
    (hr : a.registry = b.registry) (hh : a.heap = b.heap)
    (hc : a.coronaThread = b.coronaThread) (he : a.env = b.env) : a = b := by
  cases a
  cases b
  simp only at hs hg hr hh hc he
  subst hs hg hr hh hc he
  rfl

/-- A pop undoes a push. -/
theorem lua_pop_push (w : World) (L : lua_State) (v : LuaValue) :
    lua_pop (push w L v) L 1 = w := by
  apply World.eq_of_fields
  · funext l
    rw [stack_lua_pop, stack_push, if_pos rfl]
    by_cases hl : l = L
    · rw [if_pos hl, hl]; simp
    · rw [if_neg hl, stack_push, if_neg hl]
  all_goals rfl

theorem valueAt_top_push (w : World) (L : lua_State) (v : LuaValue) :
    valueAt (push w L v) L (-1) = v :=
  valueAt_neg_one (push w L v) L (w.stack L) v (by simp)

theorem valueAt_globals (w : World) (L : lua_State) :
    valueAt w L LUA_GLOBALSINDEX = LuaValue.table (w.globals L) := by
  unfold valueAt
  rw [if_neg (by decide), if_neg (by decide), if_neg (by decide), if_pos rfl]

theorem rawget_push (w : World) (L : lua_State) (v : LuaValue) (ref : Nat) (k : LuaValue) :
    (push w L v).rawget ref k = w.rawget ref k := rfl

/-- The first block of `LoadFrom` leaves the world as it was and reports whether
`package.loaded.config` is not nil. -/
theorem probeConfigLoaded_spec (w : World) (L : lua_State) :
    PluginConfigLuaSettings.probeConfigLoaded w L
      = (!decide (packageLoadedConfig w L = LuaValue.nil), w) := by
  cases h1 : w.rawget (w.globals L) (LuaValue.string "package") with
  | table package =>
    cases h2 : w.rawget package (LuaValue.string "loaded") with
    | table loaded =>
      unfold PluginConfigLuaSettings.probeConfigLoaded packageLoadedConfig lua_getglobal
        lua_getfield lua_istable lua_isnil
      simp only [valueAt_top_push, valueAt_globals, fieldOf, rawget_push, h1, h2, if_true,
        lua_pop_push]
    | _ =>
      unfold PluginConfigLuaSettings.probeConfigLoaded packageLoadedConfig lua_getglobal
        lua_getfield lua_istable lua_isnil
      simp [valueAt_top_push, valueAt_globals, fieldOf, rawget_push, h1, h2, lua_pop_push]
  | _ =>
    unfold PluginConfigLuaSettings.probeConfigLoaded packageLoadedConfig lua_getglobal
      lua_getfield lua_istable lua_isnil
    simp [valueAt_top_push, valueAt_globals, fieldOf, rawget_push, h1, lua_pop_push]

theorem readString_world (w : World) (L : lua_State) (field current : String) :
    (PluginConfigLuaSettings.readString w L field current).2 = w := by
  unfold PluginConfigLuaSettings.readString lua_getfield
  simp only [lua_pop_push]

/-- The block of `LoadFrom` that reads the settings leaves the world as it was. -/
theorem readSettings_world (c : PluginConfigLuaSettings) (w : World) (L : lua_State) :
    (c.readSettings w L).2.2 = w := by
  unfold PluginConfigLuaSettings.readSettings
  simp only
  by_cases h1 : lua_istable (lua_getglobal w L "application") L (-1) = true
  · rw [if_pos h1]
    by_cases h2 : lua_istable (lua_getfield (lua_getglobal w L "application") L (-1) "gog")
        L (-1) = true
    · rw [if_pos h2]
      simp only [readString_world]
      unfold lua_getfield lua_getglobal lua_getfield
      simp only [lua_pop_push]
    · rw [if_neg h2]
      unfold lua_getfield lua_getglobal lua_getfield
      simp only [lua_pop_push]
  · rw [if_neg h1]
    unfold lua_getglobal lua_getfield
    simp only [lua_pop_push]

theorem lua_pop_rawset (w : World) (L : lua_State) (n : Nat) (ref : Nat) (k v : LuaValue) :
    lua_pop (w.rawset ref k v) L n = (lua_pop w L n).rawset ref k v := rfl

theorem valueAt_second_push (w : World) (L : lua_State) (a b : LuaValue) :
    valueAt (push (push w L a) L b) L (-2) = a :=
  valueAt_neg_two (push (push w L a) L b) L (w.stack L) a b (by simp)

/-- The block of `LoadFrom` that unloads the configuration sets
`package.loaded.config` to nil when both are tables and changes nothing else. -/
theorem unloadConfig_spec (w : World) (L : lua_State) :
    PluginConfigLuaSettings.unloadConfig w L = unloadedConfig w L := by
  cases h1 : w.rawget (w.globals L) (LuaValue.string "package") with
  | table package =>
    cases h2 : w.rawget package (LuaValue.string "loaded") with
    | table loaded =>
      unfold PluginConfigLuaSettings.unloadConfig unloadedConfig lua_getglobal lua_getfield
        lua_istable lua_setfield lua_pushnil
      simp only [valueAt_top_push, valueAt_second_push, valueAt_globals, fieldOf, rawget_push,
        h1, h2, if_true, lua_pop_push, lua_pop_rawset]
    | _ =>
      unfold PluginConfigLuaSettings.unloadConfig unloadedConfig lua_getglobal lua_getfield
        lua_istable
      simp [valueAt_top_push, valueAt_globals, fieldOf, rawget_push, h1, h2, lua_pop_push]
  | _ =>
    unfold PluginConfigLuaSettings.unloadConfig unloadedConfig lua_getglobal lua_getfield
      lua_istable
    simp [valueAt_top_push, valueAt_globals, fieldOf, rawget_push, h1, lua_pop_push]

theorem CoronaLuaDoCall_one_argument (w : World) (L : lua_State) (st : List LuaValue)
    (fn a : LuaValue) (nresults : Nat) (hst : w.stack L = st ++ [fn, a])
    (hfn : (∃ ref, fn = LuaValue.function ref) ∨
      (∃ name upvalue, fn = LuaValue.cfunction name upvalue)) :
    (CoronaLuaDoCall w L 1 nresults).1.heap
      = (w.env.script.headD CallReaction.quiet).heapEffect w.heap ∧
    (CoronaLuaDoCall w L 1 nresults).1.globals = w.globals := by
  have hbase : (w.stack L).length - (1 + 1) = st.length := by
    rw [hst]; simp
  have hcallee : (w.stack L).getD st.length LuaValue.nil = fn := by
    rw [hst]; exact getD_length_append st fn [a] LuaValue.nil
  unfold CoronaLuaDoCall
  simp only [hbase, hcallee]
  rcases hfn with ⟨ref, rfl⟩ | ⟨name, upvalue, rfl⟩
  · simp only [if_true]
    split <;> exact ⟨rfl, rfl⟩
  · simp only [if_true]
    split <;> exact ⟨rfl, rfl⟩

theorem stack_requireConfig (w : World) (L : lua_State) :
    (PluginConfigLuaSettings.requireConfig w L).stack = w.stack := by
  unfold PluginConfigLuaSettings.requireConfig
  simp only
  split
  · obtain ⟨v, hv⟩ := stack_CoronaLuaDoCall_one
      (lua_pushstring (lua_getglobal w L "require") L "config") L 1
    funext l
    rw [stack_lua_pop, hv, if_pos rfl]
    by_cases hl : l = L
    · rw [if_pos hl, hl]
      simp [lua_getglobal]
    · rw [if_neg hl, hv, if_neg hl]
      simp [lua_getglobal, hl]
  · unfold lua_getglobal lua_getfield
    rw [lua_pop_push]

theorem globals_requireConfig (w : World) (L : lua_State) :
    (PluginConfigLuaSettings.requireConfig w L).globals = w.globals := by
  cases h : w.rawget (w.globals L) (LuaValue.string "require") with
  | function ref =>
    unfold PluginConfigLuaSettings.requireConfig lua_isfunction lua_getglobal lua_getfield
    simp only [valueAt_top_push, valueAt_globals, fieldOf, h, if_true]
    exact (CoronaLuaDoCall_one_argument _ L (w.stack L) (LuaValue.function ref)
      (LuaValue.string "config") 1 (by simp [lua_pushstring]) (Or.inl ⟨ref, rfl⟩)).2
  | cfunction name upvalue =>
    unfold PluginConfigLuaSettings.requireConfig lua_isfunction lua_getglobal lua_getfield
    simp only [valueAt_top_push, valueAt_globals, fieldOf, h, if_true]
    exact (CoronaLuaDoCall_one_argument _ L (w.stack L) (LuaValue.cfunction name upvalue)
      (LuaValue.string "config") 1 (by simp [lua_pushstring]) (Or.inr ⟨name, upvalue, rfl⟩)).2
  | _ =>
    unfold PluginConfigLuaSettings.requireConfig lua_isfunction lua_getglobal lua_getfield
    simp [valueAt_top_push, valueAt_globals, fieldOf, h, lua_pop_push]

theorem heap_requireConfig (w : World) (L : lua_State) :
    (PluginConfigLuaSettings.requireConfig w L).heap = heapAfterRequire w L := by
  cases h : w.rawget (w.globals L) (LuaValue.string "require") with
  | function ref =>
    unfold PluginConfigLuaSettings.requireConfig lua_isfunction lua_getglobal lua_getfield
      heapAfterRequire
    simp only [valueAt_top_push, valueAt_globals, fieldOf, h, if_true]
    exact (CoronaLuaDoCall_one_argument _ L (w.stack L) (LuaValue.function ref)
      (LuaValue.string "config") 1 (by simp [lua_pushstring]) (Or.inl ⟨ref, rfl⟩)).1
  | cfunction name upvalue =>
    unfold PluginConfigLuaSettings.requireConfig lua_isfunction lua_getglobal lua_getfield
      heapAfterRequire
    simp only [valueAt_top_push, valueAt_globals, fieldOf, h, if_true]
    exact (CoronaLuaDoCall_one_argument _ L (w.stack L) (LuaValue.cfunction name upvalue)
      (LuaValue.string "config") 1 (by simp [lua_pushstring]) (Or.inr ⟨name, upvalue, rfl⟩)).1
  | _ =>
    unfold PluginConfigLuaSettings.requireConfig lua_isfunction lua_getglobal lua_getfield
      heapAfterRequire
    simp [valueAt_top_push, valueAt_globals, fieldOf, h, lua_pop_push]

theorem rawget_congr_heap (a b : World) (h : a.heap = b.heap) (ref : Nat) (k : LuaValue) :
    a.rawget ref k = b.rawget ref k := by
  unfold World.rawget World.object
  rw [h]

theorem heap_rawset_congr (a b : World) (h : a.heap = b.heap) (ref : Nat) (k v : LuaValue) :
    (a.rawset ref k v).heap = (b.rawset ref k v).heap := by
  unfold World.rawset World.object
  simp only [h]

theorem length_heap_rawset (w : World) (ref : Nat) (k v : LuaValue) :
    (w.rawset ref k v).heap.length = w.heap.length := by
  unfold World.rawset
  simp

theorem lookup_filter_key (fields : List (LuaValue × LuaValue)) (k : LuaValue) :
    List.lookup k (fields.filter (fun kv => !decide (kv.1 = k))) = none := by
  induction fields with
  | nil => rfl
  | cons kv rest ih =>
    obtain ⟨a, b⟩ := kv
    by_cases ha : a = k
    · simp only [List.filter_cons, ha, decide_True, Bool.not_true]
      simpa using ih
    · have hk : (k == a) = false := by simpa using fun e : k = a => ha e.symm
      simp only [List.filter_cons, ha, decide_False, Bool.not_false, if_true]
      rw [List.lookup_cons]
      simp only [hk]
      exact ih

theorem heap_rawset_dangling (w : World) (ref : Nat) (k v : LuaValue)
    (hr : ¬ ref < w.heap.length) : (w.rawset ref k v).heap = w.heap := by
  unfold World.rawset
  exact List.set_eq_of_length_le (by omega)

/-- Reading a field that has just been erased gives nil. -/
theorem rawget_rawset_nil (w : World) (ref : Nat) (k : LuaValue) :
    (w.rawset ref k LuaValue.nil).rawget ref k = LuaValue.nil := by
  by_cases hr : ref < w.heap.length
  · unfold World.rawget World.rawset World.object
    simp [hr, lookup_filter_key]
  · rw [rawget_congr_heap _ _ (heap_rawset_dangling w ref k LuaValue.nil hr)]
    unfold World.rawget World.object
    rw [List.getD_eq_default _ _ (by omega)]
    rfl

/-- Writing a field leaves every field with another key as it was, in every
object. -/
theorem rawget_rawset_ne_key (w : World) (ref ref2 : Nat) (k k2 v : LuaValue)
    (hk : k2 ≠ k) : (w.rawset ref k v).rawget ref2 k2 = w.rawget ref2 k2 := by
  by_cases hr : ref < w.heap.length
  · by_cases he : ref2 = ref
    · rw [he]
      exact rawget_rawset_other w ref k k2 v hr hk
    · unfold World.rawget World.rawset World.object
      simp only [List.getD_eq_getElem?_getD]
      rw [List.getElem?_set_ne (fun e => he e.symm)]
  · exact rawget_congr_heap _ _ (heap_rawset_dangling w ref k v hr) ref2 k2

/-- Reading a field that has just been written gives the value written, in a
live object. -/
theorem rawget_rawset_value (w : World) (ref : Nat) (k v : LuaValue)
    (hr : ref < w.heap.length) : (w.rawset ref k v).rawget ref k = v := by
  by_cases hv : v = LuaValue.nil
  · rw [hv]; exact rawget_rawset_nil w ref k
  · exact rawget_rawset_same w ref k v hr hv

theorem stack_unloadedConfig (w : World) (L : lua_State) :
    (unloadedConfig w L).stack = w.stack ∧ (unloadedConfig w L).globals = w.globals := by
  unfold unloadedConfig
  split
  · split
    · exact ⟨rfl, rfl⟩
    · exact ⟨rfl, rfl⟩
  · exact ⟨rfl, rfl⟩

theorem heap_unloadedConfig_congr (a b : World) (L : lua_State) (hh : a.heap = b.heap)
    (hg : a.globals L = b.globals L) : (unloadedConfig a L).heap = (unloadedConfig b L).heap := by
  unfold unloadedConfig
  rw [rawget_congr_heap a b hh, hg]
  cases h1 : b.rawget (b.globals L) (LuaValue.string "package") with
  | table package =>
    simp only
    rw [rawget_congr_heap a b hh]
    cases h2 : b.rawget package (LuaValue.string "loaded") with
    | table loaded => exact heap_rawset_congr a b hh _ _ _
    | _ => exact hh
  | _ => exact hh

theorem packageLoadedConfig_congr (a b : World) (L : lua_State) (hh : a.heap = b.heap)
    (hg : a.globals L = b.globals L) : packageLoadedConfig a L = packageLoadedConfig b L := by
  unfold packageLoadedConfig
  rw [rawget_congr_heap a b hh, hg]
  cases h1 : b.rawget (b.globals L) (LuaValue.string "package") with
  | table package =>
    simp only
    rw [rawget_congr_heap a b hh]
    cases h2 : b.rawget package (LuaValue.string "loaded") with
    | table loaded => exact rawget_congr_heap a b hh _ _
    | _ => rfl
  | _ => rfl

/-- Effect of `lua_setglobal` on a stack with the value to store on top. -/
theorem lua_setglobal_spec (w : World) (L : lua_State) (k : String) (st : List LuaValue)
    (v : LuaValue) (hst : w.stack L = st ++ [v]) :
    (∀ l, (lua_setglobal w L k).stack l = if l = L then st else w.stack l) ∧
    (lua_setglobal w L k).globals = w.globals ∧
    (lua_setglobal w L k).heap = (w.rawset (w.globals L) (LuaValue.string k) v).heap := by
  have hv : valueAt w L (-1) = v := valueAt_neg_one w L st v hst
  unfold lua_setglobal lua_setfield
  simp only [valueAt_globals, hv]
  refine ⟨fun l => ?_, rfl, rfl⟩
  show (lua_pop w L 1).stack l = _
  rw [stack_lua_pop, hst]
  by_cases hl : l = L
  · rw [if_pos hl, if_pos hl]; simp
  · rw [if_neg hl, if_neg hl]

/-- The world `LoadFrom` leaves, field by field: every stack and the table of
globals are as before; the heap is the heap `require("config")` left, with
`package.loaded.config` set to nil when it was nil before the call, and with the
global `application` set to the value it had before the call. -/
theorem LoadFrom_fields (c : PluginConfigLuaSettings) (w : World) (L : lua_State) :
    (c.LoadFrom w (some L)).2.2.stack = w.stack ∧
    (c.LoadFrom w (some L)).2.2.globals = w.globals ∧
    (c.LoadFrom w (some L)).2.2.heap =
      ((if packageLoadedConfig w L = LuaValue.nil then
          unloadedConfig { w with heap := heapAfterRequire w L } L
        else { w with heap := heapAfterRequire w L }).rawset (w.globals L)
        (LuaValue.string "application") (globalApplication w L)).heap := by
  have hw1 : lua_getglobal w L "application" = push w L (globalApplication w L) := by
    unfold lua_getglobal lua_getfield globalApplication
    rw [valueAt_globals]
    rfl
  have hst2 := stack_requireConfig (push w L (globalApplication w L)) L
  have hg2 : (PluginConfigLuaSettings.requireConfig (push w L (globalApplication w L)) L).globals
      = w.globals := globals_requireConfig (push w L (globalApplication w L)) L
  have hh2 : (PluginConfigLuaSettings.requireConfig (push w L (globalApplication w L)) L).heap
      = heapAfterRequire w L := heap_requireConfig (push w L (globalApplication w L)) L
  unfold PluginConfigLuaSettings.LoadFrom
  simp only [probeConfigLoaded_spec, readSettings_world, hw1, unloadConfig_spec]
  by_cases hcfg : packageLoadedConfig w L = LuaValue.nil
  · simp only [hcfg, decide_True, Bool.not_true, Bool.not_false, if_true]
    obtain ⟨hsu, hgu⟩ := stack_unloadedConfig
      (PluginConfigLuaSettings.requireConfig (push w L (globalApplication w L)) L) L
    have hst3 : (unloadedConfig (PluginConfigLuaSettings.requireConfig
        (push w L (globalApplication w L)) L) L).stack L
        = w.stack L ++ [globalApplication w L] := by
      rw [hsu, hst2]; simp
    obtain ⟨hs, hg, hh⟩ := lua_setglobal_spec _ L "application" _ _ hst3
    refine ⟨?_, ?_, ?_⟩
    · funext l
      rw [hs l, hsu, hst2]
      by_cases hl : l = L
      · rw [if_pos hl, hl]
      · rw [if_neg hl]; simp [hl]
    · rw [hg, hgu, hg2]
    · rw [hh, hgu, hg2]
      exact heap_rawset_congr _ _
        (heap_unloadedConfig_congr _ { w with heap := heapAfterRequire w L } L hh2
          (by rw [hg2])) _ _ _
  · simp only [hcfg, decide_False, Bool.not_false, Bool.not_true, Bool.false_eq_true, if_false]
    have hst3 : (PluginConfigLuaSettings.requireConfig
        (push w L (globalApplication w L)) L).stack L
        = w.stack L ++ [globalApplication w L] := by
      rw [hst2]; simp
    obtain ⟨hs, hg, hh⟩ := lua_setglobal_spec _ L "application" _ _ hst3
    refine ⟨?_, ?_, ?_⟩
    · funext l
      rw [hs l, hst2]
      by_cases hl : l = L
      · rw [if_pos hl, hl]
      · rw [if_neg hl]; simp [hl]
    · rw [hg, hg2]
    · rw [hh, hg2]
      exact heap_rawset_congr _ { w with heap := heapAfterRequire w L } hh2 _ _ _

theorem packageLoadedConfig_rawset_application (a : World) (L : lua_State) (ref : Nat)
    (v : LuaValue) :
    packageLoadedConfig (a.rawset ref (LuaValue.string "application") v) L
      = packageLoadedConfig a L := by
  unfold packageLoadedConfig
  rw [rawget_rawset_ne_key a ref _ _ _ v (by decide)]
  show (match a.rawget (a.globals L) (LuaValue.string "package") with
    | LuaValue.table package =>
      match (a.rawset ref (LuaValue.string "application") v).rawget package
          (LuaValue.string "loaded") with
      | LuaValue.table loaded =>
        (a.rawset ref (LuaValue.string "application") v).rawget loaded (LuaValue.string "config")
      | _ => LuaValue.nil
    | _ => LuaValue.nil) = _
  cases h1 : a.rawget (a.globals L) (LuaValue.string "package") with
  | table package =>
    simp only
    rw [rawget_rawset_ne_key a ref _ _ _ v (by decide)]
    cases h2 : a.rawget package (LuaValue.string "loaded") with
    | table loaded =>
      simp only
      exact rawget_rawset_ne_key a ref _ _ _ v (by decide)
    | _ => rfl
  | _ => rfl

theorem packageLoadedConfig_unloadedConfig (a : World) (L : lua_State) :
    packageLoadedConfig (unloadedConfig a L) L = LuaValue.nil := by
  cases h1 : a.rawget (a.globals L) (LuaValue.string "package") with
  | table package =>
    cases h2 : a.rawget package (LuaValue.string "loaded") with
    | table loaded =>
      have hu : unloadedConfig a L
          = a.rawset loaded (LuaValue.string "config") LuaValue.nil := by
        unfold unloadedConfig
        simp only [h1, h2]
      rw [hu]
      unfold packageLoadedConfig
      have e1 : (a.rawset loaded (LuaValue.string "config") LuaValue.nil).rawget
          ((a.rawset loaded (LuaValue.string "config") LuaValue.nil).globals L)
          (LuaValue.string "package") = LuaValue.table package := by
        rw [← h1]
        exact rawget_rawset_ne_key a loaded _ _ _ _ (by decide)
      have e2 : (a.rawset loaded (LuaValue.string "config") LuaValue.nil).rawget package
          (LuaValue.string "loaded") = LuaValue.table loaded := by
        rw [← h2]
        exact rawget_rawset_ne_key a loaded _ _ _ _ (by decide)
      simp only [e1, e2]
      exact rawget_rawset_nil a loaded _
    | _ =>
      have hu : unloadedConfig a L = a := by
        unfold unloadedConfig
        simp only [h1, h2]
      rw [hu]
      unfold packageLoadedConfig
      simp only [h1, h2]
  | _ =>
    have hu : unloadedConfig a L = a := by
      unfold unloadedConfig
      simp only [h1]
    rw [hu]
    unfold packageLoadedConfig
    simp only [h1]

theorem length_heap_unloadedConfig (a : World) (L : lua_State) :
    (unloadedConfig a L).heap.length = a.heap.length := by
  unfold unloadedConfig
  split
  · split
    · exact length_heap_rawset _ _ _ _
    · rfl
  · rfl

/-- Claim C22 (`LoadFrom` restores the scripting environment): for a non-null
state whose table of globals is still a live object after `require("config")`
ran, after `LoadFrom` every Lua stack is exactly as before the call (so the
height is the height before), the global `application` has the value it had
before the call (nil when it was unset), `package.loaded["config"]` is nil when
it was nil before the call, and when it was already loaded it has the value
`require("config")` left, `LoadFrom` itself not writing to it, which is the value
before the call when the `require` of the loaded module does not change it.
With a null state `LoadFrom` returns false and touches nothing. -/
theorem C22_LoadFrom_restores_the_environment (c : PluginConfigLuaSettings) (w : World)
    (L : lua_State) (hglobals : w.globals L < (heapAfterRequire w L).length) :
    (∀ l, (c.LoadFrom w (some L)).2.2.stack l = w.stack l ∧
      ((c.LoadFrom w (some L)).2.2.stack l).length = (w.stack l).length) ∧
    globalApplication (c.LoadFrom w (some L)).2.2 L = globalApplication w L ∧
    (packageLoadedConfig w L = LuaValue.nil →
      packageLoadedConfig (c.LoadFrom w (some L)).2.2 L = LuaValue.nil) ∧
    (packageLoadedConfig w L ≠ LuaValue.nil →
      packageLoadedConfig (c.LoadFrom w (some L)).2.2 L
        = packageLoadedConfig { w with heap := heapAfterRequire w L } L) ∧
    (packageLoadedConfig w L ≠ LuaValue.nil →
      packageLoadedConfig { w with heap := heapAfterRequire w L } L = packageLoadedConfig w L →
      packageLoadedConfig (c.LoadFrom w (some L)).2.2 L = packageLoadedConfig w L) ∧
    c.LoadFrom w none = (false, c, w) := by
  obtain ⟨hs, hg, hh⟩ := LoadFrom_fields c w L
  have hcfg : ∀ X : World, X.heap.length = (heapAfterRequire w L).length →
      (c.LoadFrom w (some L)).2.2.heap
        = (X.rawset (w.globals L) (LuaValue.string "application") (globalApplication w L)).heap →
      globalApplication (c.LoadFrom w (some L)).2.2 L = globalApplication w L := by
    intro X hlen hX
    unfold globalApplication
    rw [hg, rawget_congr_heap _ _ hX]
    exact rawget_rawset_value X (w.globals L) _ _ (by rw [hlen]; exact hglobals)
  have hloaded : packageLoadedConfig w L ≠ LuaValue.nil →
      packageLoadedConfig (c.LoadFrom w (some L)).2.2 L
        = packageLoadedConfig { w with heap := heapAfterRequire w L } L := by
    intro hne
    rw [if_neg hne] at hh
    rw [packageLoadedConfig_congr _ _ L hh (by rw [hg]; rfl)]
    exact packageLoadedConfig_rawset_application _ L _ _
  refine ⟨fun l => ⟨by rw [hs], by rw [hs]⟩, ?_, ?_, hloaded, ?_, rfl⟩
  · by_cases hnil : packageLoadedConfig w L = LuaValue.nil
    · rw [if_pos hnil] at hh
      exact hcfg _ (length_heap_unloadedConfig _ L) hh
    · rw [if_neg hnil] at hh
      exact hcfg _ rfl hh
  · intro hnil
    rw [if_pos hnil] at hh
    rw [packageLoadedConfig_congr _ _ L hh
      (by
        rw [hg]
        show w.globals L
          = (unloadedConfig { w with heap := heapAfterRequire w L } L).globals L
        rw [(stack_unloadedConfig { w with heap := heapAfterRequire w L } L).2]),
      packageLoadedConfig_rawset_application]
    exact packageLoadedConfig_unloadedConfig _ L
  · intro hne hsame
    rw [hloaded hne, hsame]

/-- Witness for C22: `config.lua` is loaded in `World.withConfigFile`, where it
was not loaded before and the global `application` was set. -/
theorem C22_LoadFrom_restores_the_environment_witness :
    World.withConfigFile.globals 1 < (heapAfterRequire World.withConfigFile 1).length ∧
    packageLoadedConfig World.withConfigFile 1 = LuaValue.nil ∧
    globalApplication (PluginConfigLuaSettings.create.LoadFrom World.withConfigFile (some 1)).2.2 1
      = globalApplication World.withConfigFile 1 ∧
    packageLoadedConfig (PluginConfigLuaSettings.create.LoadFrom World.withConfigFile (some 1)).2.2
      1 = LuaValue.nil :=
  ⟨by decide, by decide,
   (C22_LoadFrom_restores_the_environment PluginConfigLuaSettings.create World.withConfigFile 1
      (by decide)).2.1,
   (C22_LoadFrom_restores_the_environment PluginConfigLuaSettings.create World.withConfigFile 1
      (by decide)).2.2.1 (by decide)⟩

set_option maxRecDepth 100000 in
/-- The load of `config.lua` evaluated: the settings table is found and the
client id read, while `require("config")` has set `package.loaded.config` and
replaced the global `application`; after the call the global is "old" again,
`package.loaded.config` is nil and the stack is as before. -/
theorem LoadFrom_evaluated :
    (PluginConfigLuaSettings.create.LoadFrom World.withConfigFile (some 1)).1 = true ∧
    (PluginConfigLuaSettings.create.LoadFrom World.withConfigFile (some 1)).2.1.GetStringClientId
      = "id-1" ∧
    globalApplication { World.withConfigFile with
      heap := heapAfterRequire World.withConfigFile 1 } 1 = LuaValue.table 4 ∧
    packageLoadedConfig { World.withConfigFile with
      heap := heapAfterRequire World.withConfigFile 1 } 1 = LuaValue.boolean true ∧
    globalApplication (PluginConfigLuaSettings.create.LoadFrom World.withConfigFile (some 1)).2.2 1
      = LuaValue.string "old" ∧
    packageLoadedConfig (PluginConfigLuaSettings.create.LoadFrom World.withConfigFile (some 1)).2.2
      1 = LuaValue.nil ∧
    (PluginConfigLuaSettings.create.LoadFrom World.withConfigFile (some 1)).2.2.stack 1
      = [LuaValue.number 7] :=
  ⟨by decide, by decide, by decide, by decide, by decide, by decide, by decide⟩

end Gog
